import Mathlib

/-! IEEE P1722.1 dissector (`packet-ieee17221.c`)

A shallow embedding of the ADP and ACMP dissectors and of the subtype
dispatcher `dissect_17221`, together with the part of the Wireshark
protocol-tree interface they call.

* The captured payload (`tvbuff_t`) is a list of octets.
* The protocol tree is an arena: the nodes in the order in which
  `proto_tree_add_item` created them, each with a reference to its parent.
  A `proto_tree *` / `proto_item *` is an optional reference (`none` is `NULL`).
* The dissectors run in a state-and-exception monad.  An out-of-bounds read
  raises `BoundsError`; the nodes added before the raise stay in the tree.
-/

namespace Ieee17221

/-! ## Octet buffers -/

/-- One octet (`guint8`). -/
abbrev guint8 := Fin 256

/-- The payload handed to the dissector (`tvbuff_t`). -/
abbrev tvbuff_t := List guint8

/-- Exceptions of the dissection engine.  `BoundsError` stands for both of
Wireshark's out-of-bounds exceptions (captured and reported length are not
distinguished here); `DissectorError` is a failed `DISSECTOR_ASSERT`. -/
inductive exception where
  | BoundsError
  | DissectorError
deriving DecidableEq, Repr

/-- Octet `i` of the buffer as a number; callers check the bound first. -/
def octet (tvb : tvbuff_t) (i : Nat) : Nat :=
  match tvb[i]? with
  | some b => b.val
  | none => 0

/-- Library accessor `tvb_get_guint8`. -/
def tvb_get_guint8 (tvb : tvbuff_t) (offset : Nat) : Except exception Nat :=
  if offset + 1 ≤ tvb.length then .ok (octet tvb offset) else .error .BoundsError

/-- Library accessor `tvb_get_ntohs`: 16 bits, network byte order. -/
def tvb_get_ntohs (tvb : tvbuff_t) (offset : Nat) : Except exception Nat :=
  if offset + 2 ≤ tvb.length then
    .ok (octet tvb offset * 2 ^ 8 + octet tvb (offset + 1))
  else .error .BoundsError

/-- Library accessor `tvb_get_ntoh24`: 24 bits, network byte order. -/
def tvb_get_ntoh24 (tvb : tvbuff_t) (offset : Nat) : Except exception Nat :=
  if offset + 3 ≤ tvb.length then
    .ok (octet tvb offset * 2 ^ 16 + octet tvb (offset + 1) * 2 ^ 8 + octet tvb (offset + 2))
  else .error .BoundsError

/-- Library accessor `tvb_get_ntohl`: 32 bits, network byte order. -/
def tvb_get_ntohl (tvb : tvbuff_t) (offset : Nat) : Except exception Nat :=
  if offset + 4 ≤ tvb.length then
    .ok (octet tvb offset * 2 ^ 24 + octet tvb (offset + 1) * 2 ^ 16
          + octet tvb (offset + 2) * 2 ^ 8 + octet tvb (offset + 3))
  else .error .BoundsError

/-- Library helper `get_uint_value` (big-endian branch): the read is selected by
the `length` argument of the call, not by the registered field type. -/
def get_uint_value (tvb : tvbuff_t) (offset length : Nat) : Except exception Nat :=
  match length with
  | 1 => tvb_get_guint8 tvb offset
  | 2 => tvb_get_ntohs tvb offset
  | 3 => tvb_get_ntoh24 tvb offset
  | 4 => tvb_get_ntohl tvb offset
  | _ => .error .DissectorError

/-- The shift-and-add loop of `proto_tree_set_uint64_tvb` over a copied run of octets. -/
def uint64_accumulate (tvb : tvbuff_t) (offset : Nat) : Nat → Nat → Nat
  | 0, value => value
  | n + 1, value => uint64_accumulate tvb (offset + 1) n (value * 2 ^ 8 + octet tvb offset)

/-- Library helper `proto_tree_set_uint64_tvb` (big-endian branch), 1 to 8 octets. -/
def get_uint64_value (tvb : tvbuff_t) (offset length : Nat) : Except exception Nat :=
  if 1 ≤ length ∧ length ≤ 8 then
    if offset + length ≤ tvb.length then .ok (uint64_accumulate tvb offset length 0)
    else .error .BoundsError
  else .error .DissectorError

/-- Library accessor `tvb_get_ptr` as used for `FT_ETHER`: the six octets themselves. -/
def get_ether_value (tvb : tvbuff_t) (offset length : Nat) : Except exception (List guint8) :=
  if length = 6 then
    if offset + 6 ≤ tvb.length then .ok ((tvb.drop offset).take 6)
    else .error .BoundsError
  else .error .DissectorError

/-! ## Field registration data -/

/-- Field types used by the registration table. -/
inductive ftenum where
  | FT_UINT8
  | FT_UINT16
  | FT_UINT32
  | FT_UINT64
  | FT_ETHER
deriving DecidableEq, Repr

/-- Display bases used by the registration table. -/
inductive base_display_e where
  | BASE_NONE
  | BASE_DEC
  | BASE_HEX
deriving DecidableEq, Repr

/-- One entry of a `value_string` array; `strptr = none` is the `NULL` of the
terminating `{0, NULL}` entry. -/
structure value_string where
  value : Nat
  strptr : Option String
deriving DecidableEq, Repr

/-- The registered description of a field (`header_field_info`); `strings = none`
is a `NULL` value table. -/
structure header_field_info where
  name : String
  abbrev_ : String
  type : ftenum
  display : base_display_e
  strings : Option (List value_string)
  bitmask : Nat
deriving DecidableEq, Repr

/-- Library routine `match_strval`: scan the array up to its `NULL` entry and
return the string of the first entry whose value matches. -/
def match_strval (val : Nat) : List value_string → Option String
  | [] => none
  | ⟨_, none⟩ :: _ => none
  | ⟨v, some s⟩ :: vs => if v = val then some s else match_strval val vs

/-- The loop of `wrs_count_bitshift`, bounded by the 32 bits of a mask. -/
def wrs_count_bitshift_loop (bitmask : Nat) : Nat → Nat → Nat
  | 0, bitshift => bitshift
  | fuel + 1, bitshift =>
    if bitmask &&& (1 <<< bitshift) = 0 then wrs_count_bitshift_loop bitmask fuel (bitshift + 1)
    else bitshift

/-- Library routine `wrs_count_bitshift`: position of the lowest set bit of a
non-zero mask; registration stores it as the field's `bitshift`. -/
def wrs_count_bitshift (bitmask : Nat) : Nat :=
  wrs_count_bitshift_loop bitmask 32 0

/-- Library routine `proto_tree_set_uint`: a field registered with a non-zero
mask stores the masked value shifted down to the mask's lowest set bit.  The
value tables of this dissector are written for the shifted value: the boolean
table has the codes 1 and 0 for flags whose masks go up to `0x8000`, and the
status table has the codes 0 to 15 and 31 for a field whose mask is `0xf8`. -/
def proto_tree_set_uint (hfinfo : header_field_info) (value : Nat) : Nat :=
  if hfinfo.bitmask ≠ 0 then (value &&& hfinfo.bitmask) >>> wrs_count_bitshift hfinfo.bitmask
  else value

/-! ## Protocol tree -/

/-- The value stored with a tree node. -/
inductive fvalue_t where
  | uinteger (v : Nat)
  | integer64 (v : Nat)
  | ether (bytes : List guint8)
deriving DecidableEq, Repr

/-- What a node records about the field it shows (`field_info`). -/
structure field_info where
  hfinfo : header_field_info
  start : Nat
  length : Nat
  value : fvalue_t
deriving DecidableEq, Repr

/-- A reference to a node of the tree: the root handed in by the caller, or the
item at a position of the arena. -/
inductive proto_node_ref where
  | root
  | item (idx : Nat)
deriving DecidableEq, Repr

/-- A node of the arena: its parent and its field. -/
structure proto_node where
  parent : proto_node_ref
  finfo : field_info
deriving DecidableEq, Repr

/-- The two summary columns the dissector writes (`pinfo->cinfo`). -/
structure column_info where
  col_protocol : Option String
  col_info : Option String
deriving DecidableEq, Repr

/-- Everything a dissector call can change: the summary columns and the tree. -/
structure dissect_state where
  cinfo : column_info
  nodes : List proto_node
deriving DecidableEq, Repr

/-- Outcome of a dissector run: normal return, or an exception raised after the
state reached `s`. -/
inductive Result (α : Type) where
  | ok (a : α) (s : dissect_state)
  | thrown (e : exception) (s : dissect_state)

/-- A dissection step. -/
def Dissect (α : Type) : Type := dissect_state → Result α

/-- Normal return. -/
def Dissect.pure {α : Type} (a : α) : Dissect α := fun s => .ok a s

/-- Sequencing: an exception skips the rest and keeps the state reached. -/
def Dissect.bind {α β : Type} (m : Dissect α) (f : α → Dissect β) : Dissect β := fun s =>
  match m s with
  | .ok a s1 => f a s1
  | .thrown e s1 => .thrown e s1

instance : Monad Dissect where
  pure := Dissect.pure
  bind := Dissect.bind

/-- The state a run ended in. -/
def Result.state {α : Type} : Result α → dissect_state
  | .ok _ s => s
  | .thrown _ s => s

/-- The exception a run raised, if any. -/
def Result.fault {α : Type} : Result α → Option exception
  | .ok _ _ => none
  | .thrown e _ => some e

/-- Value part of `proto_tree_new_item`: read the field from the buffer
according to its registered type. -/
def proto_tree_new_item_value (hfinfo : header_field_info) (tvb : tvbuff_t)
    (start length : Nat) : Except exception fvalue_t :=
  match hfinfo.type with
  | .FT_UINT64 =>
    match get_uint64_value tvb start length with
    | .ok v => .ok (.integer64 v)
    | .error e => .error e
  | .FT_ETHER =>
    match get_ether_value tvb start length with
    | .ok bs => .ok (.ether bs)
    | .error e => .error e
  | _ =>
    match get_uint_value tvb start length with
    | .ok v => .ok (.uinteger (proto_tree_set_uint hfinfo v))
    | .error e => .error e

/-- Library routine `proto_tree_add_item` (all calls of this dissector pass
`little_endian = FALSE`).  With a `NULL` tree nothing is read and `NULL` is
returned.  A tree that is supplied is taken to be visible, so no item is faked:
the value is read first, and only then is the node appended under `tree`, so a
raise leaves no node for the failing field. -/
def proto_tree_add_item (tree : Option proto_node_ref) (hfindex : header_field_info)
    (tvb : tvbuff_t) (start length : Nat) : Dissect (Option proto_node_ref) := fun s =>
  match tree with
  | none => .ok none s
  | some parent =>
    match proto_tree_new_item_value hfindex tvb start length with
    | .error e => .thrown e s
    | .ok v =>
      .ok (some (.item s.nodes.length))
        ⟨s.cinfo, s.nodes ++ [⟨parent, ⟨hfindex, start, length, v⟩⟩]⟩

/-- The subtree-type identifiers of this dissector (`ett[]`), and the protocol
identifier, which the dissector also passes in that position. -/
inductive subtree_idx where
  | proto_17221
  | ett_adp_ent_cap
  | ett_adp_talk_cap
  | ett_adp_list_cap
  | ett_adp_cont_cap
  | ett_adp_aud_format
  | ett_adp_samp_rates
  | ett_adp_chan_format
  | ett_acmp_flags
  | ett_1722
deriving DecidableEq, Repr

/-- Library routine `proto_item_add_subtree`: the item itself, seen as a tree
(`NULL` stays `NULL`).  The subtree-type tag only drives the expansion state of
the display and is not recorded. -/
def proto_item_add_subtree (pi : Option proto_node_ref) (_idx : subtree_idx) :
    Dissect (Option proto_node_ref) := fun s =>
  .ok pi s

/-- Column identifiers written by the dissector. -/
inductive column_id where
  | COL_PROTOCOL
  | COL_INFO
deriving DecidableEq, Repr

/-- Library routine `col_set_str`. -/
def col_set_str (col : column_id) (str : String) : Dissect Unit := fun s =>
  match col with
  | .COL_PROTOCOL => .ok () ⟨⟨some str, s.cinfo.col_info⟩, s.nodes⟩
  | .COL_INFO => .ok () ⟨⟨s.cinfo.col_protocol, some str⟩, s.nodes⟩

/-- Lift a buffer read into a dissection step. -/
def Dissect.ofExcept {α : Type} (r : Except exception α) : Dissect α := fun s =>
  match r with
  | .ok a => .ok a s
  | .error e => .thrown e s

/-- How the display resolves a field's value against its value table. -/
def resolved_label (fi : field_info) : Option String :=
  match fi.hfinfo.strings, fi.value with
  | some vs, .uinteger v => match_strval v vs
  | _, _ => none

/-! ## Constants of the dissector -/

def ADP_CD_OFFSET : Nat := 0
def ADP_VERSION_OFFSET : Nat := 1
def ADP_VALID_TIME_OFFSET : Nat := 2
def ADP_CD_LENGTH_OFFSET : Nat := 3
def ADP_ENTITY_GUID_OFFSET : Nat := 4
def ADP_VENDOR_ID_OFFSET : Nat := 12
def ADP_MODEL_ID_OFFSET : Nat := 16
def ADP_ENTITY_CAP_OFFSET : Nat := 20
def ADP_TALKER_STREAM_SRCS_OFFSET : Nat := 24
def ADP_TALKER_CAP_OFFSET : Nat := 26
def ADP_LISTENER_STREAM_SINKS_OFFSET : Nat := 28
def ADP_LISTENER_CAP_OFFSET : Nat := 30
def ADP_CONTROLLER_CAP_OFFSET : Nat := 32
def ADP_AVAIL_INDEX_OFFSET : Nat := 36
def ADP_AS_GM_ID_OFFSET : Nat := 40
def ADP_DEF_AUDIO_FORMAT_OFFSET : Nat := 48
def ADP_CHAN_FORMAT_OFFSET : Nat := 50
def ADP_DEF_VIDEO_FORMAT_OFFSET : Nat := 52
def ADP_ASSOC_ID_OFFSET : Nat := 56
def ADP_ENTITY_TYPE_OFFSET : Nat := 64
def ADP_MSG_TYPE_MASK : Nat := 0x0f
def ADP_VALID_TIME_MASK : Nat := 0xf8
def ADP_CD_LENGTH_MASK : Nat := 0x07ff
def ADP_ENTITY_AVAILABLE_MESSAGE : Nat := 0x00
def ADP_ENTITY_DEPARTING_MESSAGE : Nat := 0x01
def ADP_ENTITY_DISCOVER_MESSAGE : Nat := 0x02
def ADP_AVDECC_IP_BITMASK : Nat := 0x01
def ADP_ZERO_CONF_BITMASK : Nat := 0x02
def ADP_GATEWAY_ENTITY_BITMASK : Nat := 0x04
def ADP_AVDECC_CONTROL_BITMASK : Nat := 0x08
def ADP_LEGACY_AVC_BITMASK : Nat := 0x10
def ADP_ASSOC_ID_SUPPORT_BITMASK : Nat := 0x20
def ADP_ASSOC_ID_VALID_BITMASK : Nat := 0x40
def ADP_TALK_IMPLEMENTED_BITMASK : Nat := 0x0001
def ADP_TALK_OTHER_SRC_BITMASK : Nat := 0x0200
def ADP_TALK_CONTROL_SRC_BITMASK : Nat := 0x0400
def ADP_TALK_MEDIA_CLK_SRC_BITMASK : Nat := 0x0800
def ADP_TALK_SMPTE_SRC_BITMASK : Nat := 0x1000
def ADP_TALK_MIDI_SRC_BITMASK : Nat := 0x2000
def ADP_TALK_AUDIO_SRC_BITMASK : Nat := 0x4000
def ADP_TALK_VIDEO_SRC_BITMASK : Nat := 0x8000
def ADP_LIST_IMPLEMENTED_BITMASK : Nat := 0x0001
def ADP_LIST_OTHER_SINK_BITMASK : Nat := 0x0200
def ADP_LIST_CONTROL_SINK_BITMASK : Nat := 0x0400
def ADP_LIST_MEDIA_CLK_SINK_BITMASK : Nat := 0x0800
def ADP_LIST_SMPTE_SINK_BITMASK : Nat := 0x1000
def ADP_LIST_MIDI_SINK_BITMASK : Nat := 0x2000
def ADP_LIST_AUDIO_SINK_BITMASK : Nat := 0x4000
def ADP_LIST_VIDEO_SINK_BITMASK : Nat := 0x8000
def ADP_CONT_IMPLEMENTED_BITMASK : Nat := 0x00000001
def ADP_CONT_LAYER3_PROXY_BITMASK : Nat := 0x00000002
def ADP_DEF_AUDIO_SAMPLE_RATES_MASK : Nat := 0xFC
def ADP_DEF_AUDIO_MAX_CHANS_MASK : Nat := 0x03FC
def ADP_DEF_AUDIO_SAF_MASK : Nat := 0x0002
def ADP_DEF_AUDIO_FLOAT_MASK : Nat := 0x0001
def ADP_SAMP_RATE_44K1_BITMASK : Nat := 0x01 <<< 2
def ADP_SAMP_RATE_48K_BITMASK : Nat := 0x02 <<< 2
def ADP_SAMP_RATE_88K2_BITMASK : Nat := 0x04 <<< 2
def ADP_SAMP_RATE_96K_BITMASK : Nat := 0x08 <<< 2
def ADP_SAMP_RATE_176K4_BITMASK : Nat := 0x10 <<< 2
def ADP_SAMP_RATE_192K_BITMASK : Nat := 0x20 <<< 2
def ADP_CHAN_FORMAT_MONO : Nat := 0x00000001
def ADP_CHAN_FORMAT_2CH : Nat := 0x00000002
def ADP_CHAN_FORMAT_3CH : Nat := 0x00000004
def ADP_CHAN_FORMAT_4CH : Nat := 0x00000008
def ADP_CHAN_FORMAT_5CH : Nat := 0x00000010
def ADP_CHAN_FORMAT_6CH : Nat := 0x00000020
def ADP_CHAN_FORMAT_7CH : Nat := 0x00000040
def ADP_CHAN_FORMAT_8CH : Nat := 0x00000080
def ADP_CHAN_FORMAT_10CH : Nat := 0x00000100
def ADP_CHAN_FORMAT_12CH : Nat := 0x00000200
def ADP_CHAN_FORMAT_14CH : Nat := 0x00000400
def ADP_CHAN_FORMAT_16CH : Nat := 0x00000800
def ADP_CHAN_FORMAT_18CH : Nat := 0x00001000
def ADP_CHAN_FORMAT_20CH : Nat := 0x00002000
def ADP_CHAN_FORMAT_22CH : Nat := 0x00004000
def ADP_CHAN_FORMAT_24CH : Nat := 0x00008000
def ACMP_CD_OFFSET : Nat := 0
def ACMP_VERSION_OFFSET : Nat := 1
def ACMP_STATUS_FIELD_OFFSET : Nat := 2
def ACMP_CD_LENGTH_OFFSET : Nat := 3
def ACMP_STREAM_ID_OFFSET : Nat := 4
def ACMP_CONTROLLER_GUID_OFFSET : Nat := 12
def ACMP_TALKER_GUID_OFFSET : Nat := 20
def ACMP_LISTENER_GUID_OFFSET : Nat := 28
def ACMP_TALKER_UNIQUE_ID_OFFSET : Nat := 36
def ACMP_LISTENER_UNIQUE_ID_OFFSET : Nat := 38
def ACMP_DEST_MAC_OFFSET : Nat := 40
def ACMP_CONNECTION_COUNT_OFFSET : Nat := 46
def ACMP_SEQUENCE_ID_OFFSET : Nat := 48
def ACMP_FLAGS_OFFSET : Nat := 50
def ACMP_DEFAULT_FORMAT_OFFSET : Nat := 52
def ACMP_MSG_TYPE_MASK : Nat := 0x0f
def ACMP_STATUS_FIELD_MASK : Nat := 0xf8
def ACMP_CD_LENGTH_MASK : Nat := 0x07ff
def ACMP_CONNECT_TX_COMMAND : Nat := 0
def ACMP_CONNECT_TX_RESPONSE : Nat := 1
def ACMP_DISCONNECT_TX_COMMAND : Nat := 2
def ACMP_DISCONNECT_TX_RESPONSE : Nat := 3
def ACMP_GET_TX_STATE_COMMAND : Nat := 4
def ACMP_GET_TX_STATE_RESPONSE : Nat := 5
def ACMP_CONNECT_RX_COMMAND : Nat := 6
def ACMP_CONNECT_RX_RESPONSE : Nat := 7
def ACMP_DISCONNECT_RX_COMMAND : Nat := 8
def ACMP_DISCONNECT_RX_RESPONSE : Nat := 9
def ACMP_GET_RX_STATE_COMMAND : Nat := 10
def ACMP_GET_RX_STATE_RESPONSE : Nat := 11
def ACMP_GET_TX_CONNECTION_COMMAND : Nat := 12
def ACMP_GET_TX_CONNECTION_RESPONSE : Nat := 13
def ACMP_STATUS_SUCCESS : Nat := 0
def ACMP_STATUS_LISTENER_UNKNOWN_ID : Nat := 1
def ACMP_STATUS_TALKER_UNKNOWN_ID : Nat := 2
def ACMP_STATUS_TALKER_DEST_MAC_FAIL : Nat := 3
def ACMP_STATUS_TALKER_NO_STREAM_INDEX : Nat := 4
def ACMP_STATUS_TALKER_NO_BANDWIDTH : Nat := 5
def ACMP_STATUS_TALKER_EXCLUSIVE : Nat := 6
def ACMP_STATUS_LISTENER_TALKER_TIMEOUT : Nat := 7
def ACMP_STATUS_LISTENER_EXCLUSIVE : Nat := 8
def ACMP_STATUS_STATE_UNAVAILABLE : Nat := 9
def ACMP_STATUS_NOT_CONNECTED : Nat := 10
def ACMP_STATUS_NO_SUCH_CONNECTION : Nat := 11
def ACMP_STATUS_COULD_NOT_SEND_MESSAGE : Nat := 12
def ACMP_STATUS_LISTENER_DEFAULT_FORMAT_INVALID : Nat := 13
def ACMP_STATUS_TALKER_DEFAULT_FORMAT_INVALID : Nat := 14
def ACMP_STATUS_DEFAULT_SET_DIFFERENT : Nat := 15
def ACMP_STATUS_NOT_SUPPORTED : Nat := 31
def ACMP_FLAG_CLASS_B_BITMASK : Nat := 0x0001
def ACMP_FLAG_FAST_CONNECT_BITMASK : Nat := 0x0002
def ACMP_FLAG_SAVED_STATE_BITMASK : Nat := 0x0004
def ACMP_FLAG_STREAMING_WAIT_BITMASK : Nat := 0x0008

/-! ## Value tables -/

def adp_message_type_vals : List value_string :=
  [⟨ADP_ENTITY_AVAILABLE_MESSAGE, some "ENTITY_AVAILABLE"⟩,
   ⟨ADP_ENTITY_DEPARTING_MESSAGE, some "ENTITY_DEPARTING"⟩,
   ⟨ADP_ENTITY_DISCOVER_MESSAGE, some "ENTITY_DISCOVER"⟩,
   ⟨0, none⟩]

def acmp_message_type_vals : List value_string :=
  [⟨ACMP_CONNECT_TX_COMMAND, some "CONNECT_TX_COMMAND"⟩,
   ⟨ACMP_CONNECT_TX_RESPONSE, some "CONNECT_TX_RESPONSE"⟩,
   ⟨ACMP_DISCONNECT_TX_COMMAND, some "DISCONNECT_TX_COMMAND"⟩,
   ⟨ACMP_DISCONNECT_TX_RESPONSE, some "DISCONNECT_TX_RESPONSE"⟩,
   ⟨ACMP_GET_TX_STATE_COMMAND, some "GET_TX_STATE_COMMAND"⟩,
   ⟨ACMP_GET_TX_STATE_RESPONSE, some "GET_TX_STATE_RESPONSE"⟩,
   ⟨ACMP_CONNECT_RX_COMMAND, some "CONNECT_RX_COMMAND"⟩,
   ⟨ACMP_CONNECT_RX_RESPONSE, some "CONNECT_RX_RESPONSE"⟩,
   ⟨ACMP_DISCONNECT_RX_COMMAND, some "DISCONNECT_RX_COMMAND"⟩,
   ⟨ACMP_DISCONNECT_RX_RESPONSE, some "DISCONNECT_RX_RESPONSE"⟩,
   ⟨ACMP_GET_RX_STATE_COMMAND, some "GET_RX_STATE_COMMAND"⟩,
   ⟨ACMP_GET_RX_STATE_RESPONSE, some "GET_RX_STATE_RESPONSE"⟩,
   ⟨ACMP_GET_TX_CONNECTION_COMMAND, some "GET_TX_CONNECTION_COMMAND"⟩,
   ⟨ACMP_GET_TX_CONNECTION_RESPONSE, some "GET_TX_CONNECTION_RESPONSE"⟩,
   ⟨0, none⟩]

def acmp_status_field_vals : List value_string :=
  [⟨ACMP_STATUS_SUCCESS, some "SUCCESS"⟩,
   ⟨ACMP_STATUS_LISTENER_UNKNOWN_ID, some "LISTENER_UNKNOWN_ID"⟩,
   ⟨ACMP_STATUS_TALKER_UNKNOWN_ID, some "TALKER_UNKNOWN_ID"⟩,
   ⟨ACMP_STATUS_TALKER_DEST_MAC_FAIL, some "TALKER_DEST_MAC_FAIL"⟩,
   ⟨ACMP_STATUS_TALKER_NO_STREAM_INDEX, some "TALKER_NO_STREAM_INDEX"⟩,
   ⟨ACMP_STATUS_TALKER_NO_BANDWIDTH, some "TALKER_NO_BANDWIDTH"⟩,
   ⟨ACMP_STATUS_TALKER_EXCLUSIVE, some "TALKER_EXCLUSIVE"⟩,
   ⟨ACMP_STATUS_LISTENER_TALKER_TIMEOUT, some "LISTENER_TALKER_TIMEOUT"⟩,
   ⟨ACMP_STATUS_LISTENER_EXCLUSIVE, some "LISTENER_EXCLUSIVE"⟩,
   ⟨ACMP_STATUS_STATE_UNAVAILABLE, some "STATE_UNAVAILABLE"⟩,
   ⟨ACMP_STATUS_NOT_CONNECTED, some "NOT_CONNECTED"⟩,
   ⟨ACMP_STATUS_NO_SUCH_CONNECTION, some "NO_SUCH_CONNECTION"⟩,
   ⟨ACMP_STATUS_COULD_NOT_SEND_MESSAGE, some "COULD_NOT_SEND_MESSAGE"⟩,
   ⟨ACMP_STATUS_LISTENER_DEFAULT_FORMAT_INVALID, some "LISTENER_DEFAULT_FORMAT_INVALID"⟩,
   ⟨ACMP_STATUS_TALKER_DEFAULT_FORMAT_INVALID, some "TALKER_DEFAULT_FORMAT_INVALID"⟩,
   ⟨ACMP_STATUS_DEFAULT_SET_DIFFERENT, some "DEFAULT_SET_DIFFERENT"⟩,
   ⟨ACMP_STATUS_NOT_SUPPORTED, some "NOT_SUPPORTED"⟩,
   ⟨0, none⟩]

def avb_bool_vals : List value_string :=
  [⟨1, some "True"⟩,
   ⟨0, some "False"⟩,
   ⟨0, none⟩]

/-! ## Registered fields -/

def hf_adp_message_type : header_field_info :=
  ⟨"Message Type", "ieee17221.message_type", .FT_UINT8, .BASE_DEC, (some adp_message_type_vals), ADP_MSG_TYPE_MASK⟩

def hf_adp_valid_time : header_field_info :=
  ⟨"Valid Time", "ieee17221.valid_time", .FT_UINT8, .BASE_DEC, none, ADP_VALID_TIME_MASK⟩

def hf_adp_cd_length : header_field_info :=
  ⟨"Control Data Length", "ieee17221.control_data_length", .FT_UINT16, .BASE_DEC, none, ADP_CD_LENGTH_MASK⟩

def hf_adp_entity_guid : header_field_info :=
  ⟨"Entity GUID", "ieee17221.entity_guid", .FT_UINT64, .BASE_HEX, none, 0x00⟩

def hf_adp_vendor_id : header_field_info :=
  ⟨"Vendor ID", "ieee17221.vendor_id", .FT_UINT32, .BASE_HEX, none, 0x00⟩

def hf_adp_model_id : header_field_info :=
  ⟨"Model ID", "ieee17221.model_id", .FT_UINT32, .BASE_HEX, none, 0x00⟩

def hf_adp_entity_cap : header_field_info :=
  ⟨"Entity Capabilities", "ieee17221.entity_capabilities", .FT_UINT32, .BASE_HEX, none, 0x00⟩

def hf_adp_entity_cap_avdecc_ip : header_field_info :=
  ⟨"AVDECC_IP", "ieee17221.entity_capabilities.avdecc_ip", .FT_UINT32, .BASE_DEC, (some avb_bool_vals), ADP_AVDECC_IP_BITMASK⟩

def hf_adp_entity_cap_zero_conf : header_field_info :=
  ⟨"ZERO_CONF", "ieee17221.entity_capabilities.zero_conf", .FT_UINT32, .BASE_DEC, (some avb_bool_vals), ADP_ZERO_CONF_BITMASK⟩

def hf_adp_entity_cap_gateway_entity : header_field_info :=
  ⟨"GATEWAY_ENTITY", "ieee17221.entity_capabilities.gateway_entity", .FT_UINT32, .BASE_DEC, (some avb_bool_vals), ADP_GATEWAY_ENTITY_BITMASK⟩

def hf_adp_entity_cap_avdecc_control : header_field_info :=
  ⟨"AVDECC_CONTROL", "ieee17221.entity_capabilities.avdecc_control", .FT_UINT32, .BASE_DEC, (some avb_bool_vals), ADP_AVDECC_CONTROL_BITMASK⟩

def hf_adp_entity_cap_legacy_avc : header_field_info :=
  ⟨"LEGACY_AVC", "ieee17221.entity_capabilities.legacy_avc", .FT_UINT32, .BASE_DEC, (some avb_bool_vals), ADP_LEGACY_AVC_BITMASK⟩

def hf_adp_entity_cap_assoc_id_support : header_field_info :=
  ⟨"ASSOCIATION_ID_SUPPORTED", "ieee17221.entity_capabilities.association_id_supported", .FT_UINT32, .BASE_DEC, (some avb_bool_vals), ADP_ASSOC_ID_SUPPORT_BITMASK⟩

def hf_adp_entity_cap_assoc_id_valid : header_field_info :=
  ⟨"ASSOCIATION_ID_VALID", "ieee17221.entity_capabilities.association_id_valid", .FT_UINT32, .BASE_DEC, (some avb_bool_vals), ADP_ASSOC_ID_VALID_BITMASK⟩

def hf_adp_talker_stream_srcs : header_field_info :=
  ⟨"Talker Stream Sources", "ieee17221.talker_stream_sources", .FT_UINT16, .BASE_DEC, none, 0x00⟩

def hf_adp_talker_cap : header_field_info :=
  ⟨"Talker Capabilities", "ieee17221.talker_capabilities", .FT_UINT16, .BASE_HEX, none, 0x00⟩

def hf_adp_talk_cap_implement : header_field_info :=
  ⟨"IMPLEMENTED", "ieee17221.talker_capabilities.implemented", .FT_UINT16, .BASE_DEC, (some avb_bool_vals), ADP_TALK_IMPLEMENTED_BITMASK⟩

def hf_adp_talk_cap_other_src : header_field_info :=
  ⟨"OTHER_SOURCE", "ieee17221.talker_capabilities.other_source", .FT_UINT16, .BASE_DEC, (some avb_bool_vals), ADP_TALK_OTHER_SRC_BITMASK⟩

def hf_adp_talk_cap_control_src : header_field_info :=
  ⟨"CONTROL_SOURCE", "ieee17221.talker_capabilities.control_source", .FT_UINT16, .BASE_DEC, (some avb_bool_vals), ADP_TALK_CONTROL_SRC_BITMASK⟩

def hf_adp_talk_cap_media_clk_src : header_field_info :=
  ⟨"MEDIA_CLOCK_SOURCE", "ieee17221.talker_capabilities.media_clock_source", .FT_UINT16, .BASE_DEC, (some avb_bool_vals), ADP_TALK_MEDIA_CLK_SRC_BITMASK⟩

def hf_adp_talk_cap_smpte_src : header_field_info :=
  ⟨"SMPTE_SOURCE", "ieee17221.talker_capabilities.smpte_source", .FT_UINT16, .BASE_DEC, (some avb_bool_vals), ADP_TALK_SMPTE_SRC_BITMASK⟩

def hf_adp_talk_cap_midi_src : header_field_info :=
  ⟨"MIDI_SOURCE", "ieee17221.talker_capabilities.midi_source", .FT_UINT16, .BASE_DEC, (some avb_bool_vals), ADP_TALK_MIDI_SRC_BITMASK⟩

def hf_adp_talk_cap_audio_src : header_field_info :=
  ⟨"AUDIO_SOURCE", "ieee17221.talker_capabilities.audio_source", .FT_UINT16, .BASE_DEC, (some avb_bool_vals), ADP_TALK_AUDIO_SRC_BITMASK⟩

def hf_adp_talk_cap_video_src : header_field_info :=
  ⟨"VIDEO_SOURCE", "ieee17221.talker_capabilities.video_source", .FT_UINT16, .BASE_DEC, (some avb_bool_vals), ADP_TALK_VIDEO_SRC_BITMASK⟩

def hf_adp_listener_stream_sinks : header_field_info :=
  ⟨"Listener Stream Sinks", "ieee17221.listener_stream_sinks", .FT_UINT16, .BASE_DEC, none, 0x00⟩

def hf_adp_listener_cap : header_field_info :=
  ⟨"Listener Capabilities", "ieee17221.listener_capabilities", .FT_UINT16, .BASE_HEX, none, 0x00⟩

def hf_adp_list_cap_implement : header_field_info :=
  ⟨"IMPLEMENTED", "ieee17221.listener_capabilities.implemented", .FT_UINT16, .BASE_DEC, (some avb_bool_vals), ADP_LIST_IMPLEMENTED_BITMASK⟩

def hf_adp_list_cap_other_sink : header_field_info :=
  ⟨"OTHER_SINK", "ieee17221.listener_capabilities.other_source", .FT_UINT16, .BASE_DEC, (some avb_bool_vals), ADP_LIST_OTHER_SINK_BITMASK⟩

def hf_adp_list_cap_control_sink : header_field_info :=
  ⟨"CONTROL_SINK", "ieee17221.listener_capabilities.control_source", .FT_UINT16, .BASE_DEC, (some avb_bool_vals), ADP_LIST_CONTROL_SINK_BITMASK⟩

def hf_adp_list_cap_media_clk_sink : header_field_info :=
  ⟨"MEDIA_CLOCK_SINK", "ieee17221.listener_capabilities.media_clock_source", .FT_UINT16, .BASE_DEC, (some avb_bool_vals), ADP_LIST_MEDIA_CLK_SINK_BITMASK⟩

def hf_adp_list_cap_smpte_sink : header_field_info :=
  ⟨"SMPTE_SINK", "ieee17221.listener_capabilities.smpte_source", .FT_UINT16, .BASE_DEC, (some avb_bool_vals), ADP_LIST_SMPTE_SINK_BITMASK⟩

def hf_adp_list_cap_midi_sink : header_field_info :=
  ⟨"MIDI_SINK", "ieee17221.listener_capabilities.midi_source", .FT_UINT16, .BASE_DEC, (some avb_bool_vals), ADP_LIST_MIDI_SINK_BITMASK⟩

def hf_adp_list_cap_audio_sink : header_field_info :=
  ⟨"AUDIO_SINK", "ieee17221.listener_capabilities.audio_source", .FT_UINT16, .BASE_DEC, (some avb_bool_vals), ADP_LIST_AUDIO_SINK_BITMASK⟩

def hf_adp_list_cap_video_sink : header_field_info :=
  ⟨"VIDEO_SINK", "ieee17221.listener_capabilities.video_source", .FT_UINT16, .BASE_DEC, (some avb_bool_vals), ADP_LIST_VIDEO_SINK_BITMASK⟩

def hf_adp_controller_cap : header_field_info :=
  ⟨"Controller Capabilities", "ieee17221.controller_capabilities", .FT_UINT32, .BASE_HEX, none, 0x00⟩

def hf_adp_cont_cap_implement : header_field_info :=
  ⟨"IMPLEMENTED", "ieee17221.controller_capabilities.implemented", .FT_UINT16, .BASE_DEC, (some avb_bool_vals), ADP_CONT_IMPLEMENTED_BITMASK⟩

def hf_adp_cont_cap_layer3_proxy : header_field_info :=
  ⟨"LAYER3_PROXY", "ieee17221.controller_capabilities.layer3_proxy", .FT_UINT16, .BASE_DEC, (some avb_bool_vals), ADP_CONT_LAYER3_PROXY_BITMASK⟩

def hf_adp_avail_index : header_field_info :=
  ⟨"Available Index", "ieee17221.available_index", .FT_UINT32, .BASE_HEX, none, 0x00⟩

def hf_adp_as_gm_id : header_field_info :=
  ⟨"AS Grandmaster ID", "ieee17221.as_grandmaster_id", .FT_UINT64, .BASE_HEX, none, 0x00⟩

def hf_adp_def_aud_format : header_field_info :=
  ⟨"Default Audio Format", "ieee17221.default_audio_format", .FT_UINT32, .BASE_HEX, none, 0x00⟩

def hf_adp_def_aud_sample_rates : header_field_info :=
  ⟨"Sample Rates", "ieee17221.default_audio_format.sample_rates", .FT_UINT8, .BASE_HEX, none, ADP_DEF_AUDIO_SAMPLE_RATES_MASK⟩

def hf_adp_samp_rate_44k1 : header_field_info :=
  ⟨"44.1kHz", "ieee17221.default_audio_format.sample_rates.44k1", .FT_UINT8, .BASE_DEC, (some avb_bool_vals), ADP_SAMP_RATE_44K1_BITMASK⟩

def hf_adp_samp_rate_48k : header_field_info :=
  ⟨"48kHz", "ieee17221.default_audio_format.sample_rates.48k", .FT_UINT8, .BASE_DEC, (some avb_bool_vals), ADP_SAMP_RATE_48K_BITMASK⟩

def hf_adp_samp_rate_88k2 : header_field_info :=
  ⟨"88.2kHz", "ieee17221.default_audio_format.sample_rates.88k2", .FT_UINT8, .BASE_DEC, (some avb_bool_vals), ADP_SAMP_RATE_88K2_BITMASK⟩

def hf_adp_samp_rate_96k : header_field_info :=
  ⟨"96kHz", "ieee17221.default_audio_format.sample_rates.96k", .FT_UINT8, .BASE_DEC, (some avb_bool_vals), ADP_SAMP_RATE_96K_BITMASK⟩

def hf_adp_samp_rate_176k4 : header_field_info :=
  ⟨"176.4kHz", "ieee17221.default_audio_format.sample_rates.176k4", .FT_UINT8, .BASE_DEC, (some avb_bool_vals), ADP_SAMP_RATE_176K4_BITMASK⟩

def hf_adp_samp_rate_192k : header_field_info :=
  ⟨"192kHz", "ieee17221.default_audio_format.sample_rates.192k", .FT_UINT8, .BASE_DEC, (some avb_bool_vals), ADP_SAMP_RATE_192K_BITMASK⟩

def hf_adp_def_aud_max_chan : header_field_info :=
  ⟨"Max Channels", "ieee17221.default_audio_format.max_channels", .FT_UINT16, .BASE_DEC, none, ADP_DEF_AUDIO_MAX_CHANS_MASK⟩

def hf_adp_def_aud_saf_flag : header_field_info :=
  ⟨"saf", "ieee17221.default_audio_format.saf", .FT_UINT16, .BASE_DEC, (some avb_bool_vals), ADP_DEF_AUDIO_SAF_MASK⟩

def hf_adp_def_aud_float_flag : header_field_info :=
  ⟨"float", "ieee17221.default_audio_format.float", .FT_UINT16, .BASE_DEC, (some avb_bool_vals), ADP_DEF_AUDIO_FLOAT_MASK⟩

def hf_adp_def_aud_chan_formats : header_field_info :=
  ⟨"Channel Formats", "ieee17221.default_audio_format.channel_formats", .FT_UINT16, .BASE_HEX, none, 0x00⟩

def hf_adp_chan_format_mono : header_field_info :=
  ⟨"MONO", "ieee17221.default_audio_format.channel_formats.mono", .FT_UINT16, .BASE_DEC, (some avb_bool_vals), ADP_CHAN_FORMAT_MONO⟩

def hf_adp_chan_format_2ch : header_field_info :=
  ⟨"2_CH", "ieee17221.default_audio_format.channel_formats.2_ch", .FT_UINT16, .BASE_DEC, (some avb_bool_vals), ADP_CHAN_FORMAT_2CH⟩

def hf_adp_chan_format_3ch : header_field_info :=
  ⟨"3_CH", "ieee17221.default_audio_format.channel_formats.3_ch", .FT_UINT16, .BASE_DEC, (some avb_bool_vals), ADP_CHAN_FORMAT_3CH⟩

def hf_adp_chan_format_4ch : header_field_info :=
  ⟨"4_CH", "ieee17221.default_audio_format.channel_formats.4_ch", .FT_UINT16, .BASE_DEC, (some avb_bool_vals), ADP_CHAN_FORMAT_4CH⟩

def hf_adp_chan_format_5ch : header_field_info :=
  ⟨"5_CH", "ieee17221.default_audio_format.channel_formats.5_ch", .FT_UINT16, .BASE_DEC, (some avb_bool_vals), ADP_CHAN_FORMAT_5CH⟩

def hf_adp_chan_format_6ch : header_field_info :=
  ⟨"6_CH", "ieee17221.default_audio_format.channel_formats.6_ch", .FT_UINT16, .BASE_DEC, (some avb_bool_vals), ADP_CHAN_FORMAT_6CH⟩

def hf_adp_chan_format_7ch : header_field_info :=
  ⟨"7_CH", "ieee17221.default_audio_format.channel_formats.7_ch", .FT_UINT16, .BASE_DEC, (some avb_bool_vals), ADP_CHAN_FORMAT_7CH⟩

def hf_adp_chan_format_8ch : header_field_info :=
  ⟨"8_CH", "ieee17221.default_audio_format.channel_formats.8_ch", .FT_UINT16, .BASE_DEC, (some avb_bool_vals), ADP_CHAN_FORMAT_8CH⟩

def hf_adp_chan_format_10ch : header_field_info :=
  ⟨"10_CH", "ieee17221.default_audio_format.channel_formats.10_ch", .FT_UINT16, .BASE_DEC, (some avb_bool_vals), ADP_CHAN_FORMAT_10CH⟩

def hf_adp_chan_format_12ch : header_field_info :=
  ⟨"12_CH", "ieee17221.default_audio_format.channel_formats.12_ch", .FT_UINT16, .BASE_DEC, (some avb_bool_vals), ADP_CHAN_FORMAT_12CH⟩

def hf_adp_chan_format_14ch : header_field_info :=
  ⟨"14_CH", "ieee17221.default_audio_format.channel_formats.14_ch", .FT_UINT16, .BASE_DEC, (some avb_bool_vals), ADP_CHAN_FORMAT_14CH⟩

def hf_adp_chan_format_16ch : header_field_info :=
  ⟨"16_CH", "ieee17221.default_audio_format.channel_formats.16_ch", .FT_UINT16, .BASE_DEC, (some avb_bool_vals), ADP_CHAN_FORMAT_16CH⟩

def hf_adp_chan_format_18ch : header_field_info :=
  ⟨"18_CH", "ieee17221.default_audio_format.channel_formats.18_ch", .FT_UINT16, .BASE_DEC, (some avb_bool_vals), ADP_CHAN_FORMAT_18CH⟩

def hf_adp_chan_format_20ch : header_field_info :=
  ⟨"20_CH", "ieee17221.default_audio_format.channel_formats.20_ch", .FT_UINT16, .BASE_DEC, (some avb_bool_vals), ADP_CHAN_FORMAT_20CH⟩

def hf_adp_chan_format_22ch : header_field_info :=
  ⟨"22_CH", "ieee17221.default_audio_format.channel_formats.22_ch", .FT_UINT16, .BASE_DEC, (some avb_bool_vals), ADP_CHAN_FORMAT_22CH⟩

def hf_adp_chan_format_24ch : header_field_info :=
  ⟨"24_CH", "ieee17221.default_audio_format.channel_formats.24_ch", .FT_UINT16, .BASE_DEC, (some avb_bool_vals), ADP_CHAN_FORMAT_24CH⟩

def hf_adp_def_vid_format : header_field_info :=
  ⟨"Default Video Format", "ieee17221.default_video_format", .FT_UINT32, .BASE_HEX, none, 0x00⟩

def hf_adp_assoc_id : header_field_info :=
  ⟨"Assocation ID", "ieee17221.assocation_id", .FT_UINT64, .BASE_HEX, none, 0x00⟩

def hf_adp_entity_type : header_field_info :=
  ⟨"Entity Type", "ieee17221.entity_type", .FT_UINT32, .BASE_HEX, none, 0x00⟩

def hf_acmp_message_type : header_field_info :=
  ⟨"Message Type", "ieee17221.message_type", .FT_UINT8, .BASE_DEC, (some acmp_message_type_vals), ACMP_MSG_TYPE_MASK⟩

def hf_acmp_status_field : header_field_info :=
  ⟨"Status Field", "ieee17221.status_field", .FT_UINT8, .BASE_DEC, (some acmp_status_field_vals), ACMP_STATUS_FIELD_MASK⟩

def hf_acmp_cd_length : header_field_info :=
  ⟨"Control Data Length", "ieee17221.control_data_length", .FT_UINT16, .BASE_DEC, none, ACMP_CD_LENGTH_MASK⟩

def hf_acmp_stream_id : header_field_info :=
  ⟨"Stream ID", "ieee17221.stream_id", .FT_UINT64, .BASE_HEX, none, 0x00⟩

def hf_acmp_controller_guid : header_field_info :=
  ⟨"Controller GUID", "ieee17221.controller_guid", .FT_UINT64, .BASE_HEX, none, 0x00⟩

def hf_acmp_talker_guid : header_field_info :=
  ⟨"Talker GUID", "ieee17221.talker_guid", .FT_UINT64, .BASE_HEX, none, 0x00⟩

def hf_acmp_listener_guid : header_field_info :=
  ⟨"Listener GUID", "ieee17221.listener_guid", .FT_UINT64, .BASE_HEX, none, 0x00⟩

def hf_acmp_talker_unique_id : header_field_info :=
  ⟨"Talker Unique ID", "ieee17221.talker_unique_id", .FT_UINT16, .BASE_HEX, none, 0x00⟩

def hf_acmp_listener_unique_id : header_field_info :=
  ⟨"Listener Unique ID", "ieee17221.listener_unique_id", .FT_UINT16, .BASE_HEX, none, 0x00⟩

def hf_acmp_stream_dest_mac : header_field_info :=
  ⟨"Destination MAC address", "ieee17221.dest_mac", .FT_ETHER, .BASE_NONE, none, 0x00⟩

def hf_acmp_connection_count : header_field_info :=
  ⟨"Connection Count", "ieee17221.connection_count", .FT_UINT16, .BASE_DEC, none, 0x00⟩

def hf_acmp_sequence_id : header_field_info :=
  ⟨"Sequence ID", "ieee17221.sequence_id", .FT_UINT16, .BASE_HEX, none, 0x00⟩

def hf_acmp_flags : header_field_info :=
  ⟨"Flags", "ieee17221.flags", .FT_UINT16, .BASE_HEX, none, 0x00⟩

def hf_acmp_flags_class_b : header_field_info :=
  ⟨"CLASS_B", "ieee17221.flags.class_b", .FT_UINT8, .BASE_DEC, (some avb_bool_vals), ACMP_FLAG_CLASS_B_BITMASK⟩

def hf_acmp_flags_fast_connect : header_field_info :=
  ⟨"FAST_CONNECT", "ieee17221.flags.fast_connect", .FT_UINT8, .BASE_DEC, (some avb_bool_vals), ACMP_FLAG_FAST_CONNECT_BITMASK⟩

def hf_acmp_flags_saved_state : header_field_info :=
  ⟨"SAVED_STATE", "ieee17221.flags.saved_state", .FT_UINT8, .BASE_DEC, (some avb_bool_vals), ACMP_FLAG_SAVED_STATE_BITMASK⟩

def hf_acmp_flags_streaming_wait : header_field_info :=
  ⟨"STREAMING_WAIT", "ieee17221.flags.streaming_wait", .FT_UINT8, .BASE_DEC, (some avb_bool_vals), ACMP_FLAG_STREAMING_WAIT_BITMASK⟩

def hf_acmp_default_format : header_field_info :=
  ⟨"Default Format", "ieee17221.default_format", .FT_UINT32, .BASE_HEX, none, 0x00⟩

/-- The registration array in its declaration order. -/
def hf : List header_field_info :=
  [hf_adp_message_type,
   hf_adp_valid_time,
   hf_adp_cd_length,
   hf_adp_entity_guid,
   hf_adp_vendor_id,
   hf_adp_model_id,
   hf_adp_entity_cap,
   hf_adp_entity_cap_avdecc_ip,
   hf_adp_entity_cap_zero_conf,
   hf_adp_entity_cap_gateway_entity,
   hf_adp_entity_cap_avdecc_control,
   hf_adp_entity_cap_legacy_avc,
   hf_adp_entity_cap_assoc_id_support,
   hf_adp_entity_cap_assoc_id_valid,
   hf_adp_talker_stream_srcs,
   hf_adp_talker_cap,
   hf_adp_talk_cap_implement,
   hf_adp_talk_cap_other_src,
   hf_adp_talk_cap_control_src,
   hf_adp_talk_cap_media_clk_src,
   hf_adp_talk_cap_smpte_src,
   hf_adp_talk_cap_midi_src,
   hf_adp_talk_cap_audio_src,
   hf_adp_talk_cap_video_src,
   hf_adp_listener_stream_sinks,
   hf_adp_listener_cap,
   hf_adp_list_cap_implement,
   hf_adp_list_cap_other_sink,
   hf_adp_list_cap_control_sink,
   hf_adp_list_cap_media_clk_sink,
   hf_adp_list_cap_smpte_sink,
   hf_adp_list_cap_midi_sink,
   hf_adp_list_cap_audio_sink,
   hf_adp_list_cap_video_sink,
   hf_adp_controller_cap,
   hf_adp_cont_cap_implement,
   hf_adp_cont_cap_layer3_proxy,
   hf_adp_avail_index,
   hf_adp_as_gm_id,
   hf_adp_def_aud_format,
   hf_adp_def_aud_sample_rates,
   hf_adp_samp_rate_44k1,
   hf_adp_samp_rate_48k,
   hf_adp_samp_rate_88k2,
   hf_adp_samp_rate_96k,
   hf_adp_samp_rate_176k4,
   hf_adp_samp_rate_192k,
   hf_adp_def_aud_max_chan,
   hf_adp_def_aud_saf_flag,
   hf_adp_def_aud_float_flag,
   hf_adp_def_aud_chan_formats,
   hf_adp_chan_format_mono,
   hf_adp_chan_format_2ch,
   hf_adp_chan_format_3ch,
   hf_adp_chan_format_4ch,
   hf_adp_chan_format_5ch,
   hf_adp_chan_format_6ch,
   hf_adp_chan_format_7ch,
   hf_adp_chan_format_8ch,
   hf_adp_chan_format_10ch,
   hf_adp_chan_format_12ch,
   hf_adp_chan_format_14ch,
   hf_adp_chan_format_16ch,
   hf_adp_chan_format_18ch,
   hf_adp_chan_format_20ch,
   hf_adp_chan_format_22ch,
   hf_adp_chan_format_24ch,
   hf_adp_def_vid_format,
   hf_adp_assoc_id,
   hf_adp_entity_type,
   hf_acmp_message_type,
   hf_acmp_status_field,
   hf_acmp_cd_length,
   hf_acmp_stream_id,
   hf_acmp_controller_guid,
   hf_acmp_talker_guid,
   hf_acmp_listener_guid,
   hf_acmp_talker_unique_id,
   hf_acmp_listener_unique_id,
   hf_acmp_stream_dest_mac,
   hf_acmp_connection_count,
   hf_acmp_sequence_id,
   hf_acmp_flags,
   hf_acmp_flags_class_b,
   hf_acmp_flags_fast_connect,
   hf_acmp_flags_saved_state,
   hf_acmp_flags_streaming_wait,
   hf_acmp_default_format]

/-! ## The dissectors -/

/-- The ADP dissector `dissect_17221_adp`.  The source does not use its `pinfo`
argument; the summary columns are part of the threaded state. -/
def dissect_17221_adp (tvb : tvbuff_t) (tree : Option proto_node_ref) : Dissect Unit := do
  let adp_tree ← proto_item_add_subtree tree .proto_17221
  let _ ← proto_tree_add_item adp_tree hf_adp_message_type tvb ADP_VERSION_OFFSET 1
  let _ ← proto_tree_add_item adp_tree hf_adp_valid_time tvb ADP_VALID_TIME_OFFSET 1
  let _ ← proto_tree_add_item adp_tree hf_adp_cd_length tvb ADP_CD_LENGTH_OFFSET 1
  let _ ← proto_tree_add_item adp_tree hf_adp_entity_guid tvb ADP_ENTITY_GUID_OFFSET 8
  let _ ← proto_tree_add_item adp_tree hf_adp_vendor_id tvb ADP_VENDOR_ID_OFFSET 4
  let _ ← proto_tree_add_item adp_tree hf_adp_model_id tvb ADP_MODEL_ID_OFFSET 4
  if tree.isSome then
    let ent_cap_ti ← proto_tree_add_item adp_tree hf_adp_entity_cap tvb ADP_ENTITY_CAP_OFFSET 4
    let ent_cap_flags_tree ← proto_item_add_subtree ent_cap_ti .ett_adp_ent_cap
    let _ ← proto_tree_add_item ent_cap_flags_tree hf_adp_entity_cap_avdecc_ip tvb ADP_ENTITY_CAP_OFFSET 4
    let _ ← proto_tree_add_item ent_cap_flags_tree hf_adp_entity_cap_zero_conf tvb ADP_ENTITY_CAP_OFFSET 4
    let _ ← proto_tree_add_item ent_cap_flags_tree hf_adp_entity_cap_gateway_entity tvb ADP_ENTITY_CAP_OFFSET 4
    let _ ← proto_tree_add_item ent_cap_flags_tree hf_adp_entity_cap_avdecc_control tvb ADP_ENTITY_CAP_OFFSET 4
    let _ ← proto_tree_add_item ent_cap_flags_tree hf_adp_entity_cap_legacy_avc tvb ADP_ENTITY_CAP_OFFSET 4
    let _ ← proto_tree_add_item ent_cap_flags_tree hf_adp_entity_cap_assoc_id_support tvb ADP_ENTITY_CAP_OFFSET 4
    let _ ← proto_tree_add_item ent_cap_flags_tree hf_adp_entity_cap_assoc_id_valid tvb ADP_ENTITY_CAP_OFFSET 4
    pure ()
  let _ ← proto_tree_add_item adp_tree hf_adp_talker_stream_srcs tvb ADP_TALKER_STREAM_SRCS_OFFSET 2
  if tree.isSome then
    let talk_cap_ti ← proto_tree_add_item adp_tree hf_adp_talker_cap tvb ADP_TALKER_CAP_OFFSET 2
    let talk_cap_flags_tree ← proto_item_add_subtree talk_cap_ti .ett_adp_talk_cap
    let _ ← proto_tree_add_item talk_cap_flags_tree hf_adp_talk_cap_implement tvb ADP_TALKER_CAP_OFFSET 2
    let _ ← proto_tree_add_item talk_cap_flags_tree hf_adp_talk_cap_other_src tvb ADP_TALKER_CAP_OFFSET 2
    let _ ← proto_tree_add_item talk_cap_flags_tree hf_adp_talk_cap_control_src tvb ADP_TALKER_CAP_OFFSET 2
    let _ ← proto_tree_add_item talk_cap_flags_tree hf_adp_talk_cap_media_clk_src tvb ADP_TALKER_CAP_OFFSET 2
    let _ ← proto_tree_add_item talk_cap_flags_tree hf_adp_talk_cap_smpte_src tvb ADP_TALKER_CAP_OFFSET 2
    let _ ← proto_tree_add_item talk_cap_flags_tree hf_adp_talk_cap_midi_src tvb ADP_TALKER_CAP_OFFSET 2
    let _ ← proto_tree_add_item talk_cap_flags_tree hf_adp_talk_cap_audio_src tvb ADP_TALKER_CAP_OFFSET 2
    let _ ← proto_tree_add_item talk_cap_flags_tree hf_adp_talk_cap_video_src tvb ADP_TALKER_CAP_OFFSET 2
    pure ()
  let _ ← proto_tree_add_item adp_tree hf_adp_listener_stream_sinks tvb ADP_LISTENER_STREAM_SINKS_OFFSET 2
  if tree.isSome then
    let list_cap_ti ← proto_tree_add_item adp_tree hf_adp_listener_cap tvb ADP_LISTENER_CAP_OFFSET 2
    let list_cap_flags_tree ← proto_item_add_subtree list_cap_ti .ett_adp_list_cap
    let _ ← proto_tree_add_item list_cap_flags_tree hf_adp_list_cap_implement tvb ADP_LISTENER_CAP_OFFSET 2
    let _ ← proto_tree_add_item list_cap_flags_tree hf_adp_list_cap_other_sink tvb ADP_LISTENER_CAP_OFFSET 2
    let _ ← proto_tree_add_item list_cap_flags_tree hf_adp_list_cap_control_sink tvb ADP_LISTENER_CAP_OFFSET 2
    let _ ← proto_tree_add_item list_cap_flags_tree hf_adp_list_cap_media_clk_sink tvb ADP_LISTENER_CAP_OFFSET 2
    let _ ← proto_tree_add_item list_cap_flags_tree hf_adp_list_cap_smpte_sink tvb ADP_LISTENER_CAP_OFFSET 2
    let _ ← proto_tree_add_item list_cap_flags_tree hf_adp_list_cap_midi_sink tvb ADP_LISTENER_CAP_OFFSET 2
    let _ ← proto_tree_add_item list_cap_flags_tree hf_adp_list_cap_audio_sink tvb ADP_LISTENER_CAP_OFFSET 2
    let _ ← proto_tree_add_item list_cap_flags_tree hf_adp_list_cap_video_sink tvb ADP_LISTENER_CAP_OFFSET 2
    pure ()
  if tree.isSome then
    let cont_cap_ti ← proto_tree_add_item adp_tree hf_adp_controller_cap tvb ADP_CONTROLLER_CAP_OFFSET 4
    let cont_cap_flags_tree ← proto_item_add_subtree cont_cap_ti .ett_adp_cont_cap
    let _ ← proto_tree_add_item cont_cap_flags_tree hf_adp_cont_cap_implement tvb ADP_CONTROLLER_CAP_OFFSET 4
    let _ ← proto_tree_add_item cont_cap_flags_tree hf_adp_cont_cap_layer3_proxy tvb ADP_CONTROLLER_CAP_OFFSET 4
    pure ()
  let _ ← proto_tree_add_item adp_tree hf_adp_avail_index tvb ADP_AVAIL_INDEX_OFFSET 4
  let _ ← proto_tree_add_item adp_tree hf_adp_as_gm_id tvb ADP_AS_GM_ID_OFFSET 8
  if tree.isSome then
    let aud_format_ti ← proto_tree_add_item adp_tree hf_adp_def_aud_format tvb ADP_DEF_AUDIO_FORMAT_OFFSET 4
    let aud_format_tree ← proto_item_add_subtree aud_format_ti .ett_adp_aud_format
    if aud_format_tree.isSome then
      let samp_rates_ti ← proto_tree_add_item aud_format_tree hf_adp_def_aud_sample_rates tvb ADP_DEF_AUDIO_FORMAT_OFFSET 1
      let samp_rates_tree ← proto_item_add_subtree samp_rates_ti .ett_adp_samp_rates
      let _ ← proto_tree_add_item samp_rates_tree hf_adp_samp_rate_44k1 tvb ADP_DEF_AUDIO_FORMAT_OFFSET 1
      let _ ← proto_tree_add_item samp_rates_tree hf_adp_samp_rate_48k tvb ADP_DEF_AUDIO_FORMAT_OFFSET 1
      let _ ← proto_tree_add_item samp_rates_tree hf_adp_samp_rate_88k2 tvb ADP_DEF_AUDIO_FORMAT_OFFSET 1
      let _ ← proto_tree_add_item samp_rates_tree hf_adp_samp_rate_96k tvb ADP_DEF_AUDIO_FORMAT_OFFSET 1
      let _ ← proto_tree_add_item samp_rates_tree hf_adp_samp_rate_176k4 tvb ADP_DEF_AUDIO_FORMAT_OFFSET 1
      let _ ← proto_tree_add_item samp_rates_tree hf_adp_samp_rate_192k tvb ADP_DEF_AUDIO_FORMAT_OFFSET 1
      pure ()
    let _ ← proto_tree_add_item aud_format_tree hf_adp_def_aud_max_chan tvb ADP_DEF_AUDIO_FORMAT_OFFSET 2
    let _ ← proto_tree_add_item aud_format_tree hf_adp_def_aud_saf_flag tvb ADP_DEF_AUDIO_FORMAT_OFFSET 2
    let _ ← proto_tree_add_item aud_format_tree hf_adp_def_aud_float_flag tvb ADP_DEF_AUDIO_FORMAT_OFFSET 2
    if aud_format_tree.isSome then
      let chan_format_ti ← proto_tree_add_item aud_format_tree hf_adp_def_aud_chan_formats tvb ADP_CHAN_FORMAT_OFFSET 2
      let chan_format_tree ← proto_item_add_subtree chan_format_ti .ett_adp_chan_format
      let _ ← proto_tree_add_item chan_format_tree hf_adp_chan_format_mono tvb ADP_CHAN_FORMAT_OFFSET 2
      let _ ← proto_tree_add_item chan_format_tree hf_adp_chan_format_2ch tvb ADP_CHAN_FORMAT_OFFSET 2
      let _ ← proto_tree_add_item chan_format_tree hf_adp_chan_format_3ch tvb ADP_CHAN_FORMAT_OFFSET 2
      let _ ← proto_tree_add_item chan_format_tree hf_adp_chan_format_4ch tvb ADP_CHAN_FORMAT_OFFSET 2
      let _ ← proto_tree_add_item chan_format_tree hf_adp_chan_format_5ch tvb ADP_CHAN_FORMAT_OFFSET 2
      let _ ← proto_tree_add_item chan_format_tree hf_adp_chan_format_6ch tvb ADP_CHAN_FORMAT_OFFSET 2
      let _ ← proto_tree_add_item chan_format_tree hf_adp_chan_format_7ch tvb ADP_CHAN_FORMAT_OFFSET 2
      let _ ← proto_tree_add_item chan_format_tree hf_adp_chan_format_8ch tvb ADP_CHAN_FORMAT_OFFSET 2
      let _ ← proto_tree_add_item chan_format_tree hf_adp_chan_format_10ch tvb ADP_CHAN_FORMAT_OFFSET 2
      let _ ← proto_tree_add_item chan_format_tree hf_adp_chan_format_12ch tvb ADP_CHAN_FORMAT_OFFSET 2
      let _ ← proto_tree_add_item chan_format_tree hf_adp_chan_format_14ch tvb ADP_CHAN_FORMAT_OFFSET 2
      let _ ← proto_tree_add_item chan_format_tree hf_adp_chan_format_16ch tvb ADP_CHAN_FORMAT_OFFSET 2
      let _ ← proto_tree_add_item chan_format_tree hf_adp_chan_format_18ch tvb ADP_CHAN_FORMAT_OFFSET 2
      let _ ← proto_tree_add_item chan_format_tree hf_adp_chan_format_20ch tvb ADP_CHAN_FORMAT_OFFSET 2
      let _ ← proto_tree_add_item chan_format_tree hf_adp_chan_format_22ch tvb ADP_CHAN_FORMAT_OFFSET 2
      let _ ← proto_tree_add_item chan_format_tree hf_adp_chan_format_24ch tvb ADP_CHAN_FORMAT_OFFSET 2
      pure ()
    pure ()
  let _ ← proto_tree_add_item adp_tree hf_adp_def_vid_format tvb ADP_DEF_VIDEO_FORMAT_OFFSET 4
  let _ ← proto_tree_add_item adp_tree hf_adp_assoc_id tvb ADP_ASSOC_ID_OFFSET 8
  let _ ← proto_tree_add_item adp_tree hf_adp_entity_type tvb ADP_ENTITY_TYPE_OFFSET 4
  pure ()

/-- The ACMP dissector `dissect_17221_acmp`. -/
def dissect_17221_acmp (tvb : tvbuff_t) (tree : Option proto_node_ref) : Dissect Unit := do
  let acmp_tree ← proto_item_add_subtree tree .proto_17221
  let _ ← proto_tree_add_item acmp_tree hf_acmp_message_type tvb ACMP_VERSION_OFFSET 1
  let _ ← proto_tree_add_item acmp_tree hf_acmp_status_field tvb ACMP_STATUS_FIELD_OFFSET 1
  let _ ← proto_tree_add_item acmp_tree hf_acmp_cd_length tvb ACMP_CD_LENGTH_OFFSET 1
  let _ ← proto_tree_add_item acmp_tree hf_acmp_stream_id tvb ACMP_STREAM_ID_OFFSET 8
  let _ ← proto_tree_add_item acmp_tree hf_acmp_controller_guid tvb ACMP_CONTROLLER_GUID_OFFSET 8
  let _ ← proto_tree_add_item acmp_tree hf_acmp_talker_guid tvb ACMP_TALKER_GUID_OFFSET 8
  let _ ← proto_tree_add_item acmp_tree hf_acmp_listener_guid tvb ACMP_LISTENER_GUID_OFFSET 8
  let _ ← proto_tree_add_item acmp_tree hf_acmp_talker_unique_id tvb ACMP_TALKER_UNIQUE_ID_OFFSET 2
  let _ ← proto_tree_add_item acmp_tree hf_acmp_listener_unique_id tvb ACMP_LISTENER_UNIQUE_ID_OFFSET 2
  let _ ← proto_tree_add_item acmp_tree hf_acmp_stream_dest_mac tvb ACMP_DEST_MAC_OFFSET 6
  let _ ← proto_tree_add_item acmp_tree hf_acmp_connection_count tvb ACMP_CONNECTION_COUNT_OFFSET 2
  let _ ← proto_tree_add_item acmp_tree hf_acmp_sequence_id tvb ACMP_SEQUENCE_ID_OFFSET 2
  if tree.isSome then
    let flags_ti ← proto_tree_add_item acmp_tree hf_acmp_flags tvb ACMP_FLAGS_OFFSET 2
    let flags_tree ← proto_item_add_subtree flags_ti .ett_acmp_flags
    let _ ← proto_tree_add_item flags_tree hf_acmp_flags_class_b tvb ACMP_FLAGS_OFFSET 2
    let _ ← proto_tree_add_item flags_tree hf_acmp_flags_fast_connect tvb ACMP_FLAGS_OFFSET 2
    let _ ← proto_tree_add_item flags_tree hf_acmp_flags_saved_state tvb ACMP_FLAGS_OFFSET 2
    let _ ← proto_tree_add_item flags_tree hf_acmp_flags_streaming_wait tvb ACMP_FLAGS_OFFSET 2
    pure ()
  let _ ← proto_tree_add_item acmp_tree hf_acmp_default_format tvb ACMP_DEFAULT_FORMAT_OFFSET 4
  pure ()

/-- The dispatcher `dissect_17221`: the `switch` on the masked subtype octet is
written as a chain of tests. -/
def dissect_17221 (tvb : tvbuff_t) (tree : Option proto_node_ref) : Dissect Unit := do
  let subtype ← Dissect.ofExcept (tvb_get_guint8 tvb 0)
  let subtype := (subtype &&& 0x7F) % 2 ^ 8
  col_set_str .COL_PROTOCOL "IEEE1722-1"
  if subtype = 0x7A then
    col_set_str .COL_INFO "AVDECC Discovery Protocol"
    dissect_17221_adp tvb tree
  else if subtype = 0x7B then
    col_set_str .COL_INFO "AVDECC Enumeration and Control Protocol"
  else if subtype = 0x7C then
    col_set_str .COL_INFO "AVDECC Connection Management Protocol"
    dissect_17221_acmp tvb tree
  else
    col_set_str .COL_INFO "1722.1 Unknown"

/-! ## Entry points

The decoders and the dispatcher run on a fresh display tree: the root is
supplied, no node exists yet and no summary column is written. -/

/-- The state before dissection starts. -/
def empty_state : dissect_state := ⟨⟨none, none⟩, []⟩

/-- The ADP decoder on a fresh display tree. -/
def decode_adp (tvb : tvbuff_t) : Result Unit :=
  dissect_17221_adp tvb (some .root) empty_state

/-- The ACMP decoder on a fresh display tree. -/
def decode_acmp (tvb : tvbuff_t) : Result Unit :=
  dissect_17221_acmp tvb (some .root) empty_state

/-- The dispatcher on a fresh display tree. -/
def dispatch (tvb : tvbuff_t) : Result Unit :=
  dissect_17221 tvb (some .root) empty_state

/-! ## Example buffers -/

/-- An advertisement of 68 octets: subtype octet `0xFA`, octet 1 zero, entity
GUID `0x1122334455667788` in octets 4 to 11, entity capabilities `0x00000001`
in octets 20 to 23, all other octets zero. -/
def adp_example : tvbuff_t :=
  [0xFA, 0x00, 0x00, 0x00, 0x11, 0x22, 0x33, 0x44, 0x55, 0x66, 0x77, 0x88,
   0, 0, 0, 0, 0, 0, 0, 0, 0x00, 0x00, 0x00, 0x01,
   0, 0, 0, 0, 0, 0, 0, 0, 0, 0, 0, 0, 0, 0, 0, 0, 0, 0, 0, 0, 0, 0, 0, 0,
   0, 0, 0, 0, 0, 0, 0, 0, 0, 0, 0, 0, 0, 0, 0, 0, 0, 0, 0, 0]

/-- A connection-management message of 56 octets: subtype octet `0xFC`, octet 1
equal to `0x07`, the remaining octets counting up from their offset. -/
def acmp_example : tvbuff_t :=
  [0xFC, 0x07, 2, 3, 4, 5, 6, 7, 8, 9, 10, 11, 12, 13, 14, 15, 16, 17, 18, 19,
   20, 21, 22, 23, 24, 25, 26, 27, 28, 29, 30, 31, 32, 33, 34, 35, 36, 37, 38, 39,
   40, 41, 42, 43, 44, 45, 46, 47, 48, 49, 50, 51, 52, 53, 54, 55]

/-! ## Reading a tree -/

/-- The octets `[offset, offset + length)` of a buffer. -/
def slice (tvb : tvbuff_t) (offset length : Nat) : List guint8 :=
  (tvb.drop offset).take length

/-- The unsigned integer written by a run of octets, most significant first. -/
def be_uint (bytes : List guint8) : Nat :=
  bytes.foldl (fun acc b => acc * 256 + b.val) 0

/-- The numeric value stored with a field, if it is an integer field. -/
def field_info.uint_value (fi : field_info) : Option Nat :=
  match fi.value with
  | .uinteger v => some v
  | .integer64 v => some v
  | .ether _ => none

/-- The shape of a tree: the parent and the registered field of every node, in
the order in which the nodes were created. -/
def tree_shape (t : List proto_node) : List (proto_node_ref × header_field_info) :=
  t.map (fun n => (n.parent, n.finfo.hfinfo))

/-- The fields attached directly to the root, in order. -/
def top_level (sh : List (proto_node_ref × header_field_info)) : List header_field_info :=
  (sh.filter (fun p => p.1 = .root)).map (fun p => p.2)

/-- The fields attached directly to the item at position `i`, in order. -/
def children_at (sh : List (proto_node_ref × header_field_info)) (i : Nat) :
    List header_field_info :=
  (sh.filter (fun p => p.1 = .item i)).map (fun p => p.2)

/-- Position of the first node showing the field `h`. -/
def position_of (sh : List (proto_node_ref × header_field_info)) (h : header_field_info) :
    Option Nat :=
  let i := sh.findIdx (fun p => p.2 = h)
  if i < sh.length then some i else none

/-- The fields attached directly to the first node showing the field `h`. -/
def children_of (sh : List (proto_node_ref × header_field_info)) (h : header_field_info) :
    List header_field_info :=
  match position_of sh h with
  | some i => children_at sh i
  | none => []

/-- The field shown by the parent of a node; `none` when the parent is not an item. -/
def parent_field (sh : List (proto_node_ref × header_field_info))
    (p : proto_node_ref × header_field_info) : Option header_field_info :=
  match p.1 with
  | .root => none
  | .item i =>
    match sh[i]? with
    | some q => some q.2
    | none => none

/-- Number of items on the path from a reference up to the root.  Parents are
created before their children, so a fuel equal to the number of nodes suffices. -/
def ref_depth (sh : List (proto_node_ref × header_field_info)) : Nat → proto_node_ref → Nat
  | 0, _ => 0
  | _ + 1, .root => 0
  | fuel + 1, .item i =>
    match sh[i]? with
    | some p => ref_depth sh fuel p.1 + 1
    | none => 0

/-- Nesting level of every node, in order: 1 for a field attached to the root. -/
def nesting_levels (sh : List (proto_node_ref × header_field_info)) : List Nat :=
  sh.map (fun p => ref_depth sh sh.length p.1 + 1)

/-- The first node of the tree showing the field `h`. -/
def field_of (t : List proto_node) (h : header_field_info) : Option field_info :=
  (t.find? (fun n => n.finfo.hfinfo = h)).map (fun n => n.finfo)

/-- Whether the byte range of a field lies within the first `len` octets. -/
def field_info.within (len : Nat) (fi : field_info) : Bool :=
  decide (fi.start + fi.length ≤ len)

/-! ## The call sequences as data

The dissectors are straight-line sequences of `proto_tree_add_item` calls.
The tables below list the calls of each dissector in program order; the
parent of a call is either the tree handed to the dissector or the item
created by an earlier call of the same run. -/

/-- One `proto_tree_add_item` call site. -/
structure item_call where
  parent : Option Nat
  hf : header_field_info
  start : Nat
  length : Nat
deriving DecidableEq, Repr

/-- The tree a call adds to, for a run that started with `base` nodes in the arena. -/
def call_parent (tree : proto_node_ref) (base : Nat) (c : item_call) : proto_node_ref :=
  match c.parent with
  | none => tree
  | some k => .item (base + k)

/-- The tree a call adds to, given the items returned by the earlier calls of the run. -/
def env_parent (tree : proto_node_ref) (env : List (Option proto_node_ref)) (c : item_call) :
    Option proto_node_ref :=
  match c.parent with
  | none => some tree
  | some k =>
    match env[k]? with
    | some r => r
    | none => none

/-- Run a call sequence, handing each call the item its parent call returned. -/
def run_calls_env (tvb : tvbuff_t) (tree : proto_node_ref) :
    List item_call → List (Option proto_node_ref) → Dissect Unit
  | [], _ => pure ()
  | c :: cs, env => do
    let r ← proto_tree_add_item (env_parent tree env c) c.hf tvb c.start c.length
    run_calls_env tvb tree cs (env ++ [r])

/-- Whether every call names a parent created earlier in the run, for a
sequence that starts after `n` calls. -/
def item_call.scoped : Nat → List item_call → Bool
  | _, [] => true
  | n, c :: cs =>
    (match c.parent with
      | none => true
      | some k => decide (k < n)) && item_call.scoped (n + 1) cs

/-- Whether the byte range of a call lies within the first `len` octets. -/
def item_call.fits (len : Nat) (c : item_call) : Bool :=
  decide (c.start + c.length ≤ len)

/-- Whether the length of a call is one its field type can be read with. -/
def item_call.wf (c : item_call) : Bool :=
  match c.hf.type with
  | .FT_UINT64 => decide (1 ≤ c.length ∧ c.length ≤ 8)
  | .FT_ETHER => decide (c.length = 6)
  | _ => decide (c.length = 1 ∨ c.length = 2 ∨ c.length = 3 ∨ c.length = 4)

/-- The value read by `get_uint_value` when the range is in bounds. -/
def uint_raw (tvb : tvbuff_t) (offset length : Nat) : Nat :=
  match length with
  | 1 => octet tvb offset
  | 2 => octet tvb offset * 2 ^ 8 + octet tvb (offset + 1)
  | 3 => octet tvb offset * 2 ^ 16 + octet tvb (offset + 1) * 2 ^ 8 + octet tvb (offset + 2)
  | 4 => octet tvb offset * 2 ^ 24 + octet tvb (offset + 1) * 2 ^ 16
          + octet tvb (offset + 2) * 2 ^ 8 + octet tvb (offset + 3)
  | _ => 0

/-- The value a call stores when its range is in bounds. -/
def call_value (tvb : tvbuff_t) (c : item_call) : fvalue_t :=
  match c.hf.type with
  | .FT_UINT64 => .integer64 (uint64_accumulate tvb c.start c.length 0)
  | .FT_ETHER => .ether ((tvb.drop c.start).take 6)
  | _ => .uinteger (proto_tree_set_uint c.hf (uint_raw tvb c.start c.length))

/-- The node a call appends when its range is in bounds. -/
def node_of (tvb : tvbuff_t) (tree : proto_node_ref) (base : Nat) (c : item_call) : proto_node :=
  ⟨call_parent tree base c, ⟨c.hf, c.start, c.length, call_value tvb c⟩⟩

/-- Parent and field of the node a call appends. -/
def call_shape (tree : proto_node_ref) (base : Nat) (c : item_call) :
    proto_node_ref × header_field_info :=
  (call_parent tree base c, c.hf)

/-- The calls of `dissect_17221_adp`, in program order. -/
def adp_calls : List item_call :=
  [⟨none, hf_adp_message_type, ADP_VERSION_OFFSET, 1⟩,
   ⟨none, hf_adp_valid_time, ADP_VALID_TIME_OFFSET, 1⟩,
   ⟨none, hf_adp_cd_length, ADP_CD_LENGTH_OFFSET, 1⟩,
   ⟨none, hf_adp_entity_guid, ADP_ENTITY_GUID_OFFSET, 8⟩,
   ⟨none, hf_adp_vendor_id, ADP_VENDOR_ID_OFFSET, 4⟩,
   ⟨none, hf_adp_model_id, ADP_MODEL_ID_OFFSET, 4⟩,
   ⟨none, hf_adp_entity_cap, ADP_ENTITY_CAP_OFFSET, 4⟩,
   ⟨some 6, hf_adp_entity_cap_avdecc_ip, ADP_ENTITY_CAP_OFFSET, 4⟩,
   ⟨some 6, hf_adp_entity_cap_zero_conf, ADP_ENTITY_CAP_OFFSET, 4⟩,
   ⟨some 6, hf_adp_entity_cap_gateway_entity, ADP_ENTITY_CAP_OFFSET, 4⟩,
   ⟨some 6, hf_adp_entity_cap_avdecc_control, ADP_ENTITY_CAP_OFFSET, 4⟩,
   ⟨some 6, hf_adp_entity_cap_legacy_avc, ADP_ENTITY_CAP_OFFSET, 4⟩,
   ⟨some 6, hf_adp_entity_cap_assoc_id_support, ADP_ENTITY_CAP_OFFSET, 4⟩,
   ⟨some 6, hf_adp_entity_cap_assoc_id_valid, ADP_ENTITY_CAP_OFFSET, 4⟩,
   ⟨none, hf_adp_talker_stream_srcs, ADP_TALKER_STREAM_SRCS_OFFSET, 2⟩,
   ⟨none, hf_adp_talker_cap, ADP_TALKER_CAP_OFFSET, 2⟩,
   ⟨some 15, hf_adp_talk_cap_implement, ADP_TALKER_CAP_OFFSET, 2⟩,
   ⟨some 15, hf_adp_talk_cap_other_src, ADP_TALKER_CAP_OFFSET, 2⟩,
   ⟨some 15, hf_adp_talk_cap_control_src, ADP_TALKER_CAP_OFFSET, 2⟩,
   ⟨some 15, hf_adp_talk_cap_media_clk_src, ADP_TALKER_CAP_OFFSET, 2⟩,
   ⟨some 15, hf_adp_talk_cap_smpte_src, ADP_TALKER_CAP_OFFSET, 2⟩,
   ⟨some 15, hf_adp_talk_cap_midi_src, ADP_TALKER_CAP_OFFSET, 2⟩,
   ⟨some 15, hf_adp_talk_cap_audio_src, ADP_TALKER_CAP_OFFSET, 2⟩,
   ⟨some 15, hf_adp_talk_cap_video_src, ADP_TALKER_CAP_OFFSET, 2⟩,
   ⟨none, hf_adp_listener_stream_sinks, ADP_LISTENER_STREAM_SINKS_OFFSET, 2⟩,
   ⟨none, hf_adp_listener_cap, ADP_LISTENER_CAP_OFFSET, 2⟩,
   ⟨some 25, hf_adp_list_cap_implement, ADP_LISTENER_CAP_OFFSET, 2⟩,
   ⟨some 25, hf_adp_list_cap_other_sink, ADP_LISTENER_CAP_OFFSET, 2⟩,
   ⟨some 25, hf_adp_list_cap_control_sink, ADP_LISTENER_CAP_OFFSET, 2⟩,
   ⟨some 25, hf_adp_list_cap_media_clk_sink, ADP_LISTENER_CAP_OFFSET, 2⟩,
   ⟨some 25, hf_adp_list_cap_smpte_sink, ADP_LISTENER_CAP_OFFSET, 2⟩,
   ⟨some 25, hf_adp_list_cap_midi_sink, ADP_LISTENER_CAP_OFFSET, 2⟩,
   ⟨some 25, hf_adp_list_cap_audio_sink, ADP_LISTENER_CAP_OFFSET, 2⟩,
   ⟨some 25, hf_adp_list_cap_video_sink, ADP_LISTENER_CAP_OFFSET, 2⟩,
   ⟨none, hf_adp_controller_cap, ADP_CONTROLLER_CAP_OFFSET, 4⟩,
   ⟨some 34, hf_adp_cont_cap_implement, ADP_CONTROLLER_CAP_OFFSET, 4⟩,
   ⟨some 34, hf_adp_cont_cap_layer3_proxy, ADP_CONTROLLER_CAP_OFFSET, 4⟩,
   ⟨none, hf_adp_avail_index, ADP_AVAIL_INDEX_OFFSET, 4⟩,
   ⟨none, hf_adp_as_gm_id, ADP_AS_GM_ID_OFFSET, 8⟩,
   ⟨none, hf_adp_def_aud_format, ADP_DEF_AUDIO_FORMAT_OFFSET, 4⟩,
   ⟨some 39, hf_adp_def_aud_sample_rates, ADP_DEF_AUDIO_FORMAT_OFFSET, 1⟩,
   ⟨some 40, hf_adp_samp_rate_44k1, ADP_DEF_AUDIO_FORMAT_OFFSET, 1⟩,
   ⟨some 40, hf_adp_samp_rate_48k, ADP_DEF_AUDIO_FORMAT_OFFSET, 1⟩,
   ⟨some 40, hf_adp_samp_rate_88k2, ADP_DEF_AUDIO_FORMAT_OFFSET, 1⟩,
   ⟨some 40, hf_adp_samp_rate_96k, ADP_DEF_AUDIO_FORMAT_OFFSET, 1⟩,
   ⟨some 40, hf_adp_samp_rate_176k4, ADP_DEF_AUDIO_FORMAT_OFFSET, 1⟩,
   ⟨some 40, hf_adp_samp_rate_192k, ADP_DEF_AUDIO_FORMAT_OFFSET, 1⟩,
   ⟨some 39, hf_adp_def_aud_max_chan, ADP_DEF_AUDIO_FORMAT_OFFSET, 2⟩,
   ⟨some 39, hf_adp_def_aud_saf_flag, ADP_DEF_AUDIO_FORMAT_OFFSET, 2⟩,
   ⟨some 39, hf_adp_def_aud_float_flag, ADP_DEF_AUDIO_FORMAT_OFFSET, 2⟩,
   ⟨some 39, hf_adp_def_aud_chan_formats, ADP_CHAN_FORMAT_OFFSET, 2⟩,
   ⟨some 50, hf_adp_chan_format_mono, ADP_CHAN_FORMAT_OFFSET, 2⟩,
   ⟨some 50, hf_adp_chan_format_2ch, ADP_CHAN_FORMAT_OFFSET, 2⟩,
   ⟨some 50, hf_adp_chan_format_3ch, ADP_CHAN_FORMAT_OFFSET, 2⟩,
   ⟨some 50, hf_adp_chan_format_4ch, ADP_CHAN_FORMAT_OFFSET, 2⟩,
   ⟨some 50, hf_adp_chan_format_5ch, ADP_CHAN_FORMAT_OFFSET, 2⟩,
   ⟨some 50, hf_adp_chan_format_6ch, ADP_CHAN_FORMAT_OFFSET, 2⟩,
   ⟨some 50, hf_adp_chan_format_7ch, ADP_CHAN_FORMAT_OFFSET, 2⟩,
   ⟨some 50, hf_adp_chan_format_8ch, ADP_CHAN_FORMAT_OFFSET, 2⟩,
   ⟨some 50, hf_adp_chan_format_10ch, ADP_CHAN_FORMAT_OFFSET, 2⟩,
   ⟨some 50, hf_adp_chan_format_12ch, ADP_CHAN_FORMAT_OFFSET, 2⟩,
   ⟨some 50, hf_adp_chan_format_14ch, ADP_CHAN_FORMAT_OFFSET, 2⟩,
   ⟨some 50, hf_adp_chan_format_16ch, ADP_CHAN_FORMAT_OFFSET, 2⟩,
   ⟨some 50, hf_adp_chan_format_18ch, ADP_CHAN_FORMAT_OFFSET, 2⟩,
   ⟨some 50, hf_adp_chan_format_20ch, ADP_CHAN_FORMAT_OFFSET, 2⟩,
   ⟨some 50, hf_adp_chan_format_22ch, ADP_CHAN_FORMAT_OFFSET, 2⟩,
   ⟨some 50, hf_adp_chan_format_24ch, ADP_CHAN_FORMAT_OFFSET, 2⟩,
   ⟨none, hf_adp_def_vid_format, ADP_DEF_VIDEO_FORMAT_OFFSET, 4⟩,
   ⟨none, hf_adp_assoc_id, ADP_ASSOC_ID_OFFSET, 8⟩,
   ⟨none, hf_adp_entity_type, ADP_ENTITY_TYPE_OFFSET, 4⟩]

/-- The calls of `dissect_17221_acmp`, in program order. -/
def acmp_calls : List item_call :=
  [⟨none, hf_acmp_message_type, ACMP_VERSION_OFFSET, 1⟩,
   ⟨none, hf_acmp_status_field, ACMP_STATUS_FIELD_OFFSET, 1⟩,
   ⟨none, hf_acmp_cd_length, ACMP_CD_LENGTH_OFFSET, 1⟩,
   ⟨none, hf_acmp_stream_id, ACMP_STREAM_ID_OFFSET, 8⟩,
   ⟨none, hf_acmp_controller_guid, ACMP_CONTROLLER_GUID_OFFSET, 8⟩,
   ⟨none, hf_acmp_talker_guid, ACMP_TALKER_GUID_OFFSET, 8⟩,
   ⟨none, hf_acmp_listener_guid, ACMP_LISTENER_GUID_OFFSET, 8⟩,
   ⟨none, hf_acmp_talker_unique_id, ACMP_TALKER_UNIQUE_ID_OFFSET, 2⟩,
   ⟨none, hf_acmp_listener_unique_id, ACMP_LISTENER_UNIQUE_ID_OFFSET, 2⟩,
   ⟨none, hf_acmp_stream_dest_mac, ACMP_DEST_MAC_OFFSET, 6⟩,
   ⟨none, hf_acmp_connection_count, ACMP_CONNECTION_COUNT_OFFSET, 2⟩,
   ⟨none, hf_acmp_sequence_id, ACMP_SEQUENCE_ID_OFFSET, 2⟩,
   ⟨none, hf_acmp_flags, ACMP_FLAGS_OFFSET, 2⟩,
   ⟨some 12, hf_acmp_flags_class_b, ACMP_FLAGS_OFFSET, 2⟩,
   ⟨some 12, hf_acmp_flags_fast_connect, ACMP_FLAGS_OFFSET, 2⟩,
   ⟨some 12, hf_acmp_flags_saved_state, ACMP_FLAGS_OFFSET, 2⟩,
   ⟨some 12, hf_acmp_flags_streaming_wait, ACMP_FLAGS_OFFSET, 2⟩,
   ⟨none, hf_acmp_default_format, ACMP_DEFAULT_FORMAT_OFFSET, 4⟩]

/-! ## Registration with the outer dissector -/

/-- The dissector routines a handle can wrap; this file registers one. -/
inductive dissector_t where
  | dissect_17221
deriving DecidableEq, Repr

/-- A dissector handle (`dissector_handle_t`): the routine and its protocol. -/
structure dissector_handle_t where
  dissector : dissector_t
  proto : subtree_idx
deriving DecidableEq, Repr

/-- One entry of a dissector table: table name, value and handle. -/
structure dissector_registration where
  table : String
  pattern : Nat
  handle : dissector_handle_t
deriving DecidableEq, Repr

/-- Library routine `create_dissector_handle`. -/
def create_dissector_handle (dissector : dissector_t) (proto : subtree_idx) :
    dissector_handle_t :=
  ⟨dissector, proto⟩

/-- Library routine `dissector_add_uint`: add an entry to the named table. -/
def dissector_add_uint (name : String) (pattern : Nat) (handle : dissector_handle_t)
    (regs : List dissector_registration) : List dissector_registration :=
  regs ++ [⟨name, pattern, handle⟩]

/-- The hand-off routine `proto_reg_handoff_17221`. -/
def proto_reg_handoff_17221 (regs : List dissector_registration) :
    List dissector_registration :=
  let avb17221_handle := create_dissector_handle .dissect_17221 .proto_17221
  let regs := dissector_add_uint "ieee1722.subtype" 0x7A avb17221_handle regs
  let regs := dissector_add_uint "ieee1722.subtype" 0x7B avb17221_handle regs
  dissector_add_uint "ieee1722.subtype" 0x7C avb17221_handle regs

/-- The subtype values for which the outer dissector hands a payload to
`dissect_17221`, after the hand-off routine has run on empty tables. -/
def registered_subtypes : List Nat :=
  ((proto_reg_handoff_17221 []).filter
    (fun r => decide (r.table = "ieee1722.subtype" ∧ r.handle.dissector = .dissect_17221))).map
    (fun r => r.pattern)

/-! ## Further reading aids -/

/-- The octet with bit 7 flipped. -/
def flip_bit7 (b : guint8) : guint8 :=
  Fin.ofNat (b.val ^^^ 0x80)

/-- The buffer with bit 7 of its first octet flipped. -/
def flip_high_bit : tvbuff_t → tvbuff_t
  | [] => []
  | b :: rest => flip_bit7 b :: rest

/-- The entries of a value table that come before its terminating `NULL` entry. -/
def enum_entries : List value_string → List (Nat × String)
  | [] => []
  | ⟨_, none⟩ :: _ => []
  | ⟨v, some s⟩ :: vs => (v, s) :: enum_entries vs

/-- First-match lookup in a list of (code, label) pairs, as the specification
words it. -/
def enum_lookup (entries : List (Nat × String)) (c : Nat) : Option String :=
  (entries.find? (fun p => decide (p.1 = c))).map (fun p => p.2)

/-- Pre-order traversal of the part of a tree below a reference: each child in
order, followed by its own descendants.  Parents are created before their
children, so a fuel equal to the number of nodes suffices. -/
def preorder_from (sh : List (proto_node_ref × header_field_info)) :
    Nat → proto_node_ref → List header_field_info
  | 0, _ => []
  | fuel + 1, r =>
    ((List.range sh.length).filter (fun i =>
        match sh[i]? with
        | some p => decide (p.1 = r)
        | none => false)).flatMap (fun i =>
      match sh[i]? with
      | some p => p.2 :: preorder_from sh fuel (.item i)
      | none => [])

/-- Pre-order traversal of a whole tree. -/
def preorder (sh : List (proto_node_ref × header_field_info)) : List header_field_info :=
  preorder_from sh sh.length .root

/-- The example connection-management message with octet 2 set to `0xf8`. -/
def acmp_status_example : tvbuff_t :=
  acmp_example.set 2 0xf8

/-- The example advertisement with octet 2 set to `0xf8`. -/
def adp_valid_time_example : tvbuff_t :=
  adp_example.set 2 0xf8

/-- The example advertisement with octets 2 and 3 set to `01 00`: the value 256
in the eleven low bits of the 16-bit word at octets 2 and 3. -/
def adp_cd_length_example : tvbuff_t :=
  (adp_example.set 2 0x01).set 3 0x00

/-- The example connection-management message with octets 2 and 3 set to `01 00`. -/
def acmp_cd_length_example : tvbuff_t :=
  (acmp_example.set 2 0x01).set 3 0x00

/-! ## Byte layout, bit positions and further examples -/

/-- A reference moved to an arena that starts `k` nodes later. -/
def proto_node_ref.relocate (k : Nat) : proto_node_ref → proto_node_ref
  | .root => .root
  | .item i => .item (k + i)

/-- A node moved to an arena that starts `k` nodes later: the field is kept,
the parent reference is shifted. -/
def proto_node.relocate (k : Nat) (n : proto_node) : proto_node :=
  ⟨n.parent.relocate k, n.finfo⟩

/-- Parent and byte range (start, length) of every node, in creation order. -/
def tree_layout (t : List proto_node) : List (proto_node_ref × Nat × Nat) :=
  t.map (fun n => (n.parent, n.finfo.start, n.finfo.length))

/-- Byte ranges of the nodes attached directly to the root, in order. -/
def top_level_ranges (lay : List (proto_node_ref × Nat × Nat)) : List (Nat × Nat) :=
  (lay.filter (fun p => p.1 = .root)).map (fun p => p.2)

/-- Follow a list of byte ranges from the offset `pos`: every range must be
non-empty and start where the one before it ends.  The result is the offset
after the last range, `none` when there is a gap or an overlap. -/
def tiles_from : Nat → List (Nat × Nat) → Option Nat
  | pos, [] => some pos
  | pos, (st, len) :: rest =>
    if st = pos ∧ 0 < len then tiles_from (pos + len) rest else none

/-- Whether every node attached to an item lies within the byte range of that
item. -/
def nested_in_parent (lay : List (proto_node_ref × Nat × Nat)) : Bool :=
  lay.all (fun p =>
    match p.1 with
    | .root => true
    | .item i =>
      match lay[i]? with
      | some q => decide (q.2.1 ≤ p.2.1 ∧ p.2.1 + p.2.2 ≤ q.2.1 + q.2.2)
      | none => false)

/-- Positions of the set bits of a mask, among the 32 bits a mask can have. -/
def set_bits (mask : Nat) : List Nat :=
  (List.range 32).filter (fun i => mask.testBit i)

/-- Whether a call reads enough octets for every bit of its field's mask. -/
def item_call.mask_fits (c : item_call) : Bool :=
  decide (c.hf.bitmask < 2 ^ (8 * c.length))

/-- The example advertisement with octets 48 and 49, the first half of the
default audio format, replaced. -/
def adp_audio_format_example (b48 b49 : guint8) : tvbuff_t :=
  (adp_example.set 48 b48).set 49 b49

/-- The example advertisement with only the `ZERO_CONF` bit set in the
entity capabilities (octet 23 is `0x02`). -/
def adp_zero_conf_example : tvbuff_t :=
  adp_example.set 23 0x02

/-! # Theorems -/

/-! ## The monad and the call sequences -/

theorem bind_apply {α β : Type} (m : Dissect α) (f : α → Dissect β) (s : dissect_state) :
    (m >>= f) s = match m s with
      | .ok a s1 => f a s1
      | .thrown e s1 => .thrown e s1 := rfl

theorem pure_apply {α : Type} (a : α) (s : dissect_state) :
    (pure a : Dissect α) s = .ok a s := rfl

theorem add_item_bind {β : Type} (p : proto_node_ref) (h : header_field_info) (tvb : tvbuff_t)
    (st len : Nat) (k : Option proto_node_ref → Dissect β) (s : dissect_state) :
    (proto_tree_add_item (some p) h tvb st len >>= k) s =
      match proto_tree_new_item_value h tvb st len with
      | .error e => .thrown e s
      | .ok v => k (some (.item s.nodes.length)) ⟨s.cinfo, s.nodes ++ [⟨p, ⟨h, st, len, v⟩⟩]⟩ := by
  rw [bind_apply]
  unfold proto_tree_add_item
  cases proto_tree_new_item_value h tvb st len <;> rfl

theorem get_uint_value_wf (tvb : tvbuff_t) (st len : Nat)
    (h : len = 1 ∨ len = 2 ∨ len = 3 ∨ len = 4) :
    get_uint_value tvb st len =
      if st + len ≤ tvb.length then .ok (uint_raw tvb st len) else .error .BoundsError := by
  rcases h with h | h | h | h <;> subst h <;>
    simp [get_uint_value, uint_raw, tvb_get_guint8, tvb_get_ntohs, tvb_get_ntoh24, tvb_get_ntohl]

theorem new_item_value_wf (c : item_call) (hwf : c.wf = true) (tvb : tvbuff_t) :
    proto_tree_new_item_value c.hf tvb c.start c.length =
      if c.start + c.length ≤ tvb.length then .ok (call_value tvb c)
      else .error .BoundsError := by
  unfold item_call.wf at hwf
  unfold proto_tree_new_item_value call_value
  cases ht : c.hf.type <;> simp only [ht, decide_eq_true_eq] at hwf ⊢
  case FT_UINT64 =>
    by_cases h : c.start + c.length ≤ tvb.length <;> simp [get_uint64_value, hwf, h]
  case FT_ETHER =>
    by_cases h : c.start + c.length ≤ tvb.length
    · have h6 : c.start + 6 ≤ tvb.length := by omega
      simp [get_ether_value, hwf, h, h6]
    · have h6 : ¬ c.start + 6 ≤ tvb.length := by omega
      simp [get_ether_value, hwf, h, h6]
  all_goals
    rw [get_uint_value_wf tvb c.start c.length hwf]
    by_cases h : c.start + c.length ≤ tvb.length <;> simp [h]

theorem bind_assoc_fn {α β γ : Type} (m : Dissect α) (f : α → Dissect β) (g : β → Dissect γ) :
    (m >>= f) >>= g = m >>= fun a => f a >>= g := by
  funext s
  simp only [bind_apply]
  cases m s <;> rfl

theorem pure_bind_fn {α β : Type} (a : α) (f : α → Dissect β) :
    (pure a : Dissect α) >>= f = f a := by
  funext s
  rfl

theorem add_subtree_bind_fn {β : Type} (pi : Option proto_node_ref) (i : subtree_idx)
    (k : Option proto_node_ref → Dissect β) :
    proto_item_add_subtree pi i >>= k = k pi := by
  funext s
  rfl

theorem dissect_17221_acmp_eq_env (tvb : tvbuff_t) (t : proto_node_ref) :
    dissect_17221_acmp tvb (some t) = run_calls_env tvb t acmp_calls [] := by
  simp only [dissect_17221_acmp, Option.isSome_some,
    if_true, bind_assoc_fn, pure_bind_fn, add_subtree_bind_fn]
  simp only [acmp_calls]
  simp only [run_calls_env]
  simp only [env_parent, List.nil_append, List.cons_append,
    List.getElem?_cons_succ, List.getElem?_cons_zero]

theorem add_item_bind_congr {β : Type} (p : proto_node_ref) (h : header_field_info)
    (tvb : tvbuff_t) (st len : Nat) (k k' : Option proto_node_ref → Dissect β)
    (hk : ∀ r, k (some r) = k' (some r)) :
    proto_tree_add_item (some p) h tvb st len >>= k
      = proto_tree_add_item (some p) h tvb st len >>= k' := by
  funext s
  rw [add_item_bind, add_item_bind]
  cases proto_tree_new_item_value h tvb st len with
  | error e => rfl
  | ok v => simp only [hk]

set_option maxRecDepth 100000 in
set_option maxHeartbeats 2000000 in
theorem dissect_17221_adp_eq_env (tvb : tvbuff_t) (t : proto_node_ref) :
    dissect_17221_adp tvb (some t) = run_calls_env tvb t adp_calls [] := by
  simp only [dissect_17221_adp, Option.isSome_some,
    if_true, bind_assoc_fn, pure_bind_fn, add_subtree_bind_fn]
  simp only [adp_calls]
  simp only [run_calls_env]
  simp only [env_parent, List.nil_append, List.cons_append,
    List.getElem?_cons_succ, List.getElem?_cons_zero]
  repeat
    refine add_item_bind_congr _ _ _ _ _ _ _ (fun r => ?_)
    try simp only [Option.isSome_some, if_true]

theorem env_parent_eq (tree : proto_node_ref) (base n : Nat) (c : item_call)
    (hc : (match c.parent with
      | none => true
      | some k => decide (k < n)) = true) :
    env_parent tree ((List.range n).map (fun k => some (proto_node_ref.item (base + k)))) c
      = some (call_parent tree base c) := by
  unfold env_parent call_parent
  cases hp : c.parent with
  | none => rfl
  | some k =>
    rw [hp] at hc
    have hk : k < n := by simpa using hc
    simp [List.getElem?_map, List.getElem?_range hk]

theorem run_calls_env_eq (tvb : tvbuff_t) (tree : proto_node_ref) (base : Nat)
    (cs : List item_call) (hwf : ∀ c ∈ cs, c.wf = true) (n : Nat)
    (hsc : item_call.scoped n cs = true) (s : dissect_state)
    (hlen : s.nodes.length = base + n) :
    run_calls_env tvb tree cs
        ((List.range n).map (fun k => some (proto_node_ref.item (base + k)))) s =
      if cs.all (item_call.fits tvb.length) = true then
        .ok () ⟨s.cinfo, s.nodes ++ cs.map (node_of tvb tree base)⟩
      else
        .thrown .BoundsError
          ⟨s.cinfo, s.nodes ++ (cs.takeWhile (item_call.fits tvb.length)).map (node_of tvb tree base)⟩ := by
  induction cs generalizing s n with
  | nil => simp [run_calls_env, pure_apply]
  | cons c cs ih =>
    have hc : c.wf = true := hwf c (List.mem_cons_self _ _)
    have hcs : ∀ d ∈ cs, d.wf = true := fun d hd => hwf d (List.mem_cons_of_mem _ hd)
    rw [item_call.scoped, Bool.and_eq_true] at hsc
    rw [run_calls_env, env_parent_eq tree base n c hsc.1, add_item_bind, new_item_value_wf c hc]
    by_cases h : c.start + c.length ≤ tvb.length
    · have hf : item_call.fits tvb.length c = true := by simp [item_call.fits, h]
      have hr : ((List.range n).map (fun k => some (proto_node_ref.item (base + k))))
          ++ [some (proto_node_ref.item s.nodes.length)]
          = (List.range (n + 1)).map (fun k => some (proto_node_ref.item (base + k))) := by
        simp [List.range_succ, hlen]
      simp only [h, if_true, hr]
      rw [ih hcs (n + 1) hsc.2 _ (by simp [hlen]; omega)]
      simp only [List.all_cons, hf, Bool.true_and, List.takeWhile_cons,
        List.map_cons, node_of, List.append_assoc, List.singleton_append, if_true]
    · have hf : item_call.fits tvb.length c = false := by simp [item_call.fits, h]
      simp [h, hf, List.takeWhile_cons]

theorem adp_calls_wf : ∀ c ∈ adp_calls, c.wf = true := by decide

theorem acmp_calls_wf : ∀ c ∈ acmp_calls, c.wf = true := by decide

theorem adp_calls_scoped : item_call.scoped 0 adp_calls = true := by decide

theorem acmp_calls_scoped : item_call.scoped 0 acmp_calls = true := by decide

theorem dissect_17221_adp_run (tvb : tvbuff_t) (t : proto_node_ref) (s : dissect_state) :
    dissect_17221_adp tvb (some t) s =
      if adp_calls.all (item_call.fits tvb.length) = true then
        .ok () ⟨s.cinfo, s.nodes ++ adp_calls.map (node_of tvb t s.nodes.length)⟩
      else
        .thrown .BoundsError
          ⟨s.cinfo, s.nodes ++
            (adp_calls.takeWhile (item_call.fits tvb.length)).map (node_of tvb t s.nodes.length)⟩ := by
  rw [dissect_17221_adp_eq_env]
  exact run_calls_env_eq tvb t s.nodes.length adp_calls adp_calls_wf 0 adp_calls_scoped s rfl

theorem dissect_17221_acmp_run (tvb : tvbuff_t) (t : proto_node_ref) (s : dissect_state) :
    dissect_17221_acmp tvb (some t) s =
      if acmp_calls.all (item_call.fits tvb.length) = true then
        .ok () ⟨s.cinfo, s.nodes ++ acmp_calls.map (node_of tvb t s.nodes.length)⟩
      else
        .thrown .BoundsError
          ⟨s.cinfo, s.nodes ++
            (acmp_calls.takeWhile (item_call.fits tvb.length)).map (node_of tvb t s.nodes.length)⟩ := by
  rw [dissect_17221_acmp_eq_env]
  exact run_calls_env_eq tvb t s.nodes.length acmp_calls acmp_calls_wf 0 acmp_calls_scoped s rfl

theorem adp_all_fits (len : Nat) :
    adp_calls.all (item_call.fits len) = true ↔ 68 ≤ len := by
  simp only [adp_calls, List.all_cons, List.all_nil, item_call.fits, Bool.and_true,
    Bool.and_eq_true, decide_eq_true_eq]
  simp only [ADP_VERSION_OFFSET, ADP_VALID_TIME_OFFSET, ADP_CD_LENGTH_OFFSET,
    ADP_ENTITY_GUID_OFFSET, ADP_VENDOR_ID_OFFSET, ADP_MODEL_ID_OFFSET, ADP_ENTITY_CAP_OFFSET,
    ADP_TALKER_STREAM_SRCS_OFFSET, ADP_TALKER_CAP_OFFSET, ADP_LISTENER_STREAM_SINKS_OFFSET,
    ADP_LISTENER_CAP_OFFSET, ADP_CONTROLLER_CAP_OFFSET, ADP_AVAIL_INDEX_OFFSET,
    ADP_AS_GM_ID_OFFSET, ADP_DEF_AUDIO_FORMAT_OFFSET, ADP_CHAN_FORMAT_OFFSET,
    ADP_DEF_VIDEO_FORMAT_OFFSET, ADP_ASSOC_ID_OFFSET, ADP_ENTITY_TYPE_OFFSET]
  omega

theorem acmp_all_fits (len : Nat) :
    acmp_calls.all (item_call.fits len) = true ↔ 56 ≤ len := by
  simp only [acmp_calls, List.all_cons, List.all_nil, item_call.fits, Bool.and_true,
    Bool.and_eq_true, decide_eq_true_eq]
  simp only [ACMP_VERSION_OFFSET, ACMP_STATUS_FIELD_OFFSET, ACMP_CD_LENGTH_OFFSET,
    ACMP_STREAM_ID_OFFSET, ACMP_CONTROLLER_GUID_OFFSET, ACMP_TALKER_GUID_OFFSET,
    ACMP_LISTENER_GUID_OFFSET, ACMP_TALKER_UNIQUE_ID_OFFSET, ACMP_LISTENER_UNIQUE_ID_OFFSET,
    ACMP_DEST_MAC_OFFSET, ACMP_CONNECTION_COUNT_OFFSET, ACMP_SEQUENCE_ID_OFFSET,
    ACMP_FLAGS_OFFSET, ACMP_DEFAULT_FORMAT_OFFSET]
  omega

/-! ## The dispatcher -/

theorem add_item_null_bind_fn {β : Type} (h : header_field_info) (tvb : tvbuff_t)
    (st len : Nat) (k : Option proto_node_ref → Dissect β) :
    proto_tree_add_item none h tvb st len >>= k = k none := by
  funext s
  rfl

theorem dissect_17221_adp_null (tvb : tvbuff_t) : dissect_17221_adp tvb none = pure () := by
  simp only [dissect_17221_adp, Option.isSome_none, Bool.false_eq_true, if_false,
    bind_assoc_fn, pure_bind_fn, add_subtree_bind_fn, add_item_null_bind_fn]

theorem dissect_17221_acmp_null (tvb : tvbuff_t) : dissect_17221_acmp tvb none = pure () := by
  simp only [dissect_17221_acmp, Option.isSome_none, Bool.false_eq_true, if_false,
    bind_assoc_fn, pure_bind_fn, add_subtree_bind_fn, add_item_null_bind_fn]

theorem dissect_17221_adp_frame (tvb : tvbuff_t) (tree : Option proto_node_ref)
    (c c' : column_info) (ns : List proto_node) :
    (dissect_17221_adp tvb tree ⟨c, ns⟩).state.nodes
        = (dissect_17221_adp tvb tree ⟨c', ns⟩).state.nodes
      ∧ (dissect_17221_adp tvb tree ⟨c, ns⟩).fault = (dissect_17221_adp tvb tree ⟨c', ns⟩).fault
      ∧ (dissect_17221_adp tvb tree ⟨c, ns⟩).state.cinfo = c := by
  cases tree with
  | none => simp [dissect_17221_adp_null, pure_apply, Result.state, Result.fault]
  | some t =>
    simp only [dissect_17221_adp_run]
    split <;> simp [Result.state, Result.fault]

theorem dissect_17221_acmp_frame (tvb : tvbuff_t) (tree : Option proto_node_ref)
    (c c' : column_info) (ns : List proto_node) :
    (dissect_17221_acmp tvb tree ⟨c, ns⟩).state.nodes
        = (dissect_17221_acmp tvb tree ⟨c', ns⟩).state.nodes
      ∧ (dissect_17221_acmp tvb tree ⟨c, ns⟩).fault = (dissect_17221_acmp tvb tree ⟨c', ns⟩).fault
      ∧ (dissect_17221_acmp tvb tree ⟨c, ns⟩).state.cinfo = c := by
  cases tree with
  | none => simp [dissect_17221_acmp_null, pure_apply, Result.state, Result.fault]
  | some t =>
    simp only [dissect_17221_acmp_run]
    split <;> simp [Result.state, Result.fault]

theorem octet_and_7F_mod (x : Nat) : (x &&& 0x7F) % 2 ^ 8 = x &&& 0x7F := by
  apply Nat.mod_eq_of_lt
  have : x &&& 0x7F ≤ 0x7F := Nat.and_le_right
  omega

/-- What `dissect_17221` does on a non-empty buffer, by subtype. -/
theorem dissect_17221_nonempty (tvb : tvbuff_t) (hne : tvb ≠ []) (tree : Option proto_node_ref)
    (s : dissect_state) :
    dissect_17221 tvb tree s =
      if octet tvb 0 &&& 0x7F = 0x7A then
        dissect_17221_adp tvb tree
          ⟨⟨some "IEEE1722-1", some "AVDECC Discovery Protocol"⟩, s.nodes⟩
      else if octet tvb 0 &&& 0x7F = 0x7B then
        .ok () ⟨⟨some "IEEE1722-1", some "AVDECC Enumeration and Control Protocol"⟩, s.nodes⟩
      else if octet tvb 0 &&& 0x7F = 0x7C then
        dissect_17221_acmp tvb tree
          ⟨⟨some "IEEE1722-1", some "AVDECC Connection Management Protocol"⟩, s.nodes⟩
      else
        .ok () ⟨⟨some "IEEE1722-1", some "1722.1 Unknown"⟩, s.nodes⟩ := by
  have hlen : 0 + 1 ≤ tvb.length := by
    cases tvb with
    | nil => exact absurd rfl hne
    | cons a l => simp
  unfold dissect_17221
  simp only [bind_apply, tvb_get_guint8, hlen, if_true, Dissect.ofExcept, octet_and_7F_mod,
    col_set_str]
  split
  · rfl
  · split
    · rfl
    · split <;> rfl


/-! ## C1: dispatcher routing -/

/-- C1. Dispatcher routing.  On every non-empty buffer, with `d` the first
octet masked with `0x7F`: for `d = 0x7A` the dispatcher is the ADP dissector run
on the same buffer and tree (after the two summary columns are written), so it
leaves the same tree and the same fault; for `d = 0x7C` likewise with the ACMP
dissector; for `d = 0x7B` it returns normally with the tree untouched; for any
other `d` it returns normally with the tree untouched and the summary
`1722.1 Unknown`. -/
theorem dispatcher_routing (tvb : tvbuff_t) (hne : tvb ≠ []) (tree : Option proto_node_ref)
    (s : dissect_state) :
    (octet tvb 0 &&& 0x7F = 0x7A →
        dissect_17221 tvb tree s
            = dissect_17221_adp tvb tree
                ⟨⟨some "IEEE1722-1", some "AVDECC Discovery Protocol"⟩, s.nodes⟩
          ∧ (dissect_17221 tvb tree s).state.nodes = (dissect_17221_adp tvb tree s).state.nodes
          ∧ (dissect_17221 tvb tree s).fault = (dissect_17221_adp tvb tree s).fault)
      ∧ (octet tvb 0 &&& 0x7F = 0x7C →
        dissect_17221 tvb tree s
            = dissect_17221_acmp tvb tree
                ⟨⟨some "IEEE1722-1", some "AVDECC Connection Management Protocol"⟩, s.nodes⟩
          ∧ (dissect_17221 tvb tree s).state.nodes = (dissect_17221_acmp tvb tree s).state.nodes
          ∧ (dissect_17221 tvb tree s).fault = (dissect_17221_acmp tvb tree s).fault)
      ∧ (octet tvb 0 &&& 0x7F = 0x7B →
        dissect_17221 tvb tree s
          = .ok () ⟨⟨some "IEEE1722-1", some "AVDECC Enumeration and Control Protocol"⟩, s.nodes⟩)
      ∧ (octet tvb 0 &&& 0x7F ≠ 0x7A → octet tvb 0 &&& 0x7F ≠ 0x7B →
          octet tvb 0 &&& 0x7F ≠ 0x7C →
        dissect_17221 tvb tree s
          = .ok () ⟨⟨some "IEEE1722-1", some "1722.1 Unknown"⟩, s.nodes⟩) := by
  rw [dissect_17221_nonempty tvb hne]
  refine ⟨fun h => ?_, fun h => ?_, fun h => ?_, fun h1 h2 h3 => ?_⟩
  · rw [if_pos h]
    exact ⟨rfl, (dissect_17221_adp_frame tvb tree _ s.cinfo s.nodes).1,
      (dissect_17221_adp_frame tvb tree _ s.cinfo s.nodes).2.1⟩
  · rw [if_neg (by omega), if_neg (by omega), if_pos h]
    exact ⟨rfl, (dissect_17221_acmp_frame tvb tree _ s.cinfo s.nodes).1,
      (dissect_17221_acmp_frame tvb tree _ s.cinfo s.nodes).2.1⟩
  · rw [if_neg (by omega), if_pos h]
  · rw [if_neg h1, if_neg h2, if_neg h3]

/-- Witness for C1: a ten-octet buffer whose first octet is `0xFA` is routed to
the ADP dissector. -/
theorem dispatcher_routing_witness :
    (dissect_17221 [0xFA, 0, 0, 0, 0, 0, 0, 0, 0, 0] (some .root) empty_state).state.nodes
        = (dissect_17221_adp [0xFA, 0, 0, 0, 0, 0, 0, 0, 0, 0] (some .root) empty_state).state.nodes
      ∧ (dissect_17221 [0xFA, 0, 0, 0, 0, 0, 0, 0, 0, 0] (some .root) empty_state).fault
        = (dissect_17221_adp [0xFA, 0, 0, 0, 0, 0, 0, 0, 0, 0] (some .root) empty_state).fault :=
  ((dispatcher_routing [0xFA, 0, 0, 0, 0, 0, 0, 0, 0, 0] (by decide) (some .root)
    empty_state).1 (by decide)).2

/-! ## C2, C3: truncation thresholds -/

theorem adp_fault (tvb : tvbuff_t) (t : proto_node_ref) (s : dissect_state) :
    (dissect_17221_adp tvb (some t) s).fault
      = if 68 ≤ tvb.length then none else some .BoundsError := by
  rw [dissect_17221_adp_run]
  by_cases h : 68 ≤ tvb.length
  · rw [if_pos ((adp_all_fits _).2 h), if_pos h]
    rfl
  · rw [if_neg (fun hc => h ((adp_all_fits _).1 hc)), if_neg h]
    rfl

theorem acmp_fault (tvb : tvbuff_t) (t : proto_node_ref) (s : dissect_state) :
    (dissect_17221_acmp tvb (some t) s).fault
      = if 56 ≤ tvb.length then none else some .BoundsError := by
  rw [dissect_17221_acmp_run]
  by_cases h : 56 ≤ tvb.length
  · rw [if_pos ((acmp_all_fits _).2 h), if_pos h]
    rfl
  · rw [if_neg (fun hc => h ((acmp_all_fits _).1 hc)), if_neg h]
    rfl

theorem adp_ok (tvb : tvbuff_t) (h : 68 ≤ tvb.length) (t : proto_node_ref) (s : dissect_state) :
    dissect_17221_adp tvb (some t) s
      = .ok () ⟨s.cinfo, s.nodes ++ adp_calls.map (node_of tvb t s.nodes.length)⟩ := by
  rw [dissect_17221_adp_run, if_pos ((adp_all_fits _).2 h)]

theorem acmp_ok (tvb : tvbuff_t) (h : 56 ≤ tvb.length) (t : proto_node_ref) (s : dissect_state) :
    dissect_17221_acmp tvb (some t) s
      = .ok () ⟨s.cinfo, s.nodes ++ acmp_calls.map (node_of tvb t s.nodes.length)⟩ := by
  rw [dissect_17221_acmp_run, if_pos ((acmp_all_fits _).2 h)]

theorem adp_nodes (tvb : tvbuff_t) (t : proto_node_ref) (s : dissect_state) :
    (dissect_17221_adp tvb (some t) s).state.nodes
      = s.nodes ++ (adp_calls.takeWhile (item_call.fits tvb.length)).map
          (node_of tvb t s.nodes.length) := by
  rw [dissect_17221_adp_run]
  split
  · next h => rw [List.takeWhile_eq_self_iff.2 (fun c hc => List.all_eq_true.1 h c hc)]; rfl
  · rfl

theorem acmp_nodes (tvb : tvbuff_t) (t : proto_node_ref) (s : dissect_state) :
    (dissect_17221_acmp tvb (some t) s).state.nodes
      = s.nodes ++ (acmp_calls.takeWhile (item_call.fits tvb.length)).map
          (node_of tvb t s.nodes.length) := by
  rw [dissect_17221_acmp_run]
  split
  · next h => rw [List.takeWhile_eq_self_iff.2 (fun c hc => List.all_eq_true.1 h c hc)]; rfl
  · rfl

/-- C2. ADP truncation threshold.  With a display tree supplied, the ADP
dissector raises the out-of-bounds exception exactly when the buffer is shorter
than 68 octets, and returns normally on every buffer of 68 octets or more. -/
theorem adp_truncation_threshold (tvb : tvbuff_t) (t : proto_node_ref) (s : dissect_state) :
    ((dissect_17221_adp tvb (some t) s).fault = some .BoundsError ↔ tvb.length < 68)
      ∧ (68 ≤ tvb.length → (dissect_17221_adp tvb (some t) s).fault = none
          ∧ ∃ s1, dissect_17221_adp tvb (some t) s = .ok () s1) := by
  refine ⟨?_, fun h => ⟨?_, _, adp_ok tvb h t s⟩⟩
  · rw [adp_fault]
    by_cases h : 68 ≤ tvb.length
    · rw [if_pos h]
      exact ⟨fun hf => (by cases hf), fun hl => absurd h (by omega)⟩
    · rw [if_neg h]
      exact ⟨fun _ => (by omega), fun _ => rfl⟩
  · rw [adp_fault, if_pos h]

/-- Witness for C2: a 68-octet buffer of zeros decodes without a fault. -/
theorem adp_truncation_threshold_witness :
    (dissect_17221_adp (List.replicate 68 0) (some .root) empty_state).fault = none :=
  ((adp_truncation_threshold (List.replicate 68 0) .root empty_state).2 (by decide)).1

theorem octet_append (tvb ext : tvbuff_t) (i : Nat) (h : i < tvb.length) :
    octet (tvb ++ ext) i = octet tvb i := by
  unfold octet
  rw [List.getElem?_append_left h]

theorem uint64_accumulate_append (tvb ext : tvbuff_t) (n st acc : Nat)
    (h : st + n ≤ tvb.length) :
    uint64_accumulate (tvb ++ ext) st n acc = uint64_accumulate tvb st n acc := by
  induction n generalizing st acc with
  | zero => rfl
  | succ n ih =>
    simp only [uint64_accumulate]
    rw [octet_append tvb ext st (by omega), ih (st + 1) _ (by omega)]

theorem uint_raw_append (tvb ext : tvbuff_t) (st len : Nat) (h : st + len ≤ tvb.length) :
    uint_raw (tvb ++ ext) st len = uint_raw tvb st len := by
  unfold uint_raw
  split
  · rw [octet_append tvb ext st (by omega)]
  · rw [octet_append tvb ext st (by omega), octet_append tvb ext (st + 1) (by omega)]
  · rw [octet_append tvb ext st (by omega), octet_append tvb ext (st + 1) (by omega),
      octet_append tvb ext (st + 2) (by omega)]
  · rw [octet_append tvb ext st (by omega), octet_append tvb ext (st + 1) (by omega),
      octet_append tvb ext (st + 2) (by omega), octet_append tvb ext (st + 3) (by omega)]
  · rfl

theorem call_value_append (tvb ext : tvbuff_t) (c : item_call) (hwf : c.wf = true)
    (h : c.start + c.length ≤ tvb.length) :
    call_value (tvb ++ ext) c = call_value tvb c := by
  unfold item_call.wf at hwf
  unfold call_value
  cases ht : c.hf.type <;> simp only [ht, decide_eq_true_eq] at hwf ⊢
  case FT_UINT64 => rw [uint64_accumulate_append tvb ext _ _ _ h]
  case FT_ETHER =>
    have h6 : c.start + 6 ≤ tvb.length := by omega
    rw [List.drop_append_of_le_length (by omega), List.take_append_of_le_length]
    simp only [List.length_drop]
    omega
  all_goals rw [uint_raw_append tvb ext _ _ h]

theorem node_of_append (tvb ext : tvbuff_t) (tree : proto_node_ref) (base : Nat) (c : item_call)
    (hwf : c.wf = true) (h : c.start + c.length ≤ tvb.length) :
    node_of (tvb ++ ext) tree base c = node_of tvb tree base c := by
  unfold node_of
  rw [call_value_append tvb ext c hwf h]

theorem takeWhile_takeWhile_of_imp {α : Type} (p q : α → Bool) (l : List α)
    (hpq : ∀ a, p a = true → q a = true) :
    (l.takeWhile q).takeWhile p = l.takeWhile p := by
  induction l with
  | nil => rfl
  | cons a l ih =>
    by_cases hq : q a = true
    · by_cases hp : p a = true
      · simp [List.takeWhile_cons, hq, hp, ih]
      · simp [List.takeWhile_cons, hq, hp]
    · have hp : ¬ p a = true := fun hp => hq (hpq a hp)
      simp [List.takeWhile_cons, hq, hp]

/-- The tree of a run on a buffer is the tree of the run on any extension of the
buffer, cut at the first node whose range exceeds the shorter buffer. -/
theorem calls_truncation_cut (cs : List item_call) (hwf : ∀ c ∈ cs, c.wf = true)
    (tvb ext : tvbuff_t) (tree : proto_node_ref) (base : Nat) :
    (cs.takeWhile (item_call.fits tvb.length)).map (node_of tvb tree base)
      = (((cs.takeWhile (item_call.fits (tvb ++ ext).length)).map
            (node_of (tvb ++ ext) tree base)).takeWhile
          (fun n => n.finfo.within tvb.length)) := by
  have hcomp : ((fun n : proto_node => n.finfo.within tvb.length) ∘ node_of (tvb ++ ext) tree base)
      = item_call.fits tvb.length := by
    funext c
    rfl
  rw [List.takeWhile_map, hcomp,
    takeWhile_takeWhile_of_imp (item_call.fits tvb.length) (item_call.fits (tvb ++ ext).length)]
  · apply List.map_congr_left
    intro c hc
    have hfit : item_call.fits tvb.length c = true := (List.mem_takeWhile_imp hc)
    have hmem : c ∈ cs := (List.takeWhile_sublist _).subset hc
    exact (node_of_append tvb ext tree base c (hwf c hmem)
      (by simpa [item_call.fits] using hfit)).symm
  · intro c hc
    simp only [item_call.fits, decide_eq_true_eq, List.length_append] at hc ⊢
    omega

theorem acmp_truncation_cut (tvb ext : tvbuff_t) :
    (decode_acmp tvb).state.nodes
      = ((decode_acmp (tvb ++ ext)).state.nodes).takeWhile
          (fun n => n.finfo.within tvb.length) := by
  unfold decode_acmp
  rw [acmp_nodes, acmp_nodes]
  simp only [empty_state, List.nil_append]
  exact calls_truncation_cut acmp_calls acmp_calls_wf tvb ext .root _

theorem adp_truncation_cut (tvb ext : tvbuff_t) :
    (decode_adp tvb).state.nodes
      = ((decode_adp (tvb ++ ext)).state.nodes).takeWhile
          (fun n => n.finfo.within tvb.length) := by
  unfold decode_adp
  rw [adp_nodes, adp_nodes]
  simp only [empty_state, List.nil_append]
  exact calls_truncation_cut adp_calls adp_calls_wf tvb ext .root _

/-- C3. ACMP truncation threshold.  With a display tree supplied, the ACMP
dissector raises the out-of-bounds exception exactly when the buffer is shorter
than 56 octets and returns normally on every buffer of 56 octets or more; when
it raises, the tree keeps the fields decoded before the failing one: they are
the fields of the decode of any buffer extending this one to 56 octets or more,
up to the first field whose range exceeds the short buffer. -/
theorem acmp_truncation_threshold (tvb : tvbuff_t) (t : proto_node_ref) (s : dissect_state) :
    ((dissect_17221_acmp tvb (some t) s).fault = some .BoundsError ↔ tvb.length < 56)
      ∧ (56 ≤ tvb.length → (dissect_17221_acmp tvb (some t) s).fault = none
          ∧ ∃ s1, dissect_17221_acmp tvb (some t) s = .ok () s1)
      ∧ (∀ ext : tvbuff_t, tvb.length < 56 → 56 ≤ (tvb ++ ext).length →
          (decode_acmp tvb).state.nodes
            = ((decode_acmp (tvb ++ ext)).state.nodes).takeWhile
                (fun n => n.finfo.within tvb.length)) := by
  refine ⟨?_, fun h => ⟨?_, _, acmp_ok tvb h t s⟩, fun ext hlt hge => ?_⟩
  · rw [acmp_fault]
    by_cases h : 56 ≤ tvb.length
    · rw [if_pos h]
      exact ⟨fun hf => (by cases hf), fun hl => absurd h (by omega)⟩
    · rw [if_neg h]
      exact ⟨fun _ => (by omega), fun _ => rfl⟩
  · rw [acmp_fault, if_pos h]
  · exact acmp_truncation_cut tvb ext

/-- Witness for C3: a ten-octet buffer faults, and its tree is the cut of the
tree of its extension to 56 octets. -/
theorem acmp_truncation_threshold_witness :
    (dissect_17221_acmp (List.replicate 10 0) (some .root) empty_state).fault
        = some .BoundsError
      ∧ (decode_acmp (List.replicate 10 0)).state.nodes
        = ((decode_acmp (List.replicate 10 0 ++ List.replicate 46 0)).state.nodes).takeWhile
            (fun n => n.finfo.within (List.replicate 10 0 : tvbuff_t).length) :=
  ⟨(acmp_truncation_threshold (List.replicate 10 0) .root empty_state).1.2 (by decide),
    (acmp_truncation_threshold (List.replicate 10 0) .root empty_state).2.2
      (List.replicate 46 0) (by decide) (by decide)⟩

/-! ## C4: the full ADP tree -/

theorem decode_adp_nodes (tvb : tvbuff_t) (h : 68 ≤ tvb.length) :
    (decode_adp tvb).state.nodes = adp_calls.map (node_of tvb .root 0) := by
  unfold decode_adp
  rw [adp_ok tvb h]
  rfl

theorem decode_acmp_nodes (tvb : tvbuff_t) (h : 56 ≤ tvb.length) :
    (decode_acmp tvb).state.nodes = acmp_calls.map (node_of tvb .root 0) := by
  unfold decode_acmp
  rw [acmp_ok tvb h]
  rfl

theorem tree_shape_map_node_of (cs : List item_call) (tvb : tvbuff_t) (tree : proto_node_ref)
    (base : Nat) :
    tree_shape (cs.map (node_of tvb tree base)) = cs.map (call_shape tree base) := by
  unfold tree_shape
  rw [List.map_map]
  rfl

theorem decode_adp_shape (tvb : tvbuff_t) (h : 68 ≤ tvb.length) :
    tree_shape (decode_adp tvb).state.nodes = adp_calls.map (call_shape .root 0) := by
  rw [decode_adp_nodes tvb h, tree_shape_map_node_of]

theorem decode_acmp_shape (tvb : tvbuff_t) (h : 56 ≤ tvb.length) :
    tree_shape (decode_acmp tvb).state.nodes = acmp_calls.map (call_shape .root 0) := by
  rw [decode_acmp_nodes tvb h, tree_shape_map_node_of]

set_option maxRecDepth 100000 in
theorem adp_shape_facts :
    (adp_calls.map (call_shape .root 0)).length = 70
      ∧ ((adp_calls.map (call_shape .root 0)).map (fun p => p.2)).Nodup
      ∧ top_level (adp_calls.map (call_shape .root 0)) =
          [hf_adp_message_type, hf_adp_valid_time, hf_adp_cd_length, hf_adp_entity_guid,
           hf_adp_vendor_id, hf_adp_model_id, hf_adp_entity_cap, hf_adp_talker_stream_srcs,
           hf_adp_talker_cap, hf_adp_listener_stream_sinks, hf_adp_listener_cap,
           hf_adp_controller_cap, hf_adp_avail_index, hf_adp_as_gm_id, hf_adp_def_aud_format,
           hf_adp_def_vid_format, hf_adp_assoc_id, hf_adp_entity_type]
      ∧ children_of (adp_calls.map (call_shape .root 0)) hf_adp_entity_cap =
          [hf_adp_entity_cap_avdecc_ip, hf_adp_entity_cap_zero_conf,
           hf_adp_entity_cap_gateway_entity, hf_adp_entity_cap_avdecc_control,
           hf_adp_entity_cap_legacy_avc, hf_adp_entity_cap_assoc_id_support,
           hf_adp_entity_cap_assoc_id_valid]
      ∧ children_of (adp_calls.map (call_shape .root 0)) hf_adp_talker_cap =
          [hf_adp_talk_cap_implement, hf_adp_talk_cap_other_src, hf_adp_talk_cap_control_src,
           hf_adp_talk_cap_media_clk_src, hf_adp_talk_cap_smpte_src, hf_adp_talk_cap_midi_src,
           hf_adp_talk_cap_audio_src, hf_adp_talk_cap_video_src]
      ∧ children_of (adp_calls.map (call_shape .root 0)) hf_adp_listener_cap =
          [hf_adp_list_cap_implement, hf_adp_list_cap_other_sink, hf_adp_list_cap_control_sink,
           hf_adp_list_cap_media_clk_sink, hf_adp_list_cap_smpte_sink,
           hf_adp_list_cap_midi_sink, hf_adp_list_cap_audio_sink, hf_adp_list_cap_video_sink]
      ∧ children_of (adp_calls.map (call_shape .root 0)) hf_adp_controller_cap =
          [hf_adp_cont_cap_implement, hf_adp_cont_cap_layer3_proxy]
      ∧ children_of (adp_calls.map (call_shape .root 0)) hf_adp_def_aud_format =
          [hf_adp_def_aud_sample_rates, hf_adp_def_aud_max_chan, hf_adp_def_aud_saf_flag,
           hf_adp_def_aud_float_flag, hf_adp_def_aud_chan_formats]
      ∧ children_of (adp_calls.map (call_shape .root 0)) hf_adp_def_aud_sample_rates =
          [hf_adp_samp_rate_44k1, hf_adp_samp_rate_48k, hf_adp_samp_rate_88k2,
           hf_adp_samp_rate_96k, hf_adp_samp_rate_176k4, hf_adp_samp_rate_192k]
      ∧ children_of (adp_calls.map (call_shape .root 0)) hf_adp_def_aud_chan_formats =
          [hf_adp_chan_format_mono, hf_adp_chan_format_2ch, hf_adp_chan_format_3ch,
           hf_adp_chan_format_4ch, hf_adp_chan_format_5ch, hf_adp_chan_format_6ch,
           hf_adp_chan_format_7ch, hf_adp_chan_format_8ch, hf_adp_chan_format_10ch,
           hf_adp_chan_format_12ch, hf_adp_chan_format_14ch, hf_adp_chan_format_16ch,
           hf_adp_chan_format_18ch, hf_adp_chan_format_20ch, hf_adp_chan_format_22ch,
           hf_adp_chan_format_24ch]
      ∧ (∀ p ∈ adp_calls.map (call_shape .root 0), p.1 = .root ∨
          parent_field (adp_calls.map (call_shape .root 0)) p ∈
            [some hf_adp_entity_cap, some hf_adp_talker_cap, some hf_adp_listener_cap,
             some hf_adp_controller_cap, some hf_adp_def_aud_format,
             some hf_adp_def_aud_sample_rates, some hf_adp_def_aud_chan_formats])
      ∧ (∀ l ∈ nesting_levels (adp_calls.map (call_shape .root 0)), l = 1 ∨ l = 2 ∨ l = 3)
      ∧ 1 ∈ nesting_levels (adp_calls.map (call_shape .root 0))
      ∧ 2 ∈ nesting_levels (adp_calls.map (call_shape .root 0))
      ∧ 3 ∈ nesting_levels (adp_calls.map (call_shape .root 0)) := by
  decide


/-- C4. ADP field set and nesting.  On every buffer of at least 68 octets the
ADP decoder returns normally with a tree of 70 nodes, each showing a different
registered field: 18 fields under the root in the order listed; the seven
entity-capability flags under Entity Capabilities, the eight talker flags under
Talker Capabilities, the eight listener flags under Listener Capabilities and
the two controller flags under Controller Capabilities; under Default Audio
Format exactly Sample Rates, Max Channels, saf, float and Channel Formats; the
six rate flags under Sample Rates and the channel-count flags under Channel
Formats.  Every node is under the root or under one of these seven groups, and
the nesting levels that occur are exactly 1, 2 and 3. -/
theorem adp_field_set_and_nesting (tvb : tvbuff_t) (h : 68 ≤ tvb.length) :
    (decode_adp tvb).fault = none
      ∧ (tree_shape (decode_adp tvb).state.nodes).length = 70
      ∧ ((tree_shape (decode_adp tvb).state.nodes).map (fun p => p.2)).Nodup
      ∧ top_level (tree_shape (decode_adp tvb).state.nodes) =
          [hf_adp_message_type, hf_adp_valid_time, hf_adp_cd_length, hf_adp_entity_guid,
           hf_adp_vendor_id, hf_adp_model_id, hf_adp_entity_cap, hf_adp_talker_stream_srcs,
           hf_adp_talker_cap, hf_adp_listener_stream_sinks, hf_adp_listener_cap,
           hf_adp_controller_cap, hf_adp_avail_index, hf_adp_as_gm_id, hf_adp_def_aud_format,
           hf_adp_def_vid_format, hf_adp_assoc_id, hf_adp_entity_type]
      ∧ children_of (tree_shape (decode_adp tvb).state.nodes) hf_adp_entity_cap =
          [hf_adp_entity_cap_avdecc_ip, hf_adp_entity_cap_zero_conf,
           hf_adp_entity_cap_gateway_entity, hf_adp_entity_cap_avdecc_control,
           hf_adp_entity_cap_legacy_avc, hf_adp_entity_cap_assoc_id_support,
           hf_adp_entity_cap_assoc_id_valid]
      ∧ children_of (tree_shape (decode_adp tvb).state.nodes) hf_adp_talker_cap =
          [hf_adp_talk_cap_implement, hf_adp_talk_cap_other_src, hf_adp_talk_cap_control_src,
           hf_adp_talk_cap_media_clk_src, hf_adp_talk_cap_smpte_src, hf_adp_talk_cap_midi_src,
           hf_adp_talk_cap_audio_src, hf_adp_talk_cap_video_src]
      ∧ children_of (tree_shape (decode_adp tvb).state.nodes) hf_adp_listener_cap =
          [hf_adp_list_cap_implement, hf_adp_list_cap_other_sink, hf_adp_list_cap_control_sink,
           hf_adp_list_cap_media_clk_sink, hf_adp_list_cap_smpte_sink,
           hf_adp_list_cap_midi_sink, hf_adp_list_cap_audio_sink, hf_adp_list_cap_video_sink]
      ∧ children_of (tree_shape (decode_adp tvb).state.nodes) hf_adp_controller_cap =
          [hf_adp_cont_cap_implement, hf_adp_cont_cap_layer3_proxy]
      ∧ children_of (tree_shape (decode_adp tvb).state.nodes) hf_adp_def_aud_format =
          [hf_adp_def_aud_sample_rates, hf_adp_def_aud_max_chan, hf_adp_def_aud_saf_flag,
           hf_adp_def_aud_float_flag, hf_adp_def_aud_chan_formats]
      ∧ children_of (tree_shape (decode_adp tvb).state.nodes) hf_adp_def_aud_sample_rates =
          [hf_adp_samp_rate_44k1, hf_adp_samp_rate_48k, hf_adp_samp_rate_88k2,
           hf_adp_samp_rate_96k, hf_adp_samp_rate_176k4, hf_adp_samp_rate_192k]
      ∧ children_of (tree_shape (decode_adp tvb).state.nodes) hf_adp_def_aud_chan_formats =
          [hf_adp_chan_format_mono, hf_adp_chan_format_2ch, hf_adp_chan_format_3ch,
           hf_adp_chan_format_4ch, hf_adp_chan_format_5ch, hf_adp_chan_format_6ch,
           hf_adp_chan_format_7ch, hf_adp_chan_format_8ch, hf_adp_chan_format_10ch,
           hf_adp_chan_format_12ch, hf_adp_chan_format_14ch, hf_adp_chan_format_16ch,
           hf_adp_chan_format_18ch, hf_adp_chan_format_20ch, hf_adp_chan_format_22ch,
           hf_adp_chan_format_24ch]
      ∧ (∀ p ∈ tree_shape (decode_adp tvb).state.nodes, p.1 = .root ∨
          parent_field (tree_shape (decode_adp tvb).state.nodes) p ∈
            [some hf_adp_entity_cap, some hf_adp_talker_cap, some hf_adp_listener_cap,
             some hf_adp_controller_cap, some hf_adp_def_aud_format,
             some hf_adp_def_aud_sample_rates, some hf_adp_def_aud_chan_formats])
      ∧ (∀ l : Nat, l ∈ nesting_levels (tree_shape (decode_adp tvb).state.nodes)
          ↔ l = 1 ∨ l = 2 ∨ l = 3) := by
  have hf : (decode_adp tvb).fault = none := by
    unfold decode_adp
    rw [adp_fault, if_pos h]
  rw [decode_adp_shape tvb h]
  obtain ⟨h1, h2, h3, h4, h5, h6, h7, h8, h9, h10, hp, h11, h12, h13, h14⟩ := adp_shape_facts
  refine ⟨hf, h1, h2, h3, h4, h5, h6, h7, h8, h9, h10, hp, fun l => ⟨h11 l, fun hl => ?_⟩⟩
  rcases hl with hl | hl | hl <;> subst hl
  · exact h12
  · exact h13
  · exact h14

/-- Witness for C4: the example advertisement decodes to 70 nodes, 18 of them
under the root. -/
theorem adp_field_set_and_nesting_witness :
    (tree_shape (decode_adp adp_example).state.nodes).length = 70
      ∧ (top_level (tree_shape (decode_adp adp_example).state.nodes)).length = 18 :=
  ⟨(adp_field_set_and_nesting adp_example (by decide)).2.1,
    by rw [(adp_field_set_and_nesting adp_example (by decide)).2.2.2.1]; rfl⟩


/-! ## C5, C6: values of the unmasked fields -/

theorem octet_eq_getElem (tvb : tvbuff_t) (i : Nat) (h : i < tvb.length) :
    octet tvb i = (tvb[i]).val := by
  unfold octet
  rw [List.getElem?_eq_getElem h]

theorem slice_succ (tvb : tvbuff_t) (st n : Nat) (h : st < tvb.length) :
    slice tvb st (n + 1) = tvb[st] :: slice tvb (st + 1) n := by
  unfold slice
  rw [List.drop_eq_getElem_cons h, List.take_succ_cons]

theorem uint64_accumulate_eq_foldl (tvb : tvbuff_t) (n st acc : Nat) (h : st + n ≤ tvb.length) :
    uint64_accumulate tvb st n acc
      = (slice tvb st n).foldl (fun a b => a * 256 + b.val) acc := by
  induction n generalizing st acc with
  | zero => simp [uint64_accumulate, slice]
  | succ n ih =>
    have hst : st < tvb.length := by omega
    rw [slice_succ tvb st n hst, List.foldl_cons, uint64_accumulate, ih (st + 1) _ (by omega),
      octet_eq_getElem tvb st hst]
    rfl

theorem uint64_accumulate_eq_be (tvb : tvbuff_t) (n st : Nat) (h : st + n ≤ tvb.length) :
    uint64_accumulate tvb st n 0 = be_uint (slice tvb st n) :=
  uint64_accumulate_eq_foldl tvb n st 0 h

theorem uint_raw_eq_accumulate (tvb : tvbuff_t) (st len : Nat)
    (hlen : len = 1 ∨ len = 2 ∨ len = 3 ∨ len = 4) :
    uint_raw tvb st len = uint64_accumulate tvb st len 0 := by
  rcases hlen with h | h | h | h <;> subst h <;>
    simp only [uint_raw, uint64_accumulate] <;> ring

theorem uint_raw_eq_be (tvb : tvbuff_t) (st len : Nat)
    (hlen : len = 1 ∨ len = 2 ∨ len = 3 ∨ len = 4) (h : st + len ≤ tvb.length) :
    uint_raw tvb st len = be_uint (slice tvb st len) := by
  rw [uint_raw_eq_accumulate tvb st len hlen, uint64_accumulate_eq_be tvb len st h]

theorem field_of_map_node_of (cs : List item_call) (tvb : tvbuff_t) (tree : proto_node_ref)
    (base : Nat) (h : header_field_info) :
    field_of (cs.map (node_of tvb tree base)) h
      = (cs.find? (fun c => decide (c.hf = h))).map
          (fun c => (⟨c.hf, c.start, c.length, call_value tvb c⟩ : field_info)) := by
  unfold field_of
  rw [List.find?_map, Option.map_map]
  rfl

/-- The node of a 64-bit field holds the big-endian value of its octets. -/
theorem field_of_uint64 (cs : List item_call) (tvb : tvbuff_t) (tree : proto_node_ref)
    (base : Nat) (c : item_call) (hfind : cs.find? (fun d => decide (d.hf = c.hf)) = some c)
    (hty : c.hf.type = .FT_UINT64) (hb : c.start + c.length ≤ tvb.length) :
    field_of (cs.map (node_of tvb tree base)) c.hf
      = some ⟨c.hf, c.start, c.length, .integer64 (be_uint (slice tvb c.start c.length))⟩ := by
  rw [field_of_map_node_of, hfind, Option.map_some']
  simp only [call_value, hty, uint64_accumulate_eq_be tvb _ _ hb]

/-- The node of an unmasked field of at most 32 bits holds the big-endian value
of its octets. -/
theorem field_of_uint (cs : List item_call) (tvb : tvbuff_t) (tree : proto_node_ref)
    (base : Nat) (c : item_call) (hfind : cs.find? (fun d => decide (d.hf = c.hf)) = some c)
    (hty : c.hf.type = .FT_UINT8 ∨ c.hf.type = .FT_UINT16 ∨ c.hf.type = .FT_UINT32)
    (hmask : c.hf.bitmask = 0)
    (hlen : c.length = 1 ∨ c.length = 2 ∨ c.length = 3 ∨ c.length = 4)
    (hb : c.start + c.length ≤ tvb.length) :
    field_of (cs.map (node_of tvb tree base)) c.hf
      = some ⟨c.hf, c.start, c.length, .uinteger (be_uint (slice tvb c.start c.length))⟩ := by
  rw [field_of_map_node_of, hfind, Option.map_some']
  have hv : proto_tree_set_uint c.hf (uint_raw tvb c.start c.length)
      = be_uint (slice tvb c.start c.length) := by
    unfold proto_tree_set_uint
    rw [if_neg (by simp [hmask]), uint_raw_eq_be tvb _ _ hlen hb]
  rcases hty with hty | hty | hty <;> simp only [call_value, hty, hv]

/-- The node of a hardware-address field holds its six octets. -/
theorem field_of_ether (cs : List item_call) (tvb : tvbuff_t) (tree : proto_node_ref)
    (base : Nat) (c : item_call) (hfind : cs.find? (fun d => decide (d.hf = c.hf)) = some c)
    (hty : c.hf.type = .FT_ETHER) :
    field_of (cs.map (node_of tvb tree base)) c.hf
      = some ⟨c.hf, c.start, c.length, .ether (slice tvb c.start 6)⟩ := by
  rw [field_of_map_node_of, hfind, Option.map_some']
  simp only [call_value, hty, slice]


/-- C5. ADP unmasked values are big-endian.  On every buffer `b` of at least 68
octets, the node of each unmasked ADP field covers the stated octets and holds
the unsigned integer they write, most significant octet first: Entity GUID
`b[4..11]`, Vendor ID `b[12..15]`, Model ID `b[16..19]`, Entity Capabilities
`b[20..23]`, Talker Stream Sources `b[24..25]`, Talker Capabilities `b[26..27]`,
Listener Stream Sinks `b[28..29]`, Listener Capabilities `b[30..31]`, Controller
Capabilities `b[32..35]`, Available Index `b[36..39]`, AS Grandmaster ID
`b[40..47]`, Default Audio Format `b[48..51]`, Channel Formats `b[50..51]`,
Default Video Format `b[52..55]`, Association ID `b[56..63]`, Entity Type
`b[64..67]`. -/
theorem adp_unmasked_values_big_endian (tvb : tvbuff_t) (h : 68 ≤ tvb.length) :
    field_of (decode_adp tvb).state.nodes hf_adp_entity_guid
          = some ⟨hf_adp_entity_guid, 4, 8, .integer64 (be_uint (slice tvb 4 8))⟩
      ∧ field_of (decode_adp tvb).state.nodes hf_adp_vendor_id
          = some ⟨hf_adp_vendor_id, 12, 4, .uinteger (be_uint (slice tvb 12 4))⟩
      ∧ field_of (decode_adp tvb).state.nodes hf_adp_model_id
          = some ⟨hf_adp_model_id, 16, 4, .uinteger (be_uint (slice tvb 16 4))⟩
      ∧ field_of (decode_adp tvb).state.nodes hf_adp_entity_cap
          = some ⟨hf_adp_entity_cap, 20, 4, .uinteger (be_uint (slice tvb 20 4))⟩
      ∧ field_of (decode_adp tvb).state.nodes hf_adp_talker_stream_srcs
          = some ⟨hf_adp_talker_stream_srcs, 24, 2, .uinteger (be_uint (slice tvb 24 2))⟩
      ∧ field_of (decode_adp tvb).state.nodes hf_adp_talker_cap
          = some ⟨hf_adp_talker_cap, 26, 2, .uinteger (be_uint (slice tvb 26 2))⟩
      ∧ field_of (decode_adp tvb).state.nodes hf_adp_listener_stream_sinks
          = some ⟨hf_adp_listener_stream_sinks, 28, 2, .uinteger (be_uint (slice tvb 28 2))⟩
      ∧ field_of (decode_adp tvb).state.nodes hf_adp_listener_cap
          = some ⟨hf_adp_listener_cap, 30, 2, .uinteger (be_uint (slice tvb 30 2))⟩
      ∧ field_of (decode_adp tvb).state.nodes hf_adp_controller_cap
          = some ⟨hf_adp_controller_cap, 32, 4, .uinteger (be_uint (slice tvb 32 4))⟩
      ∧ field_of (decode_adp tvb).state.nodes hf_adp_avail_index
          = some ⟨hf_adp_avail_index, 36, 4, .uinteger (be_uint (slice tvb 36 4))⟩
      ∧ field_of (decode_adp tvb).state.nodes hf_adp_as_gm_id
          = some ⟨hf_adp_as_gm_id, 40, 8, .integer64 (be_uint (slice tvb 40 8))⟩
      ∧ field_of (decode_adp tvb).state.nodes hf_adp_def_aud_format
          = some ⟨hf_adp_def_aud_format, 48, 4, .uinteger (be_uint (slice tvb 48 4))⟩
      ∧ field_of (decode_adp tvb).state.nodes hf_adp_def_aud_chan_formats
          = some ⟨hf_adp_def_aud_chan_formats, 50, 2, .uinteger (be_uint (slice tvb 50 2))⟩
      ∧ field_of (decode_adp tvb).state.nodes hf_adp_def_vid_format
          = some ⟨hf_adp_def_vid_format, 52, 4, .uinteger (be_uint (slice tvb 52 4))⟩
      ∧ field_of (decode_adp tvb).state.nodes hf_adp_assoc_id
          = some ⟨hf_adp_assoc_id, 56, 8, .integer64 (be_uint (slice tvb 56 8))⟩
      ∧ field_of (decode_adp tvb).state.nodes hf_adp_entity_type
          = some ⟨hf_adp_entity_type, 64, 4, .uinteger (be_uint (slice tvb 64 4))⟩ := by
  rw [decode_adp_nodes tvb h]
  refine ⟨?_, ?_, ?_, ?_, ?_, ?_, ?_, ?_, ?_, ?_, ?_, ?_, ?_, ?_, ?_, ?_⟩
  · exact field_of_uint64 adp_calls tvb .root 0 ⟨none, hf_adp_entity_guid, ADP_ENTITY_GUID_OFFSET, 8⟩ (by decide) rfl
      (by show 4 + 8 ≤ _; omega)
  · exact field_of_uint adp_calls tvb .root 0 ⟨none, hf_adp_vendor_id, ADP_VENDOR_ID_OFFSET, 4⟩ (by decide) (by decide) rfl
      (by decide) (by show 12 + 4 ≤ _; omega)
  · exact field_of_uint adp_calls tvb .root 0 ⟨none, hf_adp_model_id, ADP_MODEL_ID_OFFSET, 4⟩ (by decide) (by decide) rfl
      (by decide) (by show 16 + 4 ≤ _; omega)
  · exact field_of_uint adp_calls tvb .root 0 ⟨none, hf_adp_entity_cap, ADP_ENTITY_CAP_OFFSET, 4⟩ (by decide) (by decide) rfl
      (by decide) (by show 20 + 4 ≤ _; omega)
  · exact field_of_uint adp_calls tvb .root 0 ⟨none, hf_adp_talker_stream_srcs, ADP_TALKER_STREAM_SRCS_OFFSET, 2⟩ (by decide) (by decide) rfl
      (by decide) (by show 24 + 2 ≤ _; omega)
  · exact field_of_uint adp_calls tvb .root 0 ⟨none, hf_adp_talker_cap, ADP_TALKER_CAP_OFFSET, 2⟩ (by decide) (by decide) rfl
      (by decide) (by show 26 + 2 ≤ _; omega)
  · exact field_of_uint adp_calls tvb .root 0 ⟨none, hf_adp_listener_stream_sinks, ADP_LISTENER_STREAM_SINKS_OFFSET, 2⟩ (by decide) (by decide) rfl
      (by decide) (by show 28 + 2 ≤ _; omega)
  · exact field_of_uint adp_calls tvb .root 0 ⟨none, hf_adp_listener_cap, ADP_LISTENER_CAP_OFFSET, 2⟩ (by decide) (by decide) rfl
      (by decide) (by show 30 + 2 ≤ _; omega)
  · exact field_of_uint adp_calls tvb .root 0 ⟨none, hf_adp_controller_cap, ADP_CONTROLLER_CAP_OFFSET, 4⟩ (by decide) (by decide) rfl
      (by decide) (by show 32 + 4 ≤ _; omega)
  · exact field_of_uint adp_calls tvb .root 0 ⟨none, hf_adp_avail_index, ADP_AVAIL_INDEX_OFFSET, 4⟩ (by decide) (by decide) rfl
      (by decide) (by show 36 + 4 ≤ _; omega)
  · exact field_of_uint64 adp_calls tvb .root 0 ⟨none, hf_adp_as_gm_id, ADP_AS_GM_ID_OFFSET, 8⟩ (by decide) rfl
      (by show 40 + 8 ≤ _; omega)
  · exact field_of_uint adp_calls tvb .root 0 ⟨none, hf_adp_def_aud_format, ADP_DEF_AUDIO_FORMAT_OFFSET, 4⟩ (by decide) (by decide) rfl
      (by decide) (by show 48 + 4 ≤ _; omega)
  · exact field_of_uint adp_calls tvb .root 0 ⟨some 39, hf_adp_def_aud_chan_formats, ADP_CHAN_FORMAT_OFFSET, 2⟩ (by decide) (by decide) rfl
      (by decide) (by show 50 + 2 ≤ _; omega)
  · exact field_of_uint adp_calls tvb .root 0 ⟨none, hf_adp_def_vid_format, ADP_DEF_VIDEO_FORMAT_OFFSET, 4⟩ (by decide) (by decide) rfl
      (by decide) (by show 52 + 4 ≤ _; omega)
  · exact field_of_uint64 adp_calls tvb .root 0 ⟨none, hf_adp_assoc_id, ADP_ASSOC_ID_OFFSET, 8⟩ (by decide) rfl
      (by show 56 + 8 ≤ _; omega)
  · exact field_of_uint adp_calls tvb .root 0 ⟨none, hf_adp_entity_type, ADP_ENTITY_TYPE_OFFSET, 4⟩ (by decide) (by decide) rfl
      (by decide) (by show 64 + 4 ≤ _; omega)

/-- Witness for C5: octets 4 to 11 equal to `11 22 33 44 55 66 77 88` give the
entity GUID `0x1122334455667788`. -/
theorem adp_unmasked_values_big_endian_witness :
    field_of (decode_adp adp_example).state.nodes hf_adp_entity_guid
      = some ⟨hf_adp_entity_guid, 4, 8, .integer64 0x1122334455667788⟩ :=
  (adp_unmasked_values_big_endian adp_example (by decide)).1

set_option maxRecDepth 100000 in
theorem acmp_shape_facts :
    (acmp_calls.map (call_shape .root 0)).length = 18
      ∧ ((acmp_calls.map (call_shape .root 0)).map (fun p => p.2)).Nodup
      ∧ top_level (acmp_calls.map (call_shape .root 0)) =
          [hf_acmp_message_type, hf_acmp_status_field, hf_acmp_cd_length, hf_acmp_stream_id,
           hf_acmp_controller_guid, hf_acmp_talker_guid, hf_acmp_listener_guid,
           hf_acmp_talker_unique_id, hf_acmp_listener_unique_id, hf_acmp_stream_dest_mac,
           hf_acmp_connection_count, hf_acmp_sequence_id, hf_acmp_flags,
           hf_acmp_default_format]
      ∧ children_of (acmp_calls.map (call_shape .root 0)) hf_acmp_flags =
          [hf_acmp_flags_class_b, hf_acmp_flags_fast_connect, hf_acmp_flags_saved_state,
           hf_acmp_flags_streaming_wait]
      ∧ (∀ p ∈ acmp_calls.map (call_shape .root 0), p.1 = .root ∨
          parent_field (acmp_calls.map (call_shape .root 0)) p = some hf_acmp_flags) := by
  decide

/-- C6. ACMP field set and values.  On every buffer `b` of at least 56 octets
the ACMP decoder returns normally with a tree of 18 nodes, each showing a
different registered field: 14 fields under the root in the order listed and the
four flags CLASS_B, FAST_CONNECT, SAVED_STATE, STREAMING_WAIT under Flags, and
every node is under the root or under Flags.  Stream ID, the three GUIDs, the
two unique IDs, Connection Count, Sequence ID, Flags and Default Format hold the
big-endian value of their octets, and the destination address holds the six
octets `b[40..45]`. -/
theorem acmp_field_set_and_values (tvb : tvbuff_t) (h : 56 ≤ tvb.length) :
    (decode_acmp tvb).fault = none
      ∧ (tree_shape (decode_acmp tvb).state.nodes).length = 18
      ∧ ((tree_shape (decode_acmp tvb).state.nodes).map (fun p => p.2)).Nodup
      ∧ top_level (tree_shape (decode_acmp tvb).state.nodes) =
          [hf_acmp_message_type, hf_acmp_status_field, hf_acmp_cd_length, hf_acmp_stream_id,
           hf_acmp_controller_guid, hf_acmp_talker_guid, hf_acmp_listener_guid,
           hf_acmp_talker_unique_id, hf_acmp_listener_unique_id, hf_acmp_stream_dest_mac,
           hf_acmp_connection_count, hf_acmp_sequence_id, hf_acmp_flags,
           hf_acmp_default_format]
      ∧ children_of (tree_shape (decode_acmp tvb).state.nodes) hf_acmp_flags =
          [hf_acmp_flags_class_b, hf_acmp_flags_fast_connect, hf_acmp_flags_saved_state,
           hf_acmp_flags_streaming_wait]
      ∧ (∀ p ∈ tree_shape (decode_acmp tvb).state.nodes, p.1 = .root ∨
          parent_field (tree_shape (decode_acmp tvb).state.nodes) p = some hf_acmp_flags)
      ∧ field_of (decode_acmp tvb).state.nodes hf_acmp_stream_id
          = some ⟨hf_acmp_stream_id, 4, 8, .integer64 (be_uint (slice tvb 4 8))⟩
      ∧ field_of (decode_acmp tvb).state.nodes hf_acmp_controller_guid
          = some ⟨hf_acmp_controller_guid, 12, 8, .integer64 (be_uint (slice tvb 12 8))⟩
      ∧ field_of (decode_acmp tvb).state.nodes hf_acmp_talker_guid
          = some ⟨hf_acmp_talker_guid, 20, 8, .integer64 (be_uint (slice tvb 20 8))⟩
      ∧ field_of (decode_acmp tvb).state.nodes hf_acmp_listener_guid
          = some ⟨hf_acmp_listener_guid, 28, 8, .integer64 (be_uint (slice tvb 28 8))⟩
      ∧ field_of (decode_acmp tvb).state.nodes hf_acmp_talker_unique_id
          = some ⟨hf_acmp_talker_unique_id, 36, 2, .uinteger (be_uint (slice tvb 36 2))⟩
      ∧ field_of (decode_acmp tvb).state.nodes hf_acmp_listener_unique_id
          = some ⟨hf_acmp_listener_unique_id, 38, 2, .uinteger (be_uint (slice tvb 38 2))⟩
      ∧ field_of (decode_acmp tvb).state.nodes hf_acmp_stream_dest_mac
          = some ⟨hf_acmp_stream_dest_mac, 40, 6, .ether (slice tvb 40 6)⟩
      ∧ field_of (decode_acmp tvb).state.nodes hf_acmp_connection_count
          = some ⟨hf_acmp_connection_count, 46, 2, .uinteger (be_uint (slice tvb 46 2))⟩
      ∧ field_of (decode_acmp tvb).state.nodes hf_acmp_sequence_id
          = some ⟨hf_acmp_sequence_id, 48, 2, .uinteger (be_uint (slice tvb 48 2))⟩
      ∧ field_of (decode_acmp tvb).state.nodes hf_acmp_flags
          = some ⟨hf_acmp_flags, 50, 2, .uinteger (be_uint (slice tvb 50 2))⟩
      ∧ field_of (decode_acmp tvb).state.nodes hf_acmp_default_format
          = some ⟨hf_acmp_default_format, 52, 4, .uinteger (be_uint (slice tvb 52 4))⟩ := by
  have hf : (decode_acmp tvb).fault = none := by
    unfold decode_acmp
    rw [acmp_fault, if_pos h]
  rw [decode_acmp_shape tvb h, decode_acmp_nodes tvb h]
  obtain ⟨h1, h2, h3, h4, h5⟩ := acmp_shape_facts
  refine ⟨hf, h1, h2, h3, h4, h5, ?_, ?_, ?_, ?_, ?_, ?_, ?_, ?_, ?_, ?_, ?_⟩
  · exact field_of_uint64 acmp_calls tvb .root 0 ⟨none, hf_acmp_stream_id, ACMP_STREAM_ID_OFFSET, 8⟩ (by decide) rfl
      (by show 4 + 8 ≤ _; omega)
  · exact field_of_uint64 acmp_calls tvb .root 0 ⟨none, hf_acmp_controller_guid, ACMP_CONTROLLER_GUID_OFFSET, 8⟩ (by decide) rfl
      (by show 12 + 8 ≤ _; omega)
  · exact field_of_uint64 acmp_calls tvb .root 0 ⟨none, hf_acmp_talker_guid, ACMP_TALKER_GUID_OFFSET, 8⟩ (by decide) rfl
      (by show 20 + 8 ≤ _; omega)
  · exact field_of_uint64 acmp_calls tvb .root 0 ⟨none, hf_acmp_listener_guid, ACMP_LISTENER_GUID_OFFSET, 8⟩ (by decide) rfl
      (by show 28 + 8 ≤ _; omega)
  · exact field_of_uint acmp_calls tvb .root 0 ⟨none, hf_acmp_talker_unique_id, ACMP_TALKER_UNIQUE_ID_OFFSET, 2⟩ (by decide) (by decide) rfl
      (by decide) (by show 36 + 2 ≤ _; omega)
  · exact field_of_uint acmp_calls tvb .root 0 ⟨none, hf_acmp_listener_unique_id, ACMP_LISTENER_UNIQUE_ID_OFFSET, 2⟩ (by decide) (by decide) rfl
      (by decide) (by show 38 + 2 ≤ _; omega)
  · exact field_of_ether acmp_calls tvb .root 0 ⟨none, hf_acmp_stream_dest_mac, ACMP_DEST_MAC_OFFSET, 6⟩ (by decide) rfl
  · exact field_of_uint acmp_calls tvb .root 0 ⟨none, hf_acmp_connection_count, ACMP_CONNECTION_COUNT_OFFSET, 2⟩ (by decide) (by decide) rfl
      (by decide) (by show 46 + 2 ≤ _; omega)
  · exact field_of_uint acmp_calls tvb .root 0 ⟨none, hf_acmp_sequence_id, ACMP_SEQUENCE_ID_OFFSET, 2⟩ (by decide) (by decide) rfl
      (by decide) (by show 48 + 2 ≤ _; omega)
  · exact field_of_uint acmp_calls tvb .root 0 ⟨none, hf_acmp_flags, ACMP_FLAGS_OFFSET, 2⟩ (by decide) (by decide) rfl
      (by decide) (by show 50 + 2 ≤ _; omega)
  · exact field_of_uint acmp_calls tvb .root 0 ⟨none, hf_acmp_default_format, ACMP_DEFAULT_FORMAT_OFFSET, 4⟩ (by decide) (by decide) rfl
      (by decide) (by show 52 + 4 ≤ _; omega)

/-- Witness for C6: the example message has the talker unique ID `0x2425` and the
destination address `28:29:2a:2b:2c:2d`. -/
theorem acmp_field_set_and_values_witness :
    field_of (decode_acmp acmp_example).state.nodes hf_acmp_talker_unique_id
        = some ⟨hf_acmp_talker_unique_id, 36, 2, .uinteger 0x2425⟩
      ∧ field_of (decode_acmp acmp_example).state.nodes hf_acmp_stream_dest_mac
        = some ⟨hf_acmp_stream_dest_mac, 40, 6, .ether [0x28, 0x29, 0x2a, 0x2b, 0x2c, 0x2d]⟩ :=
  ⟨(acmp_field_set_and_values acmp_example (by decide)).2.2.2.2.2.2.2.2.2.2.1,
    (acmp_field_set_and_values acmp_example (by decide)).2.2.2.2.2.2.2.2.2.2.2.2.1⟩

/-! ## C7: truncation monotonicity -/

/-- C7. Truncation monotonicity.  For each decoder and every buffer `b1` that is
an initial segment of a buffer `b2`, the sequence of nodes (field, byte range
and value) returned for `b1` is an initial segment of the sequence returned
for `b2`: it is that sequence cut at the first node whose byte range exceeds the
length of `b1`. -/
theorem truncation_monotonicity (b1 b2 : tvbuff_t) (hpre : b1 <+: b2) :
    ((decode_adp b1).state.nodes
        = ((decode_adp b2).state.nodes).takeWhile (fun n => n.finfo.within b1.length)
      ∧ (decode_adp b1).state.nodes <+: (decode_adp b2).state.nodes)
    ∧ ((decode_acmp b1).state.nodes
        = ((decode_acmp b2).state.nodes).takeWhile (fun n => n.finfo.within b1.length)
      ∧ (decode_acmp b1).state.nodes <+: (decode_acmp b2).state.nodes) := by
  obtain ⟨ext, rfl⟩ := hpre
  refine ⟨⟨adp_truncation_cut b1 ext, ?_⟩, ⟨acmp_truncation_cut b1 ext, ?_⟩⟩
  · rw [adp_truncation_cut b1 ext]
    exact ⟨_, List.takeWhile_append_dropWhile _ _⟩
  · rw [acmp_truncation_cut b1 ext]
    exact ⟨_, List.takeWhile_append_dropWhile _ _⟩

/-- Witness for C7: the first ten octets of the example advertisement. -/
theorem truncation_monotonicity_witness :
    (decode_adp (adp_example.take 10)).state.nodes
      = ((decode_adp adp_example).state.nodes).takeWhile
          (fun n => n.finfo.within (adp_example.take 10).length) :=
  (truncation_monotonicity (adp_example.take 10) adp_example ⟨adp_example.drop 10, by decide⟩).1.1

/-! ## C8: boolean flags -/

theorem and_two_pow_shiftRight (w k : Nat) :
    (w &&& 2 ^ k) >>> k = (w.testBit k).toNat := by
  rw [Nat.and_two_pow, Nat.shiftRight_eq_div_pow, Nat.mul_div_cancel _ (Nat.two_pow_pos k)]

theorem and_two_pow_eq_zero_iff (w k : Nat) : w &&& 2 ^ k = 0 ↔ w.testBit k = false := by
  rw [Nat.and_two_pow]
  have hp : 0 < 2 ^ k := Nat.two_pow_pos k
  cases w.testBit k <;> simp [hp.ne']

theorem wrs_count_bitshift_two_pow : ∀ k, k < 16 → wrs_count_bitshift (2 ^ k) = k := by decide

theorem match_strval_bool (b : Bool) :
    match_strval b.toNat avb_bool_vals = some (if b then "True" else "False") := by
  cases b <;> rfl

set_option maxRecDepth 100000 in
theorem flag_call_facts :
    ∀ c ∈ adp_calls ++ acmp_calls, c.hf.strings = some avb_bool_vals →
      (c.hf.type ≠ .FT_UINT64 ∧ c.hf.type ≠ .FT_ETHER)
        ∧ (c.length = 1 ∨ c.length = 2 ∨ c.length = 3 ∨ c.length = 4)
        ∧ ∃ k, k < 16 ∧ c.hf.bitmask = 2 ^ k := by
  decide

/-- The label of the node a flag call appends. -/
theorem flag_call_label (tvb : tvbuff_t) (c : item_call) (hc : c ∈ adp_calls ++ acmp_calls)
    (hb : c.hf.strings = some avb_bool_vals) (hfit : c.start + c.length ≤ tvb.length) :
    resolved_label ⟨c.hf, c.start, c.length, call_value tvb c⟩
      = some (if be_uint (slice tvb c.start c.length) &&& c.hf.bitmask = 0 then "False"
          else "True") := by
  obtain ⟨⟨ht1, ht2⟩, hlen, k, hk, hmask⟩ := flag_call_facts c hc hb
  have hv : call_value tvb c
      = .uinteger ((be_uint (slice tvb c.start c.length)).testBit k).toNat := by
    have hset : proto_tree_set_uint c.hf (uint_raw tvb c.start c.length)
        = ((be_uint (slice tvb c.start c.length)).testBit k).toNat := by
      unfold proto_tree_set_uint
      rw [if_pos (by rw [hmask]; exact (Nat.two_pow_pos k).ne'), hmask,
        wrs_count_bitshift_two_pow k hk, and_two_pow_shiftRight,
        uint_raw_eq_be tvb _ _ hlen hfit]
    unfold call_value
    cases ht : c.hf.type <;> simp_all
  rw [hv, hmask]
  simp only [resolved_label, hb, match_strval_bool]
  by_cases h0 : be_uint (slice tvb c.start c.length) &&& 2 ^ k = 0
  · rw [if_pos h0, (and_two_pow_eq_zero_iff _ _).1 h0]
    rfl
  · have hbit : (be_uint (slice tvb c.start c.length)).testBit k = true := by
      cases hb1 : (be_uint (slice tvb c.start c.length)).testBit k with
      | false => exact absurd ((and_two_pow_eq_zero_iff _ _).2 hb1) h0
      | true => rfl
    rw [if_neg h0, hbit]
    rfl

theorem mem_decode_adp (tvb : tvbuff_t) (n : proto_node)
    (hn : n ∈ (decode_adp tvb).state.nodes) :
    ∃ c ∈ adp_calls, c.start + c.length ≤ tvb.length ∧ n = node_of tvb .root 0 c := by
  unfold decode_adp at hn
  rw [adp_nodes] at hn
  simp only [empty_state, List.nil_append, List.mem_map] at hn
  obtain ⟨c, hc, rfl⟩ := hn
  refine ⟨c, (List.takeWhile_sublist _).subset hc, ?_, rfl⟩
  simpa [item_call.fits] using List.mem_takeWhile_imp hc

theorem mem_decode_acmp (tvb : tvbuff_t) (n : proto_node)
    (hn : n ∈ (decode_acmp tvb).state.nodes) :
    ∃ c ∈ acmp_calls, c.start + c.length ≤ tvb.length ∧ n = node_of tvb .root 0 c := by
  unfold decode_acmp at hn
  rw [acmp_nodes] at hn
  simp only [empty_state, List.nil_append, List.mem_map] at hn
  obtain ⟨c, hc, rfl⟩ := hn
  refine ⟨c, (List.takeWhile_sublist _).subset hc, ?_, rfl⟩
  simpa [item_call.fits] using List.mem_takeWhile_imp hc

set_option maxRecDepth 100000 in
theorem flag_coverage :
    ((adp_calls.map (call_shape .root 0)).map (fun p => p.2)).filter
          (fun h => decide (h.strings = some avb_bool_vals))
        ++ ((acmp_calls.map (call_shape .root 0)).map (fun p => p.2)).filter
          (fun h => decide (h.strings = some avb_bool_vals))
      = hf.filter (fun h => decide (h.strings = some avb_bool_vals))
    ∧ (hf.filter (fun h => decide (h.strings = some avb_bool_vals))).length = 53 := by
  decide

/-- C8. Boolean flags read their own bit.  For every call of either dissector
that adds a field using the boolean value table, and every buffer that holds
the byte range of the call, `proto_tree_add_item` returns normally with a node
whose label is `True` exactly when the big-endian word at that range has a bit
in common with the field's mask, and `False` exactly when it has none.  The same
holds for every such node in the tree of either decoder on any buffer, so a flag
is never left without a label.  On a buffer long enough for both decoders, the
flag nodes of the two trees show exactly the 53 fields of the registration
array that use the boolean table. -/
theorem boolean_flags_read_their_bit (tvb : tvbuff_t) :
    (∀ c ∈ adp_calls ++ acmp_calls, c.hf.strings = some avb_bool_vals →
        c.start + c.length ≤ tvb.length →
        ∀ (p : proto_node_ref) (s : dissect_state), ∃ fi : field_info,
          proto_tree_add_item (some p) c.hf tvb c.start c.length s
              = .ok (some (.item s.nodes.length)) ⟨s.cinfo, s.nodes ++ [⟨p, fi⟩]⟩
            ∧ (resolved_label fi = some "True" ↔
              be_uint (slice tvb c.start c.length) &&& c.hf.bitmask ≠ 0)
            ∧ (resolved_label fi = some "False" ↔
              be_uint (slice tvb c.start c.length) &&& c.hf.bitmask = 0))
      ∧ (∀ n : proto_node,
        (n ∈ (decode_adp tvb).state.nodes ∨ n ∈ (decode_acmp tvb).state.nodes) →
        n.finfo.hfinfo.strings = some avb_bool_vals →
          (resolved_label n.finfo = some "True" ↔
              be_uint (slice tvb n.finfo.start n.finfo.length) &&& n.finfo.hfinfo.bitmask ≠ 0)
            ∧ (resolved_label n.finfo = some "False" ↔
              be_uint (slice tvb n.finfo.start n.finfo.length) &&& n.finfo.hfinfo.bitmask = 0)
            ∧ resolved_label n.finfo ≠ none)
      ∧ (68 ≤ tvb.length →
          ((tree_shape (decode_adp tvb).state.nodes).map (fun p => p.2)).filter
                (fun h => decide (h.strings = some avb_bool_vals))
              ++ ((tree_shape (decode_acmp tvb).state.nodes).map (fun p => p.2)).filter
                (fun h => decide (h.strings = some avb_bool_vals))
            = hf.filter (fun h => decide (h.strings = some avb_bool_vals))
          ∧ (hf.filter (fun h => decide (h.strings = some avb_bool_vals))).length = 53) := by
  refine ⟨fun c hc hb hfit p s => ?_, fun n hn hb => ?_, fun h => ?_⟩
  · have hwf : c.wf = true := by
      rcases List.mem_append.1 hc with h1 | h1
      · exact adp_calls_wf c h1
      · exact acmp_calls_wf c h1
    refine ⟨⟨c.hf, c.start, c.length, call_value tvb c⟩, ?_, ?_⟩
    · unfold proto_tree_add_item
      simp only [new_item_value_wf c hwf, if_pos hfit]
    · rw [flag_call_label tvb c hc hb hfit]
      by_cases h0 : be_uint (slice tvb c.start c.length) &&& c.hf.bitmask = 0
      · simp [h0]
      · simp [h0]
  · have key : ∃ c ∈ adp_calls ++ acmp_calls,
        c.start + c.length ≤ tvb.length ∧ n = node_of tvb .root 0 c := by
      rcases hn with hn | hn
      · obtain ⟨c, hc, hfit, hnc⟩ := mem_decode_adp tvb n hn
        exact ⟨c, List.mem_append_left _ hc, hfit, hnc⟩
      · obtain ⟨c, hc, hfit, hnc⟩ := mem_decode_acmp tvb n hn
        exact ⟨c, List.mem_append_right _ hc, hfit, hnc⟩
    obtain ⟨c, hc, hfit, rfl⟩ := key
    have hl := flag_call_label tvb c hc hb hfit
    simp only [node_of] at hb ⊢
    rw [hl]
    by_cases h0 : be_uint (slice tvb c.start c.length) &&& c.hf.bitmask = 0
    · simp [h0]
    · simp [h0]
  · rw [decode_adp_shape tvb h, decode_acmp_shape tvb (by omega)]
    exact flag_coverage

/-- Witness for C8: with octets 20 to 23 equal to `00 00 00 01`, AVDECC_IP is
`True` and the other six entity-capability flags are `False`. -/
theorem boolean_flags_read_their_bit_witness :
    resolved_label ⟨hf_adp_entity_cap_avdecc_ip, 20, 4, .uinteger 1⟩ = some "True"
      ∧ resolved_label ⟨hf_adp_entity_cap_zero_conf, 20, 4, .uinteger 0⟩ = some "False"
      ∧ resolved_label ⟨hf_adp_entity_cap_gateway_entity, 20, 4, .uinteger 0⟩ = some "False"
      ∧ resolved_label ⟨hf_adp_entity_cap_avdecc_control, 20, 4, .uinteger 0⟩ = some "False"
      ∧ resolved_label ⟨hf_adp_entity_cap_legacy_avc, 20, 4, .uinteger 0⟩ = some "False"
      ∧ resolved_label ⟨hf_adp_entity_cap_assoc_id_support, 20, 4, .uinteger 0⟩ = some "False"
      ∧ resolved_label ⟨hf_adp_entity_cap_assoc_id_valid, 20, 4, .uinteger 0⟩ = some "False" :=
  ⟨((boolean_flags_read_their_bit adp_example).2.1
      ⟨.item 6, ⟨hf_adp_entity_cap_avdecc_ip, 20, 4, .uinteger 1⟩⟩
      (Or.inl (by decide)) rfl).1.2 (by decide),
    ((boolean_flags_read_their_bit adp_example).2.1
      ⟨.item 6, ⟨hf_adp_entity_cap_zero_conf, 20, 4, .uinteger 0⟩⟩
      (Or.inl (by decide)) rfl).2.1.2 (by decide),
    ((boolean_flags_read_their_bit adp_example).2.1
      ⟨.item 6, ⟨hf_adp_entity_cap_gateway_entity, 20, 4, .uinteger 0⟩⟩
      (Or.inl (by decide)) rfl).2.1.2 (by decide),
    ((boolean_flags_read_their_bit adp_example).2.1
      ⟨.item 6, ⟨hf_adp_entity_cap_avdecc_control, 20, 4, .uinteger 0⟩⟩
      (Or.inl (by decide)) rfl).2.1.2 (by decide),
    ((boolean_flags_read_their_bit adp_example).2.1
      ⟨.item 6, ⟨hf_adp_entity_cap_legacy_avc, 20, 4, .uinteger 0⟩⟩
      (Or.inl (by decide)) rfl).2.1.2 (by decide),
    ((boolean_flags_read_their_bit adp_example).2.1
      ⟨.item 6, ⟨hf_adp_entity_cap_assoc_id_support, 20, 4, .uinteger 0⟩⟩
      (Or.inl (by decide)) rfl).2.1.2 (by decide),
    ((boolean_flags_read_their_bit adp_example).2.1
      ⟨.item 6, ⟨hf_adp_entity_cap_assoc_id_valid, 20, 4, .uinteger 0⟩⟩
      (Or.inl (by decide)) rfl).2.1.2 (by decide)⟩

/-! ## C9, C10: message types -/

/-- The node of a masked field of at most 32 bits holds the masked big-endian
word, shifted down to the lowest set bit of the mask. -/
theorem field_of_masked (cs : List item_call) (tvb : tvbuff_t) (tree : proto_node_ref)
    (base : Nat) (c : item_call) (hfind : cs.find? (fun d => decide (d.hf = c.hf)) = some c)
    (hty : c.hf.type = .FT_UINT8 ∨ c.hf.type = .FT_UINT16 ∨ c.hf.type = .FT_UINT32)
    (hmask : c.hf.bitmask ≠ 0)
    (hlen : c.length = 1 ∨ c.length = 2 ∨ c.length = 3 ∨ c.length = 4)
    (hb : c.start + c.length ≤ tvb.length) :
    field_of (cs.map (node_of tvb tree base)) c.hf
      = some ⟨c.hf, c.start, c.length,
          .uinteger ((be_uint (slice tvb c.start c.length) &&& c.hf.bitmask)
            >>> wrs_count_bitshift c.hf.bitmask)⟩ := by
  rw [field_of_map_node_of, hfind, Option.map_some']
  have hv : proto_tree_set_uint c.hf (uint_raw tvb c.start c.length)
      = (be_uint (slice tvb c.start c.length) &&& c.hf.bitmask)
          >>> wrs_count_bitshift c.hf.bitmask := by
    unfold proto_tree_set_uint
    rw [if_pos hmask, uint_raw_eq_be tvb _ _ hlen hb]
  rcases hty with hty | hty | hty <;> simp only [call_value, hty, hv]

theorem and_0x0f_le (w : Nat) : w &&& 0x0f ≤ 15 := Nat.and_le_right

/-- C9. ADP message type.  On every buffer of at least 68 octets the Message
Type node of the ADP tree covers octet 1 and holds that octet masked with
`0x0f`, a value of at most 15.  Its label is the entry of that index in
ENTITY_AVAILABLE, ENTITY_DEPARTING, ENTITY_DISCOVER, and for the values 3 to 15
there is no label. -/
theorem adp_message_type (tvb : tvbuff_t) (h : 68 ≤ tvb.length) :
    field_of (decode_adp tvb).state.nodes hf_adp_message_type
        = some ⟨hf_adp_message_type, 1, 1, .uinteger (be_uint (slice tvb 1 1) &&& 0x0f)⟩
      ∧ be_uint (slice tvb 1 1) &&& 0x0f ≤ 15
      ∧ resolved_label
          ⟨hf_adp_message_type, 1, 1, .uinteger (be_uint (slice tvb 1 1) &&& 0x0f)⟩
        = ["ENTITY_AVAILABLE", "ENTITY_DEPARTING", "ENTITY_DISCOVER"][
            be_uint (slice tvb 1 1) &&& 0x0f]?
      ∧ (3 ≤ be_uint (slice tvb 1 1) &&& 0x0f →
          resolved_label
            ⟨hf_adp_message_type, 1, 1, .uinteger (be_uint (slice tvb 1 1) &&& 0x0f)⟩
          = none) := by
  have hlab : ∀ v : Nat, v ≤ 15 →
      resolved_label ⟨hf_adp_message_type, 1, 1, .uinteger v⟩
        = ["ENTITY_AVAILABLE", "ENTITY_DEPARTING", "ENTITY_DISCOVER"][v]? := by decide
  have hnone : ∀ v : Nat, v ≤ 15 → 3 ≤ v →
      resolved_label ⟨hf_adp_message_type, 1, 1, .uinteger v⟩ = none := by decide
  refine ⟨?_, and_0x0f_le _, hlab _ (and_0x0f_le _), hnone _ (and_0x0f_le _)⟩
  rw [decode_adp_nodes tvb h]
  exact field_of_masked adp_calls tvb .root 0 ⟨none, hf_adp_message_type, ADP_VERSION_OFFSET, 1⟩
    (by decide) (by decide) (by decide) (by decide) (by show 1 + 1 ≤ _; omega)

/-- Witness for C9: octet 1 equal to `0x00` is labelled ENTITY_AVAILABLE. -/
theorem adp_message_type_witness :
    field_of (decode_adp adp_example).state.nodes hf_adp_message_type
        = some ⟨hf_adp_message_type, 1, 1, .uinteger 0⟩
      ∧ resolved_label ⟨hf_adp_message_type, 1, 1, .uinteger 0⟩ = some "ENTITY_AVAILABLE" :=
  ⟨(adp_message_type adp_example (by decide)).1, (adp_message_type adp_example (by decide)).2.2.1⟩

/-- C10. ACMP message type.  On every buffer of at least 56 octets the Message
Type node of the ACMP tree covers octet 1 and holds that octet masked with
`0x0f`, a value of at most 15.  Its label is the entry of that index in the
fourteen command and response names in table order, and for the values 14 and
15 there is no label. -/
theorem acmp_message_type (tvb : tvbuff_t) (h : 56 ≤ tvb.length) :
    field_of (decode_acmp tvb).state.nodes hf_acmp_message_type
        = some ⟨hf_acmp_message_type, 1, 1, .uinteger (be_uint (slice tvb 1 1) &&& 0x0f)⟩
      ∧ be_uint (slice tvb 1 1) &&& 0x0f ≤ 15
      ∧ resolved_label
          ⟨hf_acmp_message_type, 1, 1, .uinteger (be_uint (slice tvb 1 1) &&& 0x0f)⟩
        = ["CONNECT_TX_COMMAND", "CONNECT_TX_RESPONSE", "DISCONNECT_TX_COMMAND",
           "DISCONNECT_TX_RESPONSE", "GET_TX_STATE_COMMAND", "GET_TX_STATE_RESPONSE",
           "CONNECT_RX_COMMAND", "CONNECT_RX_RESPONSE", "DISCONNECT_RX_COMMAND",
           "DISCONNECT_RX_RESPONSE", "GET_RX_STATE_COMMAND", "GET_RX_STATE_RESPONSE",
           "GET_TX_CONNECTION_COMMAND", "GET_TX_CONNECTION_RESPONSE"][
            be_uint (slice tvb 1 1) &&& 0x0f]?
      ∧ (14 ≤ be_uint (slice tvb 1 1) &&& 0x0f →
          resolved_label
            ⟨hf_acmp_message_type, 1, 1, .uinteger (be_uint (slice tvb 1 1) &&& 0x0f)⟩
          = none) := by
  have hlab : ∀ v : Nat, v ≤ 15 →
      resolved_label ⟨hf_acmp_message_type, 1, 1, .uinteger v⟩
        = ["CONNECT_TX_COMMAND", "CONNECT_TX_RESPONSE", "DISCONNECT_TX_COMMAND",
           "DISCONNECT_TX_RESPONSE", "GET_TX_STATE_COMMAND", "GET_TX_STATE_RESPONSE",
           "CONNECT_RX_COMMAND", "CONNECT_RX_RESPONSE", "DISCONNECT_RX_COMMAND",
           "DISCONNECT_RX_RESPONSE", "GET_RX_STATE_COMMAND", "GET_RX_STATE_RESPONSE",
           "GET_TX_CONNECTION_COMMAND", "GET_TX_CONNECTION_RESPONSE"][v]? := by decide
  have hnone : ∀ v : Nat, v ≤ 15 → 14 ≤ v →
      resolved_label ⟨hf_acmp_message_type, 1, 1, .uinteger v⟩ = none := by decide
  refine ⟨?_, and_0x0f_le _, hlab _ (and_0x0f_le _), hnone _ (and_0x0f_le _)⟩
  rw [decode_acmp_nodes tvb h]
  exact field_of_masked acmp_calls tvb .root 0
    ⟨none, hf_acmp_message_type, ACMP_VERSION_OFFSET, 1⟩
    (by decide) (by decide) (by decide) (by decide) (by show 1 + 1 ≤ _; omega)

/-- Witness for C10: octet 1 equal to `0x07` is labelled CONNECT_RX_RESPONSE. -/
theorem acmp_message_type_witness :
    field_of (decode_acmp acmp_example).state.nodes hf_acmp_message_type
        = some ⟨hf_acmp_message_type, 1, 1, .uinteger 7⟩
      ∧ resolved_label ⟨hf_acmp_message_type, 1, 1, .uinteger 7⟩ = some "CONNECT_RX_RESPONSE" :=
  ⟨(acmp_message_type acmp_example (by decide)).1,
    (acmp_message_type acmp_example (by decide)).2.2.1⟩

/-! ## C11 to C14: the packed header fields -/

theorem be_uint_slice_one_lt (tvb : tvbuff_t) (i : Nat) : be_uint (slice tvb i 1) < 256 := by
  unfold slice be_uint
  cases hd : tvb.drop i with
  | nil => simp
  | cons b rest =>
    simp only [List.take_succ_cons, List.take_zero, List.foldl_cons, List.foldl_nil]
    have := b.isLt
    omega

theorem be_uint_slice_one (tvb : tvbuff_t) (i : Nat) (b : guint8) (h : tvb[i]? = some b) :
    be_uint (slice tvb i 1) = b.val := by
  obtain ⟨hi, hb⟩ := List.getElem?_eq_some.1 h
  rw [slice_succ tvb i 0 hi, hb]
  simp [slice, be_uint]

theorem and_0xf8_shift_le (w : Nat) : (w &&& 0xf8) >>> 3 ≤ 31 := by
  have h : w &&& 0xf8 ≤ 0xf8 := Nat.and_le_right
  rw [Nat.shiftRight_eq_div_pow]
  norm_num
  omega

/-- The Status Field node of a complete ACMP decode. -/
theorem decode_acmp_status_field (tvb : tvbuff_t) (h : 56 ≤ tvb.length) :
    field_of (decode_acmp tvb).state.nodes hf_acmp_status_field
      = some ⟨hf_acmp_status_field, 2, 1,
          .uinteger ((be_uint (slice tvb 2 1) &&& 0xf8) >>> 3)⟩ := by
  rw [decode_acmp_nodes tvb h]
  exact field_of_masked acmp_calls tvb .root 0
    ⟨none, hf_acmp_status_field, ACMP_STATUS_FIELD_OFFSET, 1⟩
    (by decide) (by decide) (by decide) (by decide) (by show 2 + 1 ≤ _; omega)

/-- The Valid Time node of a complete ADP decode. -/
theorem decode_adp_valid_time (tvb : tvbuff_t) (h : 68 ≤ tvb.length) :
    field_of (decode_adp tvb).state.nodes hf_adp_valid_time
      = some ⟨hf_adp_valid_time, 2, 1,
          .uinteger ((be_uint (slice tvb 2 1) &&& 0xf8) >>> 3)⟩ := by
  rw [decode_adp_nodes tvb h]
  exact field_of_masked adp_calls tvb .root 0
    ⟨none, hf_adp_valid_time, ADP_VALID_TIME_OFFSET, 1⟩
    (by decide) (by decide) (by decide) (by decide) (by show 2 + 1 ≤ _; omega)

/-- The Control Data Length node of a complete ADP decode. -/
theorem decode_adp_cd_length (tvb : tvbuff_t) (h : 68 ≤ tvb.length) :
    field_of (decode_adp tvb).state.nodes hf_adp_cd_length
      = some ⟨hf_adp_cd_length, 3, 1, .uinteger (be_uint (slice tvb 3 1) &&& 0x07ff)⟩ := by
  rw [decode_adp_nodes tvb h]
  exact field_of_masked adp_calls tvb .root 0
    ⟨none, hf_adp_cd_length, ADP_CD_LENGTH_OFFSET, 1⟩
    (by decide) (by decide) (by decide) (by decide) (by show 3 + 1 ≤ _; omega)

/-- The Control Data Length node of a complete ACMP decode. -/
theorem decode_acmp_cd_length (tvb : tvbuff_t) (h : 56 ≤ tvb.length) :
    field_of (decode_acmp tvb).state.nodes hf_acmp_cd_length
      = some ⟨hf_acmp_cd_length, 3, 1, .uinteger (be_uint (slice tvb 3 1) &&& 0x07ff)⟩ := by
  rw [decode_acmp_nodes tvb h]
  exact field_of_masked acmp_calls tvb .root 0
    ⟨none, hf_acmp_cd_length, ACMP_CD_LENGTH_OFFSET, 1⟩
    (by decide) (by decide) (by decide) (by decide) (by show 3 + 1 ≤ _; omega)

/-- Counterexample for C11: two messages of 56 octets that agree on octet 1 (and
on every octet but octet 2) decode different Status Fields, 0 and 31; the node
covers octet 2. -/
theorem acmp_status_not_from_octet_1 :
    56 ≤ acmp_example.length ∧ 56 ≤ acmp_status_example.length
      ∧ acmp_example[1]? = acmp_status_example[1]?
      ∧ field_of (decode_acmp acmp_example).state.nodes hf_acmp_status_field
          = some ⟨hf_acmp_status_field, 2, 1, .uinteger 0⟩
      ∧ field_of (decode_acmp acmp_status_example).state.nodes hf_acmp_status_field
          = some ⟨hf_acmp_status_field, 2, 1, .uinteger 31⟩ := by
  decide

/-- C11, as amended.  On every ACMP buffer of at least 56 octets the Status Field
node covers octet 2, the octet after the one that carries the Message Type, and
holds that octet masked with `0xf8` and shifted down three bits, a value of at
most 31; so two such buffers that agree on octet 2 decode the same Status Field,
whatever their octet 1. -/
theorem acmp_status_from_octet_2 (tvb : tvbuff_t) (h : 56 ≤ tvb.length) :
    field_of (decode_acmp tvb).state.nodes hf_acmp_status_field
        = some ⟨hf_acmp_status_field, 2, 1,
            .uinteger ((be_uint (slice tvb 2 1) &&& 0xf8) >>> 3)⟩
      ∧ (be_uint (slice tvb 2 1) &&& 0xf8) >>> 3 ≤ 31
      ∧ (∀ tvb2 : tvbuff_t, 56 ≤ tvb2.length → tvb2[2]? = tvb[2]? →
          field_of (decode_acmp tvb2).state.nodes hf_acmp_status_field
            = field_of (decode_acmp tvb).state.nodes hf_acmp_status_field) := by
  refine ⟨decode_acmp_status_field tvb h, and_0xf8_shift_le _, fun tvb2 h2 heq => ?_⟩
  have hb : tvb[2]? = some tvb[2] := List.getElem?_eq_getElem (by omega)
  rw [decode_acmp_status_field tvb h, decode_acmp_status_field tvb2 h2,
    be_uint_slice_one tvb 2 _ hb, be_uint_slice_one tvb2 2 _ (heq.trans hb)]

/-- Witness for C11 as amended: changing octet 1 of a message leaves its Status
Field, 31 for octet 2 equal to `0xf8`, as it is. -/
theorem acmp_status_from_octet_2_witness :
    field_of (decode_acmp acmp_status_example).state.nodes hf_acmp_status_field
        = some ⟨hf_acmp_status_field, 2, 1, .uinteger 31⟩
      ∧ field_of (decode_acmp (acmp_status_example.set 1 0x00)).state.nodes hf_acmp_status_field
        = field_of (decode_acmp acmp_status_example).state.nodes hf_acmp_status_field :=
  ⟨(acmp_status_from_octet_2 acmp_status_example (by decide)).1,
    (acmp_status_from_octet_2 acmp_status_example (by decide)).2.2
      (acmp_status_example.set 1 0x00) (by decide) (by decide)⟩

/-- C12. ACMP status resolution.  The label of a Status Field node is the result
of the status table for its value.  For a 5-bit value `c` the table gives a
label exactly when `c ≤ 15` or `c = 31`; it has 17 entries before its
terminating entry, with pairwise distinct codes and pairwise distinct labels;
0 is SUCCESS and 31 is NOT_SUPPORTED; the values 16 to 30 have no label. -/
theorem acmp_status_resolution (c : Nat) (hc : c < 32) :
    resolved_label ⟨hf_acmp_status_field, 2, 1, .uinteger c⟩
        = match_strval c acmp_status_field_vals
      ∧ ((match_strval c acmp_status_field_vals).isSome = true ↔ (c ≤ 15 ∨ c = 31))
      ∧ (16 ≤ c → c ≤ 30 → match_strval c acmp_status_field_vals = none)
      ∧ (enum_entries acmp_status_field_vals).length = 17
      ∧ ((enum_entries acmp_status_field_vals).map (fun p => p.1)).Nodup
      ∧ ((enum_entries acmp_status_field_vals).map (fun p => p.2)).Nodup
      ∧ match_strval 0 acmp_status_field_vals = some "SUCCESS"
      ∧ match_strval 31 acmp_status_field_vals = some "NOT_SUPPORTED" := by
  have key : ∀ c, c < 32 →
      ((match_strval c acmp_status_field_vals).isSome = true ↔ (c ≤ 15 ∨ c = 31))
        ∧ (16 ≤ c → c ≤ 30 → match_strval c acmp_status_field_vals = none) := by decide
  have tab : (enum_entries acmp_status_field_vals).length = 17
      ∧ ((enum_entries acmp_status_field_vals).map (fun p => p.1)).Nodup
      ∧ ((enum_entries acmp_status_field_vals).map (fun p => p.2)).Nodup
      ∧ match_strval 0 acmp_status_field_vals = some "SUCCESS"
      ∧ match_strval 31 acmp_status_field_vals = some "NOT_SUPPORTED" := by decide
  exact ⟨rfl, (key c hc).1, (key c hc).2, tab⟩

/-- Witness for C12: the value 31 is labelled and the value 16 is not. -/
theorem acmp_status_resolution_witness :
    ((match_strval 31 acmp_status_field_vals).isSome = true ↔ (31 ≤ 15 ∨ 31 = 31))
      ∧ match_strval 16 acmp_status_field_vals = none :=
  ⟨(acmp_status_resolution 31 (by decide)).2.1,
    (acmp_status_resolution 16 (by decide)).2.2.1 (by decide) (by decide)⟩

/-- Counterexample for C13: an advertisement of 68 octets whose octet 1 is `0x00`
decodes Valid Time 31, not 0; the node covers octet 2. -/
theorem adp_valid_time_not_from_octet_1 :
    68 ≤ adp_valid_time_example.length
      ∧ adp_valid_time_example[1]? = some 0x00
      ∧ field_of (decode_adp adp_valid_time_example).state.nodes hf_adp_valid_time
          = some ⟨hf_adp_valid_time, 2, 1, .uinteger 31⟩ := by
  decide

/-- C13, as amended.  On every ADP buffer of at least 68 octets the Valid Time
node covers octet 2, the octet after the one that carries the Message Type
under mask `0x0f`, and holds that octet masked with `0xf8` and shifted down
three bits; so a buffer with octet 2 equal to `0x00` decodes Valid Time 0,
whatever its other octets. -/
theorem adp_valid_time_from_octet_2 (tvb : tvbuff_t) (h : 68 ≤ tvb.length) :
    field_of (decode_adp tvb).state.nodes hf_adp_valid_time
        = some ⟨hf_adp_valid_time, 2, 1,
            .uinteger ((be_uint (slice tvb 2 1) &&& 0xf8) >>> 3)⟩
      ∧ (be_uint (slice tvb 2 1) &&& 0xf8) >>> 3 ≤ 31
      ∧ (tvb[2]? = some 0x00 →
          field_of (decode_adp tvb).state.nodes hf_adp_valid_time
            = some ⟨hf_adp_valid_time, 2, 1, .uinteger 0⟩) := by
  refine ⟨decode_adp_valid_time tvb h, and_0xf8_shift_le _, fun h0 => ?_⟩
  rw [decode_adp_valid_time tvb h, be_uint_slice_one tvb 2 _ h0]
  rfl

/-- Witness for C13 as amended: the example advertisement has octet 2 equal to
`0x00` and Valid Time 0. -/
theorem adp_valid_time_from_octet_2_witness :
    field_of (decode_adp adp_example).state.nodes hf_adp_valid_time
      = some ⟨hf_adp_valid_time, 2, 1, .uinteger 0⟩ :=
  (adp_valid_time_from_octet_2 adp_example (by decide)).2.2 (by decide)

/-- C14 on the code.  With octets 2 and 3 equal to `01 00`, the eleven low bits
of the 16-bit word at octets 2 and 3 are 256, yet both decoders show Control
Data Length 0: the node covers octet 3 alone.  On every complete decode the
value is the single octet 3, so it is at most 255 (and below 2048), and no
buffer decodes to a value from 256 to 2047. -/
theorem cd_length_reads_one_octet :
    be_uint (slice adp_cd_length_example 2 2) &&& 0x07ff = 256
      ∧ field_of (decode_adp adp_cd_length_example).state.nodes hf_adp_cd_length
          = some ⟨hf_adp_cd_length, 3, 1, .uinteger 0⟩
      ∧ be_uint (slice acmp_cd_length_example 2 2) &&& 0x07ff = 256
      ∧ field_of (decode_acmp acmp_cd_length_example).state.nodes hf_acmp_cd_length
          = some ⟨hf_acmp_cd_length, 3, 1, .uinteger 0⟩
      ∧ (∀ tvb : tvbuff_t, 68 ≤ tvb.length → ∃ v, v ≤ 255 ∧
          field_of (decode_adp tvb).state.nodes hf_adp_cd_length
            = some ⟨hf_adp_cd_length, 3, 1, .uinteger v⟩)
      ∧ (∀ tvb : tvbuff_t, 56 ≤ tvb.length → ∃ v, v ≤ 255 ∧
          field_of (decode_acmp tvb).state.nodes hf_acmp_cd_length
            = some ⟨hf_acmp_cd_length, 3, 1, .uinteger v⟩) := by
  have hle : ∀ tvb : tvbuff_t, be_uint (slice tvb 3 1) &&& 0x07ff ≤ 255 := fun tvb => by
    have h1 : be_uint (slice tvb 3 1) &&& 0x07ff ≤ be_uint (slice tvb 3 1) := Nat.and_le_left
    have h2 := be_uint_slice_one_lt tvb 3
    omega
  refine ⟨by decide, by decide, by decide, by decide, fun tvb h => ?_, fun tvb h => ?_⟩
  · exact ⟨_, hle tvb, decode_adp_cd_length tvb h⟩
  · exact ⟨_, hle tvb, decode_acmp_cd_length tvb h⟩

/-! ## C15: the high bit of the subtype octet -/

theorem octet_cons_succ (a : guint8) (rest : tvbuff_t) (i : Nat) :
    octet (a :: rest) (i + 1) = octet rest i := by
  simp [octet]

theorem uint64_accumulate_cons (a : guint8) (rest : tvbuff_t) (n st acc : Nat) :
    uint64_accumulate (a :: rest) (st + 1) n acc = uint64_accumulate rest st n acc := by
  induction n generalizing st acc with
  | zero => rfl
  | succ n ih =>
    simp only [uint64_accumulate]
    rw [octet_cons_succ, ih]

theorem uint_raw_cons (a : guint8) (rest : tvbuff_t) (st len : Nat) :
    uint_raw (a :: rest) (st + 1) len = uint_raw rest st len := by
  unfold uint_raw
  split <;> simp only [octet_cons_succ, Nat.add_right_comm st 1]

/-- A call that starts after octet 0 stores a value that does not depend on octet 0. -/
theorem call_value_cons (a a' : guint8) (rest : tvbuff_t) (c : item_call) (h : 1 ≤ c.start) :
    call_value (a :: rest) c = call_value (a' :: rest) c := by
  obtain ⟨k, hk⟩ : ∃ k, c.start = k + 1 := ⟨c.start - 1, by omega⟩
  unfold call_value
  rw [hk]
  simp only [uint64_accumulate_cons, uint_raw_cons, List.drop_succ_cons]

theorem adp_calls_start_pos : ∀ c ∈ adp_calls, 1 ≤ c.start := by decide

theorem acmp_calls_start_pos : ∀ c ∈ acmp_calls, 1 ≤ c.start := by decide

theorem dissect_17221_adp_cons (a a' : guint8) (rest : tvbuff_t)
    (tree : Option proto_node_ref) (s : dissect_state) :
    dissect_17221_adp (a :: rest) tree s = dissect_17221_adp (a' :: rest) tree s := by
  cases tree with
  | none => simp only [dissect_17221_adp_null]
  | some t =>
    have hmap : ∀ l : List item_call, (∀ c ∈ l, c ∈ adp_calls) →
        l.map (node_of (a :: rest) t s.nodes.length)
          = l.map (node_of (a' :: rest) t s.nodes.length) := fun l hl =>
      List.map_congr_left (fun c hc => by
        unfold node_of
        rw [call_value_cons a a' rest c (adp_calls_start_pos c (hl c hc))])
    rw [dissect_17221_adp_run, dissect_17221_adp_run,
      hmap adp_calls (fun c hc => hc),
      hmap _ (fun c hc => (List.takeWhile_sublist _).subset hc)]
    rfl

theorem dissect_17221_acmp_cons (a a' : guint8) (rest : tvbuff_t)
    (tree : Option proto_node_ref) (s : dissect_state) :
    dissect_17221_acmp (a :: rest) tree s = dissect_17221_acmp (a' :: rest) tree s := by
  cases tree with
  | none => simp only [dissect_17221_acmp_null]
  | some t =>
    have hmap : ∀ l : List item_call, (∀ c ∈ l, c ∈ acmp_calls) →
        l.map (node_of (a :: rest) t s.nodes.length)
          = l.map (node_of (a' :: rest) t s.nodes.length) := fun l hl =>
      List.map_congr_left (fun c hc => by
        unfold node_of
        rw [call_value_cons a a' rest c (acmp_calls_start_pos c (hl c hc))])
    rw [dissect_17221_acmp_run, dissect_17221_acmp_run,
      hmap acmp_calls (fun c hc => hc),
      hmap _ (fun c hc => (List.takeWhile_sublist _).subset hc)]
    rfl

set_option maxRecDepth 100000 in
theorem flip_bit7_masked : ∀ b : guint8, (flip_bit7 b).val &&& 0x7F = b.val &&& 0x7F := by
  decide

set_option maxRecDepth 100000 in
theorem flip_bit7_val : ∀ b : guint8, (flip_bit7 b).val = b.val ^^^ 0x80 := by
  decide

theorem octet_cons_zero (a : guint8) (rest : tvbuff_t) : octet (a :: rest) 0 = a.val := by
  simp [octet]

/-- The dispatcher does not see bit 7 of octet 0. -/
theorem dissect_17221_flip (tvb : tvbuff_t) (tree : Option proto_node_ref) (s : dissect_state) :
    dissect_17221 (flip_high_bit tvb) tree s = dissect_17221 tvb tree s := by
  cases tvb with
  | nil => rfl
  | cons a rest =>
    unfold flip_high_bit
    rw [dissect_17221_nonempty _ (List.cons_ne_nil _ _),
      dissect_17221_nonempty _ (List.cons_ne_nil _ _), octet_cons_zero, octet_cons_zero,
      flip_bit7_masked, dissect_17221_adp_cons (flip_bit7 a) a,
      dissect_17221_acmp_cons (flip_bit7 a) a]

/-- C15. The high bit of the subtype octet is ignored.  For every non-empty
buffer, flipping bit 7 of octet 0 changes nothing in what the dispatcher does:
same masked subtype, same return or raise, same summary columns, same tree.
So `0xFA` is decoded like `0x7A` and `0xFC` like `0x7C`. -/
theorem high_bit_of_subtype_ignored (tvb : tvbuff_t) (hne : tvb ≠ [])
    (tree : Option proto_node_ref) (s : dissect_state) :
    dissect_17221 (flip_high_bit tvb) tree s = dissect_17221 tvb tree s
      ∧ (dissect_17221 (flip_high_bit tvb) tree s).state.cinfo
          = (dissect_17221 tvb tree s).state.cinfo
      ∧ (dissect_17221 (flip_high_bit tvb) tree s).state.nodes
          = (dissect_17221 tvb tree s).state.nodes
      ∧ (dissect_17221 (flip_high_bit tvb) tree s).fault = (dissect_17221 tvb tree s).fault
      ∧ octet (flip_high_bit tvb) 0 &&& 0x7F = octet tvb 0 &&& 0x7F
      ∧ octet (flip_high_bit tvb) 0 = octet tvb 0 ^^^ 0x80
      ∧ (flip_high_bit tvb).tail = tvb.tail := by
  refine ⟨dissect_17221_flip tvb tree s, by rw [dissect_17221_flip], by rw [dissect_17221_flip],
    by rw [dissect_17221_flip], ?_, ?_, ?_⟩
  · cases tvb with
    | nil => exact absurd rfl hne
    | cons a rest =>
      unfold flip_high_bit
      rw [octet_cons_zero, octet_cons_zero, flip_bit7_masked]
  · cases tvb with
    | nil => exact absurd rfl hne
    | cons a rest =>
      unfold flip_high_bit
      rw [octet_cons_zero, octet_cons_zero, flip_bit7_val]
  · cases tvb with
    | nil => rfl
    | cons a rest => rfl

/-- Witness for C15: the example advertisement starts with `0xFA`; with `0x7A`
instead it dispatches to the same result. -/
theorem high_bit_of_subtype_ignored_witness :
    octet (flip_high_bit adp_example) 0 = 0x7A
      ∧ dispatch (flip_high_bit adp_example) = dispatch adp_example :=
  ⟨by rw [(high_bit_of_subtype_ignored adp_example (by decide) (some .root)
        empty_state).2.2.2.2.2.1]; decide,
    (high_bit_of_subtype_ignored adp_example (by decide) (some .root) empty_state).1⟩

/-! ## C16: a short ADP buffer -/

theorem adp_calls_short : ∀ L, L < 12 → 4 ≤ L →
    (adp_calls.takeWhile (item_call.fits L)).map (call_shape .root 0)
      = [(.root, hf_adp_message_type), (.root, hf_adp_valid_time), (.root, hf_adp_cd_length)] := by
  decide

/-- The tree of an ADP decode of a buffer of 4 to 11 octets. -/
theorem decode_adp_short_shape (tvb : tvbuff_t) (h4 : 4 ≤ tvb.length) (h11 : tvb.length ≤ 11) :
    tree_shape (decode_adp tvb).state.nodes
      = [(.root, hf_adp_message_type), (.root, hf_adp_valid_time), (.root, hf_adp_cd_length)] := by
  unfold decode_adp
  rw [adp_nodes]
  simp only [empty_state, List.nil_append, List.length_nil]
  rw [tree_shape_map_node_of]
  exact adp_calls_short tvb.length (by omega) h4

/-- C16. Short ADP buffer.  On every buffer of 4 to 11 octets the ADP decoder
raises the out-of-bounds exception and leaves exactly three nodes, all under
the root: Message Type, Valid Time and Control Data Length, in that order.  The
tree has no node for the Entity GUID or for any later field. -/
theorem short_adp_buffer (tvb : tvbuff_t) (h4 : 4 ≤ tvb.length) (h11 : tvb.length ≤ 11) :
    (decode_adp tvb).fault = some .BoundsError
      ∧ tree_shape (decode_adp tvb).state.nodes
          = [(.root, hf_adp_message_type), (.root, hf_adp_valid_time),
             (.root, hf_adp_cd_length)]
      ∧ top_level (tree_shape (decode_adp tvb).state.nodes)
          = [hf_adp_message_type, hf_adp_valid_time, hf_adp_cd_length]
      ∧ (∀ h ∈ hf, h ≠ hf_adp_message_type → h ≠ hf_adp_valid_time → h ≠ hf_adp_cd_length →
          field_of (decode_adp tvb).state.nodes h = none) := by
  have hs := decode_adp_short_shape tvb h4 h11
  refine ⟨?_, hs, by rw [hs]; rfl, fun h _ h1 h2 h3 => ?_⟩
  · unfold decode_adp
    rw [adp_fault, if_neg (by omega)]
  · unfold field_of
    rw [Option.map_eq_none', List.find?_eq_none]
    intro n hn
    have hmem : (n.parent, n.finfo.hfinfo) ∈ tree_shape (decode_adp tvb).state.nodes :=
      List.mem_map_of_mem (fun n => (n.parent, n.finfo.hfinfo)) hn
    rw [hs] at hmem
    simp only [List.mem_cons, Prod.mk.injEq, List.mem_singleton, List.not_mem_nil, or_false]
      at hmem
    simp only [decide_eq_true_eq]
    rcases hmem with ⟨_, hh⟩ | ⟨_, hh⟩ | ⟨_, hh⟩ <;> rw [hh] <;> intro he
    · exact h1 he.symm
    · exact h2 he.symm
    · exact h3 he.symm

/-- Witness for C16: the first ten octets of the example advertisement. -/
theorem short_adp_buffer_witness :
    (decode_adp (adp_example.take 10)).fault = some .BoundsError
      ∧ tree_shape (decode_adp (adp_example.take 10)).state.nodes
          = [(.root, hf_adp_message_type), (.root, hf_adp_valid_time),
             (.root, hf_adp_cd_length)]
      ∧ field_of (decode_adp (adp_example.take 10)).state.nodes hf_adp_entity_guid = none :=
  ⟨(short_adp_buffer (adp_example.take 10) (by decide) (by decide)).1,
    (short_adp_buffer (adp_example.take 10) (by decide) (by decide)).2.1,
    (short_adp_buffer (adp_example.take 10) (by decide) (by decide)).2.2.2
      hf_adp_entity_guid (by decide) (by decide) (by decide) (by decide)⟩

/-! ## C17, C18: summary columns and registered subtypes -/

/-- The ADP dissector leaves the summary columns alone and only appends nodes. -/
theorem dissect_17221_adp_state (tvb : tvbuff_t) (tree : Option proto_node_ref)
    (s : dissect_state) :
    ∃ added, (dissect_17221_adp tvb tree s).state = ⟨s.cinfo, s.nodes ++ added⟩ := by
  cases tree with
  | none => exact ⟨[], by simp [dissect_17221_adp_null, pure_apply, Result.state]⟩
  | some t =>
    rw [dissect_17221_adp_run]
    split
    · exact ⟨_, rfl⟩
    · exact ⟨_, rfl⟩

/-- The ACMP dissector leaves the summary columns alone and only appends nodes. -/
theorem dissect_17221_acmp_state (tvb : tvbuff_t) (tree : Option proto_node_ref)
    (s : dissect_state) :
    ∃ added, (dissect_17221_acmp tvb tree s).state = ⟨s.cinfo, s.nodes ++ added⟩ := by
  cases tree with
  | none => exact ⟨[], by simp [dissect_17221_acmp_null, pure_apply, Result.state]⟩
  | some t =>
    rw [dissect_17221_acmp_run]
    split
    · exact ⟨_, rfl⟩
    · exact ⟨_, rfl⟩

/-- The state the dispatcher ends in on a non-empty buffer. -/
theorem dissect_17221_state (tvb : tvbuff_t) (hne : tvb ≠ []) (tree : Option proto_node_ref)
    (s : dissect_state) :
    ∃ added, (dissect_17221 tvb tree s).state =
      ⟨⟨some "IEEE1722-1",
          some (if octet tvb 0 &&& 0x7F = 0x7A then "AVDECC Discovery Protocol"
            else if octet tvb 0 &&& 0x7F = 0x7B then "AVDECC Enumeration and Control Protocol"
            else if octet tvb 0 &&& 0x7F = 0x7C then "AVDECC Connection Management Protocol"
            else "1722.1 Unknown")⟩,
        s.nodes ++ added⟩ := by
  rw [dissect_17221_nonempty tvb hne]
  split
  · obtain ⟨added, h⟩ := dissect_17221_adp_state tvb tree
      ⟨⟨some "IEEE1722-1", some "AVDECC Discovery Protocol"⟩, s.nodes⟩
    exact ⟨added, h⟩
  · split
    · exact ⟨[], by simp [Result.state]⟩
    · split
      · obtain ⟨added, h⟩ := dissect_17221_acmp_state tvb tree
          ⟨⟨some "IEEE1722-1", some "AVDECC Connection Management Protocol"⟩, s.nodes⟩
        exact ⟨added, h⟩
      · exact ⟨[], by simp [Result.state]⟩

/-- C17. Summary labels.  On every non-empty buffer, whether the decode then
returns or raises, the dispatcher leaves the protocol column set to
`IEEE1722-1` and the info column set to a text fixed by the first octet masked
with `0x7F`: `AVDECC Discovery Protocol` for `0x7A`, `AVDECC Enumeration and
Control Protocol` for `0x7B`, `AVDECC Connection Management Protocol` for `0x7C`
and `1722.1 Unknown` otherwise.  Apart from the two columns the state changes
only by nodes appended to the tree. -/
theorem summary_labels (tvb : tvbuff_t) (hne : tvb ≠ []) (tree : Option proto_node_ref)
    (s : dissect_state) :
    (dissect_17221 tvb tree s).state.cinfo.col_protocol = some "IEEE1722-1"
      ∧ (octet tvb 0 &&& 0x7F = 0x7A →
          (dissect_17221 tvb tree s).state.cinfo.col_info = some "AVDECC Discovery Protocol")
      ∧ (octet tvb 0 &&& 0x7F = 0x7B →
          (dissect_17221 tvb tree s).state.cinfo.col_info
            = some "AVDECC Enumeration and Control Protocol")
      ∧ (octet tvb 0 &&& 0x7F = 0x7C →
          (dissect_17221 tvb tree s).state.cinfo.col_info
            = some "AVDECC Connection Management Protocol")
      ∧ (octet tvb 0 &&& 0x7F ≠ 0x7A → octet tvb 0 &&& 0x7F ≠ 0x7B →
          octet tvb 0 &&& 0x7F ≠ 0x7C →
          (dissect_17221 tvb tree s).state.cinfo.col_info = some "1722.1 Unknown")
      ∧ (∀ (tvb2 : tvbuff_t) (tree2 : Option proto_node_ref) (s2 : dissect_state),
          tvb2 ≠ [] → octet tvb2 0 &&& 0x7F = octet tvb 0 &&& 0x7F →
          (dissect_17221 tvb2 tree2 s2).state.cinfo = (dissect_17221 tvb tree s).state.cinfo)
      ∧ (∃ added, (dissect_17221 tvb tree s).state.nodes = s.nodes ++ added) := by
  obtain ⟨added, h⟩ := dissect_17221_state tvb hne tree s
  rw [h]
  refine ⟨rfl, fun hd => ?_, fun hd => ?_, fun hd => ?_, fun h1 h2 h3 => ?_,
    fun tvb2 tree2 s2 hne2 hd => ?_, ⟨added, rfl⟩⟩
  · simp only [hd, if_true]
  · simp only [hd]
    rfl
  · simp only [hd]
    rfl
  · simp only [h1, h2, h3, if_false]
  · obtain ⟨added2, h2⟩ := dissect_17221_state tvb2 hne2 tree2 s2
    rw [h2, hd]

/-- Witness for C17: the example advertisement. -/
theorem summary_labels_witness :
    (dissect_17221 adp_example (some .root) empty_state).state.cinfo.col_protocol
        = some "IEEE1722-1"
      ∧ (dissect_17221 adp_example (some .root) empty_state).state.cinfo.col_info
        = some "AVDECC Discovery Protocol" :=
  ⟨(summary_labels adp_example (by decide) (some .root) empty_state).1,
    (summary_labels adp_example (by decide) (some .root) empty_state).2.1 (by decide)⟩

theorem registered_subtypes_eq : registered_subtypes = [0x7A, 0x7B, 0x7C] := by decide

/-- C18. Registered subtypes are exactly the handled ones.  The hand-off routine
registers `dissect_17221` for the subtype values `0x7A`, `0x7B`, `0x7C` and no
others.  On a non-empty buffer the dispatcher ends with the summary
`1722.1 Unknown`, the text of its default branch, exactly when the first octet
masked with `0x7F` is not one of the registered values. -/
theorem registered_subtypes_are_handled (tvb : tvbuff_t) (hne : tvb ≠ [])
    (tree : Option proto_node_ref) (s : dissect_state) :
    registered_subtypes = [0x7A, 0x7B, 0x7C]
      ∧ (octet tvb 0 &&& 0x7F ∈ registered_subtypes →
          (dissect_17221 tvb tree s).state.cinfo.col_info ≠ some "1722.1 Unknown")
      ∧ (octet tvb 0 &&& 0x7F ∉ registered_subtypes →
          dissect_17221 tvb tree s
            = .ok () ⟨⟨some "IEEE1722-1", some "1722.1 Unknown"⟩, s.nodes⟩) := by
  refine ⟨registered_subtypes_eq, fun hin => ?_, fun hout => ?_⟩
  · obtain ⟨added, h⟩ := dissect_17221_state tvb hne tree s
    rw [h]
    rw [registered_subtypes_eq] at hin
    simp only [List.mem_cons, List.mem_singleton, List.not_mem_nil, or_false] at hin
    rcases hin with hd | hd | hd <;> simp only [hd] <;> decide
  · rw [registered_subtypes_eq] at hout
    simp only [List.mem_cons, List.mem_singleton, List.not_mem_nil, or_false, not_or] at hout
    rw [dissect_17221_nonempty tvb hne, if_neg hout.1, if_neg hout.2.1, if_neg hout.2.2]

/-- Witness for C18: a buffer starting with `0x7B` is handled, one starting with
`0x00` takes the default branch. -/
theorem registered_subtypes_are_handled_witness :
    (dissect_17221 [0x7B, 0, 0, 0] (some .root) empty_state).state.cinfo.col_info
        ≠ some "1722.1 Unknown"
      ∧ dissect_17221 [0x00, 0, 0, 0] (some .root) empty_state
        = .ok () ⟨⟨some "IEEE1722-1", some "1722.1 Unknown"⟩, empty_state.nodes⟩ :=
  ⟨(registered_subtypes_are_handled [0x7B, 0, 0, 0] (by decide) (some .root)
      empty_state).2.1 (by decide),
    (registered_subtypes_are_handled [0x00, 0, 0, 0] (by decide) (some .root)
      empty_state).2.2 (by decide)⟩

/-! ## C19: value-table lookup -/

/-- `match_strval` is first-match lookup among the entries before the
terminating entry, for any table. -/
theorem match_strval_eq_enum_lookup (c : Nat) (t : List value_string) :
    match_strval c t = enum_lookup (enum_entries t) c := by
  induction t with
  | nil => rfl
  | cons e t ih =>
    obtain ⟨v, sp⟩ := e
    cases sp with
    | none => rfl
    | some s =>
      simp only [match_strval, enum_entries, enum_lookup, List.find?_cons]
      by_cases hv : v = c
      · simp [hv]
      · simp only [hv, if_false, decide_False]
        exact ih

theorem enum_lookup_eq_none_iff (es : List (Nat × String)) (c : Nat) :
    enum_lookup es c = none ↔ ∀ p ∈ es, p.1 ≠ c := by
  unfold enum_lookup
  rw [Option.map_eq_none', List.find?_eq_none]
  simp

theorem enum_lookup_eq_some_iff (es : List (Nat × String)) (c : Nat) (s : String) :
    enum_lookup es c = some s ↔
      ∃ l1 l2, es = l1 ++ (c, s) :: l2 ∧ ∀ p ∈ l1, p.1 ≠ c := by
  unfold enum_lookup
  constructor
  · intro h
    obtain ⟨p, hp, hps⟩ := Option.map_eq_some'.1 h
    obtain ⟨hpc, l1, l2, hes, hl1⟩ := List.find?_eq_some.1 hp
    refine ⟨l1, l2, ?_, fun q hq => by simpa using hl1 q hq⟩
    obtain ⟨a, b⟩ := p
    simp only [decide_eq_true_eq] at hpc
    simp only at hps
    rw [hes, hpc, hps]
  · rintro ⟨l1, l2, hes, hl1⟩
    rw [Option.map_eq_some']
    refine ⟨(c, s), List.find?_eq_some.2 ⟨by simp, l1, l2, hes, fun q hq => ?_⟩, rfl⟩
    simpa using hl1 q hq

theorem program_tables_sentinel :
    ∀ t ∈ [adp_message_type_vals, acmp_message_type_vals, acmp_status_field_vals,
        avb_bool_vals],
      t = (enum_entries t).map (fun p => (⟨p.1, some p.2⟩ : value_string)) ++ [⟨0, none⟩] := by
  decide

theorem enum_entries_with_sentinel (es : List (Nat × String)) :
    enum_entries (es.map (fun p => (⟨p.1, some p.2⟩ : value_string)) ++ [⟨0, none⟩]) = es := by
  induction es with
  | nil => rfl
  | cons p es ih =>
    obtain ⟨a, b⟩ := p
    show (a, b) :: enum_entries
      (es.map (fun p => (⟨p.1, some p.2⟩ : value_string)) ++ [⟨0, none⟩]) = (a, b) :: es
    rw [ih]

/-- C19. Enum resolution is total and first-match.  For every value table `t`,
in particular the four of the program, and every code `c`, `match_strval`
returns a result, and it is first-match lookup of `c` among the entries of `t`
that come before the terminating entry: it returns `s` exactly when `(c, s)` is
such an entry and no earlier entry has code `c`, and it returns no label exactly
when no such entry has code `c`.  The terminating `{0, NULL}` entry is not an
entry of the lookup: a table made of entries followed by it resolves like the
entries alone, so code 0 gets a label only from an entry of its own, as it does
in each of the four tables of the program. -/
theorem enum_resolution_first_match (t : List value_string) (c : Nat) :
    match_strval c t = enum_lookup (enum_entries t) c
      ∧ (∀ s, match_strval c t = some s ↔
          ∃ l1 l2, enum_entries t = l1 ++ (c, s) :: l2 ∧ ∀ p ∈ l1, p.1 ≠ c)
      ∧ (match_strval c t = none ↔ ∀ p ∈ enum_entries t, p.1 ≠ c)
      ∧ (∀ es : List (Nat × String),
          match_strval c (es.map (fun p => (⟨p.1, some p.2⟩ : value_string)) ++ [⟨0, none⟩])
            = enum_lookup es c)
      ∧ (∀ t1 ∈ [adp_message_type_vals, acmp_message_type_vals, acmp_status_field_vals,
            avb_bool_vals],
          t1 = (enum_entries t1).map (fun p => (⟨p.1, some p.2⟩ : value_string))
            ++ [⟨0, none⟩])
      ∧ match_strval 0 adp_message_type_vals = some "ENTITY_AVAILABLE"
      ∧ match_strval 0 acmp_message_type_vals = some "CONNECT_TX_COMMAND"
      ∧ match_strval 0 acmp_status_field_vals = some "SUCCESS"
      ∧ match_strval 0 avb_bool_vals = some "False" := by
  refine ⟨match_strval_eq_enum_lookup c t, fun s => ?_, ?_, fun es => ?_,
    program_tables_sentinel, rfl, rfl, rfl, rfl⟩
  · rw [match_strval_eq_enum_lookup]
    exact enum_lookup_eq_some_iff _ c s
  · rw [match_strval_eq_enum_lookup]
    exact enum_lookup_eq_none_iff _ c
  · rw [match_strval_eq_enum_lookup, enum_entries_with_sentinel]

/-- Witness for C19: in a table whose only entry before the terminating
`{0, NULL}` has code 1, code 0 has no label; in the status table code 31 has the
label of its entry. -/
theorem enum_resolution_first_match_witness :
    match_strval 0 [⟨1, some "True"⟩, ⟨0, none⟩] = none
      ∧ match_strval 31 acmp_status_field_vals = some "NOT_SUPPORTED" :=
  ⟨((enum_resolution_first_match [⟨1, some "True"⟩, ⟨0, none⟩] 0).2.2.1).2 (by decide),
    ((enum_resolution_first_match acmp_status_field_vals 31).2.1 "NOT_SUPPORTED").2
      ⟨(enum_entries acmp_status_field_vals).take 16, [], by decide, by decide⟩⟩

/-! ## C20: declaration order -/

set_option maxRecDepth 100000 in
theorem preorder_facts :
    preorder (adp_calls.map (call_shape .root 0)) = hf.take 70
      ∧ (adp_calls.map (call_shape .root 0)).map (fun p => p.2) = hf.take 70
      ∧ preorder (acmp_calls.map (call_shape .root 0)) = hf.drop 70
      ∧ (acmp_calls.map (call_shape .root 0)).map (fun p => p.2) = hf.drop 70
      ∧ hf.length = 88
      ∧ hf[69]? = some hf_adp_entity_type
      ∧ hf[70]? = some hf_acmp_message_type := by
  decide

/-- C20. Output follows declaration order.  The registration array has 88
entries: the 70 ADP fields, ending with Entity Type, then the 18 ACMP fields,
starting with Message Type.  On every buffer of at least 68 octets the
pre-order traversal of the ADP tree lists exactly the first 70 entries of the
array in their order, flags of every group included, and so does the order in
which the nodes were created; on every buffer of at least 56 octets the same
holds for the ACMP tree and the last 18 entries. -/
theorem output_follows_declaration_order (tvb : tvbuff_t) :
    (68 ≤ tvb.length →
        preorder (tree_shape (decode_adp tvb).state.nodes) = hf.take 70
          ∧ (tree_shape (decode_adp tvb).state.nodes).map (fun p => p.2) = hf.take 70)
      ∧ (56 ≤ tvb.length →
        preorder (tree_shape (decode_acmp tvb).state.nodes) = hf.drop 70
          ∧ (tree_shape (decode_acmp tvb).state.nodes).map (fun p => p.2) = hf.drop 70)
      ∧ hf.length = 88
      ∧ hf[69]? = some hf_adp_entity_type
      ∧ hf[70]? = some hf_acmp_message_type := by
  obtain ⟨h1, h2, h3, h4, h5, h6, h7⟩ := preorder_facts
  refine ⟨fun h => ?_, fun h => ?_, h5, h6, h7⟩
  · rw [decode_adp_shape tvb h]
    exact ⟨h1, h2⟩
  · rw [decode_acmp_shape tvb h]
    exact ⟨h3, h4⟩

/-- Witness for C20: the two example messages. -/
theorem output_follows_declaration_order_witness :
    preorder (tree_shape (decode_adp adp_example).state.nodes) = hf.take 70
      ∧ preorder (tree_shape (decode_acmp acmp_example).state.nodes) = hf.drop 70 :=
  ⟨((output_follows_declaration_order adp_example).1 (by decide)).1,
    ((output_follows_declaration_order acmp_example).2.1 (by decide)).1⟩

/-! ## C21: nothing is carried from one run to the next -/

theorem node_of_relocate (tvb : tvbuff_t) (k : Nat) :
    node_of tvb .root k = fun c => (node_of tvb .root 0 c).relocate k := by
  funext c
  unfold node_of proto_node.relocate call_parent
  cases c.parent <;> simp [proto_node_ref.relocate]

theorem dissect_17221_adp_relocate (tvb : tvbuff_t) (s : dissect_state) :
    (dissect_17221_adp tvb (some .root) s).state.nodes
      = s.nodes ++ (decode_adp tvb).state.nodes.map (proto_node.relocate s.nodes.length) := by
  unfold decode_adp
  rw [adp_nodes, adp_nodes, node_of_relocate tvb s.nodes.length]
  simp [empty_state, List.map_map, Function.comp_def]

theorem dissect_17221_acmp_relocate (tvb : tvbuff_t) (s : dissect_state) :
    (dissect_17221_acmp tvb (some .root) s).state.nodes
      = s.nodes ++ (decode_acmp tvb).state.nodes.map (proto_node.relocate s.nodes.length) := by
  unfold decode_acmp
  rw [acmp_nodes, acmp_nodes, node_of_relocate tvb s.nodes.length]
  simp [empty_state, List.map_map, Function.comp_def]

/-- On the empty buffer the dispatcher raises before it writes anything. -/
theorem dissect_17221_nil (tree : Option proto_node_ref) (s : dissect_state) :
    dissect_17221 [] tree s = .thrown .BoundsError s := rfl

/-- The dispatcher on a state left by earlier work: the fault is that of a
fresh run, and the nodes appended are those of a fresh run, moved to the end
of the arena. -/
theorem dissect_17221_relocate (tvb : tvbuff_t) (s : dissect_state) :
    (dissect_17221 tvb (some .root) s).fault = (dispatch tvb).fault
      ∧ (dissect_17221 tvb (some .root) s).state.nodes
          = s.nodes ++ (dispatch tvb).state.nodes.map (proto_node.relocate s.nodes.length) := by
  unfold dispatch
  by_cases hne : tvb = []
  · subst hne
    simp [dissect_17221_nil, Result.fault, Result.state, empty_state]
  · rw [dissect_17221_nonempty tvb hne, dissect_17221_nonempty tvb hne]
    by_cases h1 : octet tvb 0 &&& 0x7F = 0x7A
    · simp only [if_pos h1]
      refine ⟨by rw [adp_fault, adp_fault], ?_⟩
      have h := dissect_17221_adp_relocate tvb
        ⟨⟨some "IEEE1722-1", some "AVDECC Discovery Protocol"⟩, s.nodes⟩
      have h0 := dissect_17221_adp_relocate tvb
        ⟨⟨some "IEEE1722-1", some "AVDECC Discovery Protocol"⟩, empty_state.nodes⟩
      rw [h, h0]
      simp [empty_state, List.map_map, Function.comp_def, proto_node.relocate,
        proto_node_ref.relocate]
      intro n _
      cases n.parent <;> simp [proto_node_ref.relocate]
    · simp only [if_neg h1]
      by_cases h2 : octet tvb 0 &&& 0x7F = 0x7B
      · simp [if_pos h2, Result.fault, Result.state, empty_state]
      · simp only [if_neg h2]
        by_cases h3 : octet tvb 0 &&& 0x7F = 0x7C
        · simp only [if_pos h3]
          refine ⟨by rw [acmp_fault, acmp_fault], ?_⟩
          have h := dissect_17221_acmp_relocate tvb
            ⟨⟨some "IEEE1722-1", some "AVDECC Connection Management Protocol"⟩, s.nodes⟩
          have h0 := dissect_17221_acmp_relocate tvb
            ⟨⟨some "IEEE1722-1", some "AVDECC Connection Management Protocol"⟩,
              empty_state.nodes⟩
          rw [h, h0]
          simp [empty_state, List.map_map, Function.comp_def, proto_node.relocate,
            proto_node_ref.relocate]
          intro n _
          cases n.parent <;> simp [proto_node_ref.relocate]
        · simp [if_neg h3, Result.fault, Result.state, empty_state]

/-- On a non-empty buffer the dispatcher overwrites both summary columns. -/
theorem dissect_17221_cinfo (tvb : tvbuff_t) (hne : tvb ≠ []) (s : dissect_state) :
    (dissect_17221 tvb (some .root) s).state.cinfo = (dispatch tvb).state.cinfo := by
  obtain ⟨_, h⟩ := dissect_17221_state tvb hne (some .root) s
  obtain ⟨_, h0⟩ := dissect_17221_state tvb hne (some .root) empty_state
  unfold dispatch
  rw [h, h0]

/-- On a non-empty buffer and a new tree, the columns handed in do not matter. -/
theorem dissect_17221_stale_columns (tvb : tvbuff_t) (hne : tvb ≠ []) (c : column_info) :
    dissect_17221 tvb (some .root) ⟨c, []⟩ = dispatch tvb := by
  unfold dispatch
  rw [dissect_17221_nonempty tvb hne, dissect_17221_nonempty tvb hne]
  rfl

/-- C21. Idempotence, no hidden state.  The dispatcher keeps nothing between
calls: its outcome is a function of the buffer and of the columns and tree
handed in.  For all buffers `a` and `b`: a run on `b` with new columns and a
new tree is `dispatch b`, whatever ran before; on a new tree and the columns
left by the run on `a`, a non-empty `b` again gives exactly `dispatch b`; and
even when the run on `b` continues on the very state the run on `a` left, it
has the fault of `dispatch b`, appends after the nodes of `a` exactly the nodes
of `dispatch b` (parent references moved by the number of earlier nodes, so
every field, byte range and value is the same) and, when `b` is non-empty,
leaves the columns of `dispatch b`.  On the empty buffer the run raises before
writing anything and returns the state handed in.  In particular decoding the
same buffer a second time appends a copy of the first tree. -/
theorem no_hidden_state (a b : tvbuff_t) :
    dissect_17221 b (some .root) empty_state = dispatch b
      ∧ (b ≠ [] → dissect_17221 b (some .root) ⟨(dispatch a).state.cinfo, []⟩ = dispatch b)
      ∧ (dissect_17221 b (some .root) (dispatch a).state).fault = (dispatch b).fault
      ∧ (dissect_17221 b (some .root) (dispatch a).state).state.nodes
          = (dispatch a).state.nodes
            ++ (dispatch b).state.nodes.map
                (proto_node.relocate (dispatch a).state.nodes.length)
      ∧ ((dissect_17221 b (some .root) (dispatch a).state).state.nodes.drop
              (dispatch a).state.nodes.length).map (fun n => n.finfo)
          = (dispatch b).state.nodes.map (fun n => n.finfo)
      ∧ (b ≠ [] →
          (dissect_17221 b (some .root) (dispatch a).state).state.cinfo
            = (dispatch b).state.cinfo)
      ∧ (b = [] →
          (dissect_17221 b (some .root) (dispatch a).state).state = (dispatch a).state)
      ∧ (dissect_17221 b (some .root) (dispatch b).state).state.nodes
          = (dispatch b).state.nodes
            ++ (dispatch b).state.nodes.map
                (proto_node.relocate (dispatch b).state.nodes.length) := by
  refine ⟨rfl, fun hne => dissect_17221_stale_columns b hne _,
    (dissect_17221_relocate b _).1, (dissect_17221_relocate b _).2, ?_,
    fun hne => dissect_17221_cinfo b hne _, ?_, (dissect_17221_relocate b _).2⟩
  · rw [(dissect_17221_relocate b _).2, List.drop_left, List.map_map]
    rfl
  · rintro rfl
    rfl

theorem no_hidden_state_witness :
    (dissect_17221 acmp_example (some .root) (dispatch adp_example).state).fault
        = (dispatch acmp_example).fault
      ∧ (dissect_17221 acmp_example (some .root) (dispatch adp_example).state).state.cinfo
        = (dispatch acmp_example).state.cinfo
      ∧ dissect_17221 acmp_example (some .root) ⟨(dispatch adp_example).state.cinfo, []⟩
        = dispatch acmp_example :=
  ⟨(no_hidden_state adp_example acmp_example).2.2.1,
    (no_hidden_state adp_example acmp_example).2.2.2.2.2.1 (by decide),
    (no_hidden_state adp_example acmp_example).2.1 (by decide)⟩

/-! ## C22: the message-type and status masks of ACMP -/

/-- The Message Type node of a complete ACMP decode. -/
theorem decode_acmp_message_type (tvb : tvbuff_t) (h : 56 ≤ tvb.length) :
    field_of (decode_acmp tvb).state.nodes hf_acmp_message_type
      = some ⟨hf_acmp_message_type, 1, 1, .uinteger (be_uint (slice tvb 1 1) &&& 0x0f)⟩ := by
  rw [decode_acmp_nodes tvb h]
  exact field_of_masked acmp_calls tvb .root 0
    ⟨none, hf_acmp_message_type, ACMP_VERSION_OFFSET, 1⟩
    (by decide) (by decide) (by decide) (by decide) (by show 1 + 1 ≤ _; omega)

/-- Counterexample for C22: the two masks have bit 3 in common, so their
bitwise AND is `0x08` and not zero. -/
theorem acmp_masks_overlap :
    ACMP_MSG_TYPE_MASK &&& ACMP_STATUS_FIELD_MASK = 0x08
      ∧ hf_acmp_message_type.bitmask &&& hf_acmp_status_field.bitmask ≠ 0
      ∧ ACMP_MSG_TYPE_MASK.testBit 3 = true
      ∧ ACMP_STATUS_FIELD_MASK.testBit 3 = true := by
  decide

/-- C22 as amended.  The message-type mask `0x0f` (bits 0 to 3) and the
status-field mask `0xf8` (bits 3 to 7) have bit 3 in common: their bitwise AND
is `0x08`.  They are applied to different octets: on buffers of at least 56
octets the Message Type is octet 1 under `0x0f` and the Status Field is octet 2
under `0xf8`, so the Message Type is the same for two buffers with the same
octet 1 and the Status Field is the same for two buffers with the same octet 2;
no bit of the buffer contributes to both. -/
theorem acmp_masks_apply_to_different_octets (tvb tvb2 : tvbuff_t) (h : 56 ≤ tvb.length)
    (h2 : 56 ≤ tvb2.length) :
    ACMP_MSG_TYPE_MASK &&& ACMP_STATUS_FIELD_MASK = 0x08
      ∧ set_bits hf_acmp_message_type.bitmask = [0, 1, 2, 3]
      ∧ set_bits hf_acmp_status_field.bitmask = [3, 4, 5, 6, 7]
      ∧ field_of (decode_acmp tvb).state.nodes hf_acmp_message_type
          = some ⟨hf_acmp_message_type, 1, 1, .uinteger (be_uint (slice tvb 1 1) &&& 0x0f)⟩
      ∧ field_of (decode_acmp tvb).state.nodes hf_acmp_status_field
          = some ⟨hf_acmp_status_field, 2, 1,
              .uinteger ((be_uint (slice tvb 2 1) &&& 0xf8) >>> 3)⟩
      ∧ (tvb2[1]? = tvb[1]? →
          field_of (decode_acmp tvb2).state.nodes hf_acmp_message_type
            = field_of (decode_acmp tvb).state.nodes hf_acmp_message_type)
      ∧ (tvb2[2]? = tvb[2]? →
          field_of (decode_acmp tvb2).state.nodes hf_acmp_status_field
            = field_of (decode_acmp tvb).state.nodes hf_acmp_status_field) := by
  refine ⟨by decide, by decide, by decide, decode_acmp_message_type tvb h,
    decode_acmp_status_field tvb h, fun heq => ?_, fun heq => ?_⟩
  · have hb : tvb[1]? = some tvb[1] := List.getElem?_eq_getElem (by omega)
    rw [decode_acmp_message_type tvb h, decode_acmp_message_type tvb2 h2,
      be_uint_slice_one tvb 1 _ hb, be_uint_slice_one tvb2 1 _ (heq.trans hb)]
  · have hb : tvb[2]? = some tvb[2] := List.getElem?_eq_getElem (by omega)
    rw [decode_acmp_status_field tvb h, decode_acmp_status_field tvb2 h2,
      be_uint_slice_one tvb 2 _ hb, be_uint_slice_one tvb2 2 _ (heq.trans hb)]

/-- Witness for C22 as amended: two messages that differ in octet 2 only have
the same Message Type, 7, and the Status Fields 0 and 31. -/
theorem acmp_masks_apply_to_different_octets_witness :
    field_of (decode_acmp acmp_status_example).state.nodes hf_acmp_message_type
        = field_of (decode_acmp acmp_example).state.nodes hf_acmp_message_type
      ∧ field_of (decode_acmp acmp_example).state.nodes hf_acmp_message_type
        = some ⟨hf_acmp_message_type, 1, 1,
            .uinteger (be_uint (slice acmp_example 1 1) &&& 0x0f)⟩ :=
  ⟨(acmp_masks_apply_to_different_octets acmp_example acmp_status_example
      (by decide) (by decide)).2.2.2.2.2.1 (by decide),
    (acmp_masks_apply_to_different_octets acmp_example acmp_status_example
      (by decide) (by decide)).2.2.2.1⟩

/-! ## C23: the value that is looked up -/

set_option maxRecDepth 100000 in
theorem enum_call_facts :
    ∀ c ∈ adp_calls ++ acmp_calls, c.hf.strings.isSome = true →
      (c.hf.type = .FT_UINT8 ∨ c.hf.type = .FT_UINT16 ∨ c.hf.type = .FT_UINT32)
        ∧ (c.length = 1 ∨ c.length = 2 ∨ c.length = 3 ∨ c.length = 4)
        ∧ c.hf.bitmask ≠ 0
        ∧ c.hf.bitmask.testBit (wrs_count_bitshift c.hf.bitmask) = true
        ∧ c.hf.bitmask % 2 ^ wrs_count_bitshift c.hf.bitmask = 0 := by
  decide

/-- The value a call with a value table stores, and its label. -/
theorem enum_call_label (tvb : tvbuff_t) (c : item_call) (hc : c ∈ adp_calls ++ acmp_calls)
    (t : List value_string) (ht : c.hf.strings = some t)
    (hfit : c.start + c.length ≤ tvb.length) :
    call_value tvb c
        = .uinteger ((be_uint (slice tvb c.start c.length) &&& c.hf.bitmask)
            >>> wrs_count_bitshift c.hf.bitmask)
      ∧ resolved_label ⟨c.hf, c.start, c.length, call_value tvb c⟩
        = match_strval ((be_uint (slice tvb c.start c.length) &&& c.hf.bitmask)
            >>> wrs_count_bitshift c.hf.bitmask) t := by
  obtain ⟨hty, hlen, hmask, -, -⟩ := enum_call_facts c hc (by rw [ht]; rfl)
  have hv : call_value tvb c
      = .uinteger ((be_uint (slice tvb c.start c.length) &&& c.hf.bitmask)
          >>> wrs_count_bitshift c.hf.bitmask) := by
    have hset : proto_tree_set_uint c.hf (uint_raw tvb c.start c.length)
        = (be_uint (slice tvb c.start c.length) &&& c.hf.bitmask)
            >>> wrs_count_bitshift c.hf.bitmask := by
      unfold proto_tree_set_uint
      rw [if_pos hmask, uint_raw_eq_be tvb _ _ hlen hfit]
    rcases hty with hty | hty | hty <;> simp only [call_value, hty, hset]
  refine ⟨hv, ?_⟩
  rw [hv]
  simp only [resolved_label, ht]

theorem match_strval_isSome_iff (c : Nat) (t : List value_string) :
    (match_strval c t).isSome = true ↔ ∃ p ∈ enum_entries t, p.1 = c := by
  rw [match_strval_eq_enum_lookup, ← Option.ne_none_iff_isSome, Ne,
    enum_lookup_eq_none_iff]
  push_neg
  rfl

/-- Counterexample for C23: a Status Field whose masked, unshifted octet is
`0xf8`, not a code of the status table, is labelled NOT_SUPPORTED; a
`ZERO_CONF` flag whose masked, unshifted word is 2, not a code of the boolean
table, is labelled True. -/
theorem enum_lookup_not_on_masked_value :
    field_of (decode_acmp acmp_status_example).state.nodes hf_acmp_status_field
        = some ⟨hf_acmp_status_field, 2, 1, .uinteger 31⟩
      ∧ be_uint (slice acmp_status_example 2 1) &&& hf_acmp_status_field.bitmask = 0xf8
      ∧ match_strval 0xf8 acmp_status_field_vals = none
      ∧ resolved_label ⟨hf_acmp_status_field, 2, 1, .uinteger 31⟩ = some "NOT_SUPPORTED"
      ∧ field_of (decode_adp adp_zero_conf_example).state.nodes hf_adp_entity_cap_zero_conf
        = some ⟨hf_adp_entity_cap_zero_conf, 20, 4, .uinteger 1⟩
      ∧ be_uint (slice adp_zero_conf_example 20 4) &&& hf_adp_entity_cap_zero_conf.bitmask = 2
      ∧ match_strval 2 avb_bool_vals = none
      ∧ resolved_label ⟨hf_adp_entity_cap_zero_conf, 20, 4, .uinteger 1⟩ = some "True" := by
  decide

/-- C23 as amended.  Enum lookup uses the masked value shifted down to the
lowest set bit of the mask.  For every call of either dissector whose field has
a value table (each such field has a non-zero mask) and every buffer holding the
byte range of the call, the node stores the big-endian word of the range, ANDed
with the mask and shifted right by the position of the mask's lowest set bit;
the label is the result of the table for that shifted value, so the field is
labelled exactly when the shifted value equals a code of the table.  The same
holds for every node with a value table in the tree of either decoder. -/
theorem enum_lookup_on_shifted_value (tvb : tvbuff_t) :
    (∀ c ∈ adp_calls ++ acmp_calls, ∀ t, c.hf.strings = some t →
        c.start + c.length ≤ tvb.length →
        c.hf.bitmask ≠ 0
          ∧ c.hf.bitmask.testBit (wrs_count_bitshift c.hf.bitmask) = true
          ∧ c.hf.bitmask % 2 ^ wrs_count_bitshift c.hf.bitmask = 0
          ∧ call_value tvb c
            = .uinteger ((be_uint (slice tvb c.start c.length) &&& c.hf.bitmask)
                >>> wrs_count_bitshift c.hf.bitmask)
          ∧ resolved_label ⟨c.hf, c.start, c.length, call_value tvb c⟩
            = match_strval ((be_uint (slice tvb c.start c.length) &&& c.hf.bitmask)
                >>> wrs_count_bitshift c.hf.bitmask) t
          ∧ ((resolved_label ⟨c.hf, c.start, c.length, call_value tvb c⟩).isSome = true ↔
              ∃ p ∈ enum_entries t,
                p.1 = (be_uint (slice tvb c.start c.length) &&& c.hf.bitmask)
                  >>> wrs_count_bitshift c.hf.bitmask))
      ∧ (∀ n ∈ (decode_adp tvb).state.nodes ++ (decode_acmp tvb).state.nodes,
          ∀ t, n.finfo.hfinfo.strings = some t →
            n.finfo.value
                = .uinteger ((be_uint (slice tvb n.finfo.start n.finfo.length)
                    &&& n.finfo.hfinfo.bitmask) >>> wrs_count_bitshift n.finfo.hfinfo.bitmask)
              ∧ resolved_label n.finfo
                = match_strval ((be_uint (slice tvb n.finfo.start n.finfo.length)
                    &&& n.finfo.hfinfo.bitmask) >>> wrs_count_bitshift n.finfo.hfinfo.bitmask)
                    t) := by
  constructor
  · intro c hc t ht hfit
    obtain ⟨-, -, hmask, hbit, hlow⟩ := enum_call_facts c hc (by rw [ht]; rfl)
    obtain ⟨hv, hl⟩ := enum_call_label tvb c hc t ht hfit
    refine ⟨hmask, hbit, hlow, hv, hl, ?_⟩
    rw [hl, match_strval_isSome_iff]
  · intro n hn t ht
    rcases List.mem_append.1 hn with hn | hn
    · obtain ⟨c, hc, hfit, rfl⟩ := mem_decode_adp tvb n hn
      exact enum_call_label tvb c (List.mem_append_left _ hc) t ht hfit
    · obtain ⟨c, hc, hfit, rfl⟩ := mem_decode_acmp tvb n hn
      exact enum_call_label tvb c (List.mem_append_right _ hc) t ht hfit

/-- Witness for C23 as amended: the Status Field call on a message whose octet 2
is `0xf8` looks up 31. -/
theorem enum_lookup_on_shifted_value_witness :
    resolved_label ⟨hf_acmp_status_field, 2, 1,
        call_value acmp_status_example ⟨none, hf_acmp_status_field, 2, 1⟩⟩
      = match_strval ((be_uint (slice acmp_status_example 2 1) &&& 0xf8) >>> 3)
          acmp_status_field_vals :=
  ((enum_lookup_on_shifted_value acmp_status_example).1
    ⟨none, hf_acmp_status_field, 2, 1⟩ (by decide) acmp_status_field_vals rfl
    (by decide)).2.2.2.2.1

/-! ## C24: codes of the value tables -/

/-- C24. Enum codes are unique.  In each of the four value tables (ADP message
types, ACMP message types, ACMP status codes, boolean labels) the entries before
the terminating entry have pairwise distinct codes; these four are all the
tables the registered fields use.  The tables have 3, 14, 17 and 2 entries. -/
theorem enum_codes_unique :
    ((enum_entries adp_message_type_vals).map (fun p => p.1)).Nodup
      ∧ ((enum_entries acmp_message_type_vals).map (fun p => p.1)).Nodup
      ∧ ((enum_entries acmp_status_field_vals).map (fun p => p.1)).Nodup
      ∧ ((enum_entries avb_bool_vals).map (fun p => p.1)).Nodup
      ∧ (enum_entries adp_message_type_vals).map (fun p => p.1) = [0, 1, 2]
      ∧ (enum_entries acmp_message_type_vals).map (fun p => p.1) = List.range 14
      ∧ (enum_entries acmp_status_field_vals).map (fun p => p.1) = List.range 16 ++ [31]
      ∧ (enum_entries avb_bool_vals).map (fun p => p.1) = [1, 0]
      ∧ (∀ h ∈ hf, ∀ t, h.strings = some t →
          t ∈ [adp_message_type_vals, acmp_message_type_vals, acmp_status_field_vals,
            avb_bool_vals])
      ∧ (∀ t ∈ [adp_message_type_vals, acmp_message_type_vals, acmp_status_field_vals,
            avb_bool_vals],
          ∀ p ∈ enum_entries t, ∀ q ∈ enum_entries t, p.1 = q.1 → p = q) := by
  refine ⟨by decide, by decide, by decide, by decide, by decide, by decide, by decide,
    by decide, ?_, by decide⟩
  intro h hh t ht
  have key : ∀ h ∈ hf, h.strings = none
      ∨ h.strings.get! ∈ [adp_message_type_vals, acmp_message_type_vals,
          acmp_status_field_vals, avb_bool_vals] := by
    decide
  rcases key h hh with hk | hk
  · rw [ht] at hk
    cases hk
  · rw [ht] at hk
    exact hk

/-! ## C25: masks and read widths -/

set_option maxRecDepth 100000 in
/-- C25 on the code.  Among the calls of the two dissectors whose field has a
non-zero mask, exactly the two Control Data Length calls read fewer octets than
the mask needs: the field is registered as a 16-bit field with mask `0x07ff`,
and the call reads one octet at offset 3, while `0x07ff` is not below `2 ^ 8`.
Every other masked field is read with a width its mask fits in.  On every
complete ADP and ACMP buffer the Control Data Length therefore is the single
octet 3: the mask bits 8 to 10 select nothing. -/
theorem cd_length_mask_exceeds_read_width :
    (adp_calls.filter (fun c => decide (c.hf.bitmask ≠ 0) && !c.mask_fits)).map
          (fun c => (c.hf, c.start, c.length))
        = [(hf_adp_cd_length, 3, 1)]
      ∧ (acmp_calls.filter (fun c => decide (c.hf.bitmask ≠ 0) && !c.mask_fits)).map
          (fun c => (c.hf, c.start, c.length))
        = [(hf_acmp_cd_length, 3, 1)]
      ∧ hf_adp_cd_length.bitmask = 0x07ff ∧ hf_adp_cd_length.type = .FT_UINT16
      ∧ hf_acmp_cd_length.bitmask = 0x07ff ∧ hf_acmp_cd_length.type = .FT_UINT16
      ∧ ¬ (0x07ff < 2 ^ (8 * 1)) ∧ 0x07ff < 2 ^ (8 * 2)
      ∧ (∀ c ∈ adp_calls ++ acmp_calls, c.hf.bitmask ≠ 0 →
          c.mask_fits = true ∨ (c.hf.bitmask = 0x07ff ∧ c.start = 3 ∧ c.length = 1))
      ∧ (∀ tvb : tvbuff_t, 68 ≤ tvb.length →
          field_of (decode_adp tvb).state.nodes hf_adp_cd_length
            = some ⟨hf_adp_cd_length, 3, 1, .uinteger (be_uint (slice tvb 3 1))⟩)
      ∧ (∀ tvb : tvbuff_t, 56 ≤ tvb.length →
          field_of (decode_acmp tvb).state.nodes hf_acmp_cd_length
            = some ⟨hf_acmp_cd_length, 3, 1, .uinteger (be_uint (slice tvb 3 1))⟩) := by
  have hand : ∀ tvb : tvbuff_t, be_uint (slice tvb 3 1) &&& 0x07ff = be_uint (slice tvb 3 1) := by
    intro tvb
    have hlt := be_uint_slice_one_lt tvb 3
    have h := Nat.and_pow_two_sub_one_eq_mod (be_uint (slice tvb 3 1)) 11
    norm_num at h
    rw [h]
    omega
  refine ⟨by decide, by decide, by decide, by decide, by decide, by decide, by decide,
    by decide, by decide, fun tvb h => ?_, fun tvb h => ?_⟩
  · rw [decode_adp_cd_length tvb h, hand]
  · rw [decode_acmp_cd_length tvb h, hand]

/-! ## C26: the Max Channels sub-field -/

/-- The Max Channels node of a complete ADP decode. -/
theorem decode_adp_max_chan (tvb : tvbuff_t) (h : 68 ≤ tvb.length) :
    field_of (decode_adp tvb).state.nodes hf_adp_def_aud_max_chan
      = some ⟨hf_adp_def_aud_max_chan, 48, 2,
          .uinteger ((be_uint (slice tvb 48 2) &&& 0x03FC) >>> 2)⟩ := by
  rw [decode_adp_nodes tvb h]
  exact field_of_masked adp_calls tvb .root 0
    ⟨some 39, hf_adp_def_aud_max_chan, ADP_DEF_AUDIO_FORMAT_OFFSET, 2⟩
    (by decide) (by decide) (by decide) (by decide) (by show 48 + 2 ≤ _; omega)

theorem and_0x03FC_shift_le (w : Nat) : (w &&& 0x03FC) >>> 2 ≤ 255 := by
  have h : w &&& 0x03FC ≤ 0x03FC := Nat.and_le_right
  rw [Nat.shiftRight_eq_div_pow]
  norm_num
  omega

theorem adp_audio_format_example_length (x y : guint8) :
    (adp_audio_format_example x y).length = 68 := by
  simp [adp_audio_format_example, adp_example]

theorem adp_audio_format_example_word (x y : guint8) :
    be_uint (slice (adp_audio_format_example x y) 48 2) = x.val * 256 + y.val := by
  show (0 * 256 + x.val) * 256 + y.val = _
  omega

set_option maxRecDepth 100000 in
theorem max_chan_word_of_value :
    ∀ v, v < 256 → (((v / 64) % 256 * 256 + (v % 64 * 4) % 256) &&& 0x03FC) >>> 2 = v := by
  decide

/-- Counterexample for C26: the mask `0x03FC` has eight set bits, the bits 2 to
9; with all sixteen bits of the word at octets 48 and 49 set the Max Channels
value is 255, and no complete buffer decodes to 511. -/
theorem max_chan_not_nine_bits :
    set_bits hf_adp_def_aud_max_chan.bitmask = [2, 3, 4, 5, 6, 7, 8, 9]
      ∧ (set_bits hf_adp_def_aud_max_chan.bitmask).length = 8
      ∧ field_of (decode_adp (adp_audio_format_example 0xff 0xff)).state.nodes
          hf_adp_def_aud_max_chan
        = some ⟨hf_adp_def_aud_max_chan, 48, 2, .uinteger 255⟩
      ∧ ¬ ∃ tvb : tvbuff_t, 68 ≤ tvb.length
          ∧ field_of (decode_adp tvb).state.nodes hf_adp_def_aud_max_chan
            = some ⟨hf_adp_def_aud_max_chan, 48, 2, .uinteger 511⟩ := by
  refine ⟨by decide, by decide, by decide, ?_⟩
  rintro ⟨tvb, h, hv⟩
  rw [decode_adp_max_chan tvb h] at hv
  have hle := and_0x03FC_shift_le (be_uint (slice tvb 48 2))
  simp only [Option.some.injEq, field_info.mk.injEq, fvalue_t.uinteger.injEq, true_and] at hv
  omega

/-- C26 as amended.  Max Channels is an 8-bit sub-field: the mask `0x03FC` of
the field has exactly eight set bits, the bits 2 to 9 of the 16-bit word at
octets 48 and 49.  On every buffer of at least 68 octets the decoded value is
that word ANDed with the mask and shifted right by two, a value in 0..255, and
every value in 0..255 is decoded from some buffer of 68 octets. -/
theorem max_chan_is_eight_bits (v : Nat) (hv : v ≤ 255) :
    ADP_DEF_AUDIO_MAX_CHANS_MASK = 0x03FC
      ∧ set_bits hf_adp_def_aud_max_chan.bitmask = [2, 3, 4, 5, 6, 7, 8, 9]
      ∧ (set_bits hf_adp_def_aud_max_chan.bitmask).length = 8
      ∧ (∀ tvb : tvbuff_t, 68 ≤ tvb.length →
          field_of (decode_adp tvb).state.nodes hf_adp_def_aud_max_chan
              = some ⟨hf_adp_def_aud_max_chan, 48, 2,
                  .uinteger ((be_uint (slice tvb 48 2) &&& 0x03FC) >>> 2)⟩
            ∧ (be_uint (slice tvb 48 2) &&& 0x03FC) >>> 2 ≤ 255)
      ∧ (adp_audio_format_example (Fin.ofNat (v / 64)) (Fin.ofNat (v % 64 * 4))).length = 68
      ∧ field_of (decode_adp
            (adp_audio_format_example (Fin.ofNat (v / 64)) (Fin.ofNat (v % 64 * 4)))).state.nodes
          hf_adp_def_aud_max_chan
        = some ⟨hf_adp_def_aud_max_chan, 48, 2, .uinteger v⟩ := by
  refine ⟨rfl, by decide, by decide,
    fun tvb h => ⟨decode_adp_max_chan tvb h, and_0x03FC_shift_le _⟩,
    adp_audio_format_example_length _ _, ?_⟩
  rw [decode_adp_max_chan _ (by rw [adp_audio_format_example_length]),
    adp_audio_format_example_word]
  have hval : (Fin.ofNat (v / 64) : guint8).val * 256 + (Fin.ofNat (v % 64 * 4) : guint8).val
      = (v / 64) % 256 * 256 + (v % 64 * 4) % 256 := rfl
  rw [hval, max_chan_word_of_value v (by omega)]

/-- Witness for C26 as amended: the value 200 is decoded from the example
advertisement with octets 48 and 49 set to `0x03` and `0x20`. -/
theorem max_chan_is_eight_bits_witness :
    field_of (decode_adp
          (adp_audio_format_example (Fin.ofNat (200 / 64)) (Fin.ofNat (200 % 64 * 4)))).state.nodes
        hf_adp_def_aud_max_chan
      = some ⟨hf_adp_def_aud_max_chan, 48, 2, .uinteger 200⟩ :=
  (max_chan_is_eight_bits 200 (by decide)).2.2.2.2.2

/-! ## C27: the Channel Formats group -/

set_option maxRecDepth 100000 in
theorem chan_format_facts :
    children_of (adp_calls.map (call_shape .root 0)) hf_adp_def_aud_chan_formats
        = [hf_adp_chan_format_mono, hf_adp_chan_format_2ch, hf_adp_chan_format_3ch,
           hf_adp_chan_format_4ch, hf_adp_chan_format_5ch, hf_adp_chan_format_6ch,
           hf_adp_chan_format_7ch, hf_adp_chan_format_8ch, hf_adp_chan_format_10ch,
           hf_adp_chan_format_12ch, hf_adp_chan_format_14ch, hf_adp_chan_format_16ch,
           hf_adp_chan_format_18ch, hf_adp_chan_format_20ch, hf_adp_chan_format_22ch,
           hf_adp_chan_format_24ch]
      ∧ (children_of (adp_calls.map (call_shape .root 0)) hf_adp_def_aud_chan_formats).length
        = 16
      ∧ (children_of (adp_calls.map (call_shape .root 0)) hf_adp_def_aud_chan_formats).map
          (fun h => h.name)
        = ["MONO", "2_CH", "3_CH", "4_CH", "5_CH", "6_CH", "7_CH", "8_CH", "10_CH", "12_CH",
           "14_CH", "16_CH", "18_CH", "20_CH", "22_CH", "24_CH"]
      ∧ (children_of (adp_calls.map (call_shape .root 0)) hf_adp_def_aud_chan_formats).map
          (fun h => h.bitmask)
        = (List.range 16).map (fun i => 2 ^ i)
      ∧ (∀ h ∈ children_of (adp_calls.map (call_shape .root 0)) hf_adp_def_aud_chan_formats,
          h.strings = some avb_bool_vals
            ∧ ∃ c, adp_calls.find? (fun d => decide (d.hf = h)) = some c
                ∧ c.hf = h ∧ c.start = 50 ∧ c.length = 2) := by
  decide

/-- Counterexample for C27: in the tree of the example advertisement the Channel
Formats group has 16 flags, not 15. -/
theorem chan_format_group_not_15 :
    68 ≤ adp_example.length
      ∧ (children_of (tree_shape (decode_adp adp_example).state.nodes)
          hf_adp_def_aud_chan_formats).length = 16 := by
  decide

/-- C27 as amended.  Channel-format group size: for every buffer of length at
least 68, the Channel Formats group of the ADP tree (2-byte word at offset 50)
contains exactly 16 named channel-count flags: MONO, 2 to 8 channels, and 10 to
24 channels in steps of two, with the masks `2 ^ 0` to `2 ^ 15` in that order.
Every flag has a node covering the word at offset 50 and uses the boolean
table. -/
theorem chan_format_group_size (tvb : tvbuff_t) (h : 68 ≤ tvb.length) :
    field_of (decode_adp tvb).state.nodes hf_adp_def_aud_chan_formats
        = some ⟨hf_adp_def_aud_chan_formats, 50, 2, .uinteger (be_uint (slice tvb 50 2))⟩
      ∧ children_of (tree_shape (decode_adp tvb).state.nodes) hf_adp_def_aud_chan_formats
        = [hf_adp_chan_format_mono, hf_adp_chan_format_2ch, hf_adp_chan_format_3ch,
           hf_adp_chan_format_4ch, hf_adp_chan_format_5ch, hf_adp_chan_format_6ch,
           hf_adp_chan_format_7ch, hf_adp_chan_format_8ch, hf_adp_chan_format_10ch,
           hf_adp_chan_format_12ch, hf_adp_chan_format_14ch, hf_adp_chan_format_16ch,
           hf_adp_chan_format_18ch, hf_adp_chan_format_20ch, hf_adp_chan_format_22ch,
           hf_adp_chan_format_24ch]
      ∧ (children_of (tree_shape (decode_adp tvb).state.nodes)
          hf_adp_def_aud_chan_formats).length = 16
      ∧ (children_of (tree_shape (decode_adp tvb).state.nodes)
          hf_adp_def_aud_chan_formats).map (fun h => h.name)
        = ["MONO", "2_CH", "3_CH", "4_CH", "5_CH", "6_CH", "7_CH", "8_CH", "10_CH", "12_CH",
           "14_CH", "16_CH", "18_CH", "20_CH", "22_CH", "24_CH"]
      ∧ (children_of (tree_shape (decode_adp tvb).state.nodes)
          hf_adp_def_aud_chan_formats).map (fun h => h.bitmask)
        = (List.range 16).map (fun i => 2 ^ i)
      ∧ (∀ g ∈ children_of (tree_shape (decode_adp tvb).state.nodes)
            hf_adp_def_aud_chan_formats,
          g.strings = some avb_bool_vals
            ∧ ∃ v, field_of (decode_adp tvb).state.nodes g = some ⟨g, 50, 2, v⟩) := by
  obtain ⟨h1, h2, h3, h4, h5⟩ := chan_format_facts
  rw [decode_adp_shape tvb h]
  refine ⟨?_, h1, h2, h3, h4, fun g hg => ?_⟩
  · rw [decode_adp_nodes tvb h]
    exact field_of_uint adp_calls tvb .root 0
      ⟨some 39, hf_adp_def_aud_chan_formats, ADP_CHAN_FORMAT_OFFSET, 2⟩
      (by decide) (by decide) rfl (by decide) (by show 50 + 2 ≤ _; omega)
  · obtain ⟨hs, c, hfind, hc, hst, hlen⟩ := h5 g hg
    refine ⟨hs, call_value tvb c, ?_⟩
    rw [decode_adp_nodes tvb h, field_of_map_node_of, hfind, Option.map_some', hc, hst, hlen]

/-- Witness for C27 as amended, on the example advertisement. -/
theorem chan_format_group_size_witness :
    (children_of (tree_shape (decode_adp adp_example).state.nodes)
        hf_adp_def_aud_chan_formats).length = 16 :=
  (chan_format_group_size adp_example (by decide)).2.2.1

/-! ## C28: byte ranges of the fields -/

theorem tree_layout_map_node_of (cs : List item_call) (tvb : tvbuff_t) (tree : proto_node_ref)
    (base : Nat) :
    tree_layout (cs.map (node_of tvb tree base))
      = cs.map (fun c => (call_parent tree base c, c.start, c.length)) := by
  unfold tree_layout
  rw [List.map_map]
  rfl

set_option maxRecDepth 100000 in
theorem adp_layout_facts :
    top_level_ranges (adp_calls.map (fun c => (call_parent .root 0 c, c.start, c.length)))
        = [(1, 1), (2, 1), (3, 1), (4, 8), (12, 4), (16, 4), (20, 4), (24, 2), (26, 2),
           (28, 2), (30, 2), (32, 4), (36, 4), (40, 8), (48, 4), (52, 4), (56, 8), (64, 4)]
      ∧ tiles_from 1
          (top_level_ranges (adp_calls.map (fun c => (call_parent .root 0 c, c.start, c.length))))
        = some 68
      ∧ nested_in_parent (adp_calls.map (fun c => (call_parent .root 0 c, c.start, c.length)))
        = true
      ∧ (∀ p ∈ adp_calls.map (fun c => (call_parent .root 0 c, c.start, c.length)),
          1 ≤ p.2.1 ∧ p.2.1 + p.2.2 ≤ 68)
      ∧ top_level (adp_calls.map (call_shape .root 0))
        = (hf.take 70).filter
            (fun h => decide (h ∈ top_level (adp_calls.map (call_shape .root 0)))) := by
  decide

set_option maxRecDepth 100000 in
theorem acmp_layout_facts :
    top_level_ranges (acmp_calls.map (fun c => (call_parent .root 0 c, c.start, c.length)))
        = [(1, 1), (2, 1), (3, 1), (4, 8), (12, 8), (20, 8), (28, 8), (36, 2), (38, 2),
           (40, 6), (46, 2), (48, 2), (50, 2), (52, 4)]
      ∧ tiles_from 1
          (top_level_ranges
            (acmp_calls.map (fun c => (call_parent .root 0 c, c.start, c.length))))
        = some 56
      ∧ nested_in_parent (acmp_calls.map (fun c => (call_parent .root 0 c, c.start, c.length)))
        = true
      ∧ (∀ p ∈ acmp_calls.map (fun c => (call_parent .root 0 c, c.start, c.length)),
          1 ≤ p.2.1 ∧ p.2.1 + p.2.2 ≤ 56)
      ∧ top_level (acmp_calls.map (call_shape .root 0))
        = (hf.drop 70).filter
            (fun h => decide (h ∈ top_level (acmp_calls.map (call_shape .root 0)))) := by
  decide

/-- The dispatcher tells buffers apart by their first octet alone. -/
theorem dispatch_reads_octet_0 (rest : tvbuff_t) :
    (dispatch (0x7B :: rest)).state.cinfo.col_info
        = some "AVDECC Enumeration and Control Protocol"
      ∧ (dispatch (0x00 :: rest)).state.cinfo.col_info = some "1722.1 Unknown" := by
  unfold dispatch
  rw [dissect_17221_nonempty _ (by simp), dissect_17221_nonempty _ (by simp),
    octet_cons_zero, octet_cons_zero, if_neg (by decide), if_pos (by decide),
    if_neg (by decide), if_neg (by decide), if_neg (by decide)]
  exact ⟨rfl, rfl⟩

/-- C28. Top-level fields tile the payload.  On every ADP buffer of at least 68
octets the nodes attached to the root, which come in declaration order, have
byte ranges that follow one another without gap or overlap from offset 1 to
offset 67; on every ACMP buffer of at least 56 octets likewise from offset 1 to
offset 55.  Every node attached to a group item lies within the byte range of
that item.  No node of either tree covers octet 0, and neither decoder depends
on octet 0, which the dispatcher reads to choose the summary text. -/
theorem top_level_fields_tile_payload (adp acmp : tvbuff_t) (h1 : 68 ≤ adp.length)
    (h2 : 56 ≤ acmp.length) :
    top_level_ranges (tree_layout (decode_adp adp).state.nodes)
        = [(1, 1), (2, 1), (3, 1), (4, 8), (12, 4), (16, 4), (20, 4), (24, 2), (26, 2),
           (28, 2), (30, 2), (32, 4), (36, 4), (40, 8), (48, 4), (52, 4), (56, 8), (64, 4)]
      ∧ tiles_from 1 (top_level_ranges (tree_layout (decode_adp adp).state.nodes)) = some 68
      ∧ top_level (tree_shape (decode_adp adp).state.nodes)
        = (hf.take 70).filter
            (fun h => decide (h ∈ top_level (tree_shape (decode_adp adp).state.nodes)))
      ∧ nested_in_parent (tree_layout (decode_adp adp).state.nodes) = true
      ∧ (∀ p ∈ tree_layout (decode_adp adp).state.nodes, 1 ≤ p.2.1 ∧ p.2.1 + p.2.2 ≤ 68)
      ∧ top_level_ranges (tree_layout (decode_acmp acmp).state.nodes)
        = [(1, 1), (2, 1), (3, 1), (4, 8), (12, 8), (20, 8), (28, 8), (36, 2), (38, 2),
           (40, 6), (46, 2), (48, 2), (50, 2), (52, 4)]
      ∧ tiles_from 1 (top_level_ranges (tree_layout (decode_acmp acmp).state.nodes)) = some 56
      ∧ top_level (tree_shape (decode_acmp acmp).state.nodes)
        = (hf.drop 70).filter
            (fun h => decide (h ∈ top_level (tree_shape (decode_acmp acmp).state.nodes)))
      ∧ nested_in_parent (tree_layout (decode_acmp acmp).state.nodes) = true
      ∧ (∀ p ∈ tree_layout (decode_acmp acmp).state.nodes, 1 ≤ p.2.1 ∧ p.2.1 + p.2.2 ≤ 56)
      ∧ (∀ (a b : guint8) (rest : tvbuff_t),
          decode_adp (a :: rest) = decode_adp (b :: rest)
            ∧ decode_acmp (a :: rest) = decode_acmp (b :: rest))
      ∧ (∀ rest : tvbuff_t,
          (dispatch (0x7B :: rest)).state.cinfo.col_info
              = some "AVDECC Enumeration and Control Protocol"
            ∧ (dispatch (0x00 :: rest)).state.cinfo.col_info = some "1722.1 Unknown") := by
  obtain ⟨a1, a2, a3, a4, a5⟩ := adp_layout_facts
  obtain ⟨c1, c2, c3, c4, c5⟩ := acmp_layout_facts
  rw [decode_adp_shape adp h1, decode_acmp_shape acmp h2, decode_adp_nodes adp h1,
    decode_acmp_nodes acmp h2, tree_layout_map_node_of, tree_layout_map_node_of]
  exact ⟨a1, a2, a5, a3, a4, c1, c2, c5, c3, c4,
    fun a b rest => ⟨dissect_17221_adp_cons a b rest _ _, dissect_17221_acmp_cons a b rest _ _⟩,
    dispatch_reads_octet_0⟩

/-- Witness for C28 on the two example buffers. -/
theorem top_level_fields_tile_payload_witness :
    tiles_from 1 (top_level_ranges (tree_layout (decode_adp adp_example).state.nodes))
        = some 68
      ∧ tiles_from 1 (top_level_ranges (tree_layout (decode_acmp acmp_example).state.nodes))
        = some 56 :=
  ⟨(top_level_fields_tile_payload adp_example acmp_example (by decide) (by decide)).2.1,
    (top_level_fields_tile_payload adp_example acmp_example (by decide)
      (by decide)).2.2.2.2.2.2.1⟩

/-! ## C29: the 16-bit word of the default audio format -/

theorem shiftRight_and (a b k : Nat) : (a &&& b) >>> k = a >>> k &&& b >>> k := by
  apply Nat.eq_of_testBit_eq
  intro i
  simp only [Nat.testBit_shiftRight, Nat.testBit_and]

/-- The Sample Rates node of a complete ADP decode. -/
theorem decode_adp_sample_rates (tvb : tvbuff_t) (h : 68 ≤ tvb.length) :
    field_of (decode_adp tvb).state.nodes hf_adp_def_aud_sample_rates
      = some ⟨hf_adp_def_aud_sample_rates, 48, 1,
          .uinteger ((be_uint (slice tvb 48 1) &&& 0xFC) >>> 2)⟩ := by
  rw [decode_adp_nodes tvb h]
  exact field_of_masked adp_calls tvb .root 0
    ⟨some 39, hf_adp_def_aud_sample_rates, ADP_DEF_AUDIO_FORMAT_OFFSET, 1⟩
    (by decide) (by decide) (by decide) (by decide) (by show 48 + 1 ≤ _; omega)

/-- The saf node of a complete ADP decode. -/
theorem decode_adp_saf (tvb : tvbuff_t) (h : 68 ≤ tvb.length) :
    field_of (decode_adp tvb).state.nodes hf_adp_def_aud_saf_flag
      = some ⟨hf_adp_def_aud_saf_flag, 48, 2,
          .uinteger ((be_uint (slice tvb 48 2) &&& 0x0002) >>> 1)⟩ := by
  rw [decode_adp_nodes tvb h]
  exact field_of_masked adp_calls tvb .root 0
    ⟨some 39, hf_adp_def_aud_saf_flag, ADP_DEF_AUDIO_FORMAT_OFFSET, 2⟩
    (by decide) (by decide) (by decide) (by decide) (by show 48 + 2 ≤ _; omega)

/-- The float node of a complete ADP decode. -/
theorem decode_adp_float (tvb : tvbuff_t) (h : 68 ≤ tvb.length) :
    field_of (decode_adp tvb).state.nodes hf_adp_def_aud_float_flag
      = some ⟨hf_adp_def_aud_float_flag, 48, 2,
          .uinteger ((be_uint (slice tvb 48 2) &&& 0x0001) >>> 0)⟩ := by
  rw [decode_adp_nodes tvb h]
  exact field_of_masked adp_calls tvb .root 0
    ⟨some 39, hf_adp_def_aud_float_flag, ADP_DEF_AUDIO_FORMAT_OFFSET, 2⟩
    (by decide) (by decide) (by decide) (by decide) (by show 48 + 2 ≤ _; omega)

theorem be_uint_slice_two (tvb : tvbuff_t) (i : Nat) (h : i + 2 ≤ tvb.length) :
    be_uint (slice tvb i 2) = be_uint (slice tvb i 1) * 256 + be_uint (slice tvb (i + 1) 1) := by
  rw [slice_succ tvb i 1 (by omega), slice_succ tvb (i + 1) 0 (by omega),
    slice_succ tvb i 0 (by omega)]
  simp [slice, be_uint]

/-- The four sub-fields of a 16-bit word whose high octet is `x`. -/
theorem audio_word_split (x y : Nat) (hx : x < 256) :
    (x &&& 0xFC) >>> 2 = x / 4
      ∧ ((x * 256 + y) &&& 0x03FC) >>> 2 = (x * 256 + y) / 4 % 256
      ∧ ((x * 256 + y) &&& 0x0002) >>> 1 = (x * 256 + y) / 2 % 2
      ∧ ((x * 256 + y) &&& 0x0001) >>> 0 = (x * 256 + y) % 2 := by
  have e1 : (0xFC : Nat) >>> 2 = 2 ^ 6 - 1 := by decide
  have e2 : (0x03FC : Nat) >>> 2 = 2 ^ 8 - 1 := by decide
  have e3 : (0x0002 : Nat) >>> 1 = 2 ^ 1 - 1 := by decide
  have e4 : (0x0001 : Nat) >>> 0 = 2 ^ 1 - 1 := by decide
  refine ⟨?_, ?_, ?_, ?_⟩
  · rw [shiftRight_and, e1, Nat.and_pow_two_sub_one_eq_mod, Nat.shiftRight_eq_div_pow]
    norm_num
    omega
  · rw [shiftRight_and, e2, Nat.and_pow_two_sub_one_eq_mod, Nat.shiftRight_eq_div_pow]
  · rw [shiftRight_and, e3, Nat.and_pow_two_sub_one_eq_mod, Nat.shiftRight_eq_div_pow]
  · rw [shiftRight_and, e4, Nat.and_pow_two_sub_one_eq_mod, Nat.shiftRight_eq_div_pow]
    norm_num

/-- C29. The audio-format sub-fields partition the 16-bit word at octets 48 and
49.  On every buffer of at least 68 octets, with `w` the big-endian word of
octets 48 and 49: the Sample Rates node holds `r`, octet 48 under mask `0xFC`
shifted down two bits; Max Channels holds `m`, `w` under `0x03FC` shifted down
two bits; saf holds `s`, `w` under `0x0002` shifted down one bit; float holds
`f`, `w` under `0x0001`; and `w = r * 1024 + m * 4 + s * 2 + f` with `r ≤ 63`,
`m ≤ 255`, `s ≤ 1`, `f ≤ 1`.  Placed in the word (the Sample Rates mask belongs
to the high octet) the four masks are pairwise disjoint and together cover all
16 bits. -/
theorem audio_format_word_partition (tvb : tvbuff_t) (h : 68 ≤ tvb.length) :
    field_of (decode_adp tvb).state.nodes hf_adp_def_aud_sample_rates
        = some ⟨hf_adp_def_aud_sample_rates, 48, 1,
            .uinteger ((be_uint (slice tvb 48 1) &&& 0xFC) >>> 2)⟩
      ∧ field_of (decode_adp tvb).state.nodes hf_adp_def_aud_max_chan
        = some ⟨hf_adp_def_aud_max_chan, 48, 2,
            .uinteger ((be_uint (slice tvb 48 2) &&& 0x03FC) >>> 2)⟩
      ∧ field_of (decode_adp tvb).state.nodes hf_adp_def_aud_saf_flag
        = some ⟨hf_adp_def_aud_saf_flag, 48, 2,
            .uinteger ((be_uint (slice tvb 48 2) &&& 0x0002) >>> 1)⟩
      ∧ field_of (decode_adp tvb).state.nodes hf_adp_def_aud_float_flag
        = some ⟨hf_adp_def_aud_float_flag, 48, 2,
            .uinteger ((be_uint (slice tvb 48 2) &&& 0x0001) >>> 0)⟩
      ∧ be_uint (slice tvb 48 2)
        = ((be_uint (slice tvb 48 1) &&& 0xFC) >>> 2) * 1024
          + ((be_uint (slice tvb 48 2) &&& 0x03FC) >>> 2) * 4
          + ((be_uint (slice tvb 48 2) &&& 0x0002) >>> 1) * 2
          + ((be_uint (slice tvb 48 2) &&& 0x0001) >>> 0)
      ∧ (be_uint (slice tvb 48 1) &&& 0xFC) >>> 2 ≤ 63
      ∧ (be_uint (slice tvb 48 2) &&& 0x03FC) >>> 2 ≤ 255
      ∧ (be_uint (slice tvb 48 2) &&& 0x0002) >>> 1 ≤ 1
      ∧ (be_uint (slice tvb 48 2) &&& 0x0001) >>> 0 ≤ 1
      ∧ [hf_adp_def_aud_sample_rates.bitmask, hf_adp_def_aud_max_chan.bitmask,
          hf_adp_def_aud_saf_flag.bitmask, hf_adp_def_aud_float_flag.bitmask]
        = [0xFC, 0x03FC, 0x0002, 0x0001]
      ∧ (ADP_DEF_AUDIO_SAMPLE_RATES_MASK <<< 8) &&& ADP_DEF_AUDIO_MAX_CHANS_MASK = 0
      ∧ (ADP_DEF_AUDIO_SAMPLE_RATES_MASK <<< 8) &&& ADP_DEF_AUDIO_SAF_MASK = 0
      ∧ (ADP_DEF_AUDIO_SAMPLE_RATES_MASK <<< 8) &&& ADP_DEF_AUDIO_FLOAT_MASK = 0
      ∧ ADP_DEF_AUDIO_MAX_CHANS_MASK &&& ADP_DEF_AUDIO_SAF_MASK = 0
      ∧ ADP_DEF_AUDIO_MAX_CHANS_MASK &&& ADP_DEF_AUDIO_FLOAT_MASK = 0
      ∧ ADP_DEF_AUDIO_SAF_MASK &&& ADP_DEF_AUDIO_FLOAT_MASK = 0
      ∧ (ADP_DEF_AUDIO_SAMPLE_RATES_MASK <<< 8) ||| ADP_DEF_AUDIO_MAX_CHANS_MASK
          ||| ADP_DEF_AUDIO_SAF_MASK ||| ADP_DEF_AUDIO_FLOAT_MASK = 0xFFFF := by
  have hx := be_uint_slice_one_lt tvb 48
  have hy := be_uint_slice_one_lt tvb (48 + 1)
  have hw := be_uint_slice_two tvb 48 (by omega)
  obtain ⟨s1, s2, s3, s4⟩ := audio_word_split _ (be_uint (slice tvb (48 + 1) 1)) hx
  rw [← hw] at s2 s3 s4
  refine ⟨decode_adp_sample_rates tvb h, decode_adp_max_chan tvb h, decode_adp_saf tvb h,
    decode_adp_float tvb h, ?_, ?_, ?_, ?_, ?_, by decide, by decide, by decide, by decide,
    by decide, by decide, by decide, by decide⟩
  · rw [s1, s2, s3, s4]
    omega
  · rw [s1]; omega
  · rw [s2]; omega
  · rw [s3]; omega
  · rw [s4]; omega

/-- Witness for C29: the word `0xFFFF` splits into 63, 255, 1 and 1. -/
theorem audio_format_word_partition_witness :
    be_uint (slice (adp_audio_format_example 0xff 0xff) 48 2)
      = ((be_uint (slice (adp_audio_format_example 0xff 0xff) 48 1) &&& 0xFC) >>> 2) * 1024
        + ((be_uint (slice (adp_audio_format_example 0xff 0xff) 48 2) &&& 0x03FC) >>> 2) * 4
        + ((be_uint (slice (adp_audio_format_example 0xff 0xff) 48 2) &&& 0x0002) >>> 1) * 2
        + ((be_uint (slice (adp_audio_format_example 0xff 0xff) 48 2) &&& 0x0001) >>> 0) :=
  (audio_format_word_partition (adp_audio_format_example 0xff 0xff) (by decide)).2.2.2.2.1

/-! ## C30: the sample-rate flags -/

set_option maxRecDepth 100000 in
theorem samp_rate_call_facts :
    ∀ i, i < 6 →
      ∃ c ∈ adp_calls,
        [hf_adp_samp_rate_44k1, hf_adp_samp_rate_48k, hf_adp_samp_rate_88k2,
          hf_adp_samp_rate_96k, hf_adp_samp_rate_176k4, hf_adp_samp_rate_192k][i]? = some c.hf
        ∧ adp_calls.find? (fun d => decide (d.hf = c.hf)) = some c
        ∧ c.hf.strings = some avb_bool_vals
        ∧ c.hf.bitmask = 2 ^ (2 + i)
        ∧ c.start = 48 ∧ c.length = 1
        ∧ (0xFC : Nat).testBit (2 + i) = true := by
  decide

/-- C30. Sample-rate flags agree with their parent.  The six rate flags have
the masks `0x04`, `0x08`, `0x10`, `0x20`, `0x40` and `0x80`, pairwise disjoint
and with union `0xFC`, the mask of Sample Rates.  On every buffer of at least
68 octets, with `r` the value of the Sample Rates node, the `i`-th rate flag
(44.1kHz, 48kHz, 88.2kHz, 96kHz, 176.4kHz, 192kHz, for `i` from 0 to 5) has a
node on octet 48 that is labelled True exactly when bit `i` of `r` is set and
False exactly when it is clear. -/
theorem sample_rate_flags_agree (tvb : tvbuff_t) (h : 68 ≤ tvb.length) :
    [hf_adp_samp_rate_44k1, hf_adp_samp_rate_48k, hf_adp_samp_rate_88k2,
        hf_adp_samp_rate_96k, hf_adp_samp_rate_176k4, hf_adp_samp_rate_192k].map
          (fun g => g.bitmask)
        = [0x04, 0x08, 0x10, 0x20, 0x40, 0x80]
      ∧ [hf_adp_samp_rate_44k1, hf_adp_samp_rate_48k, hf_adp_samp_rate_88k2,
        hf_adp_samp_rate_96k, hf_adp_samp_rate_176k4, hf_adp_samp_rate_192k].map
          (fun g => g.name)
        = ["44.1kHz", "48kHz", "88.2kHz", "96kHz", "176.4kHz", "192kHz"]
      ∧ (∀ i, i < 6 → ∀ j, j < 6 → i ≠ j →
          [0x04, 0x08, 0x10, 0x20, 0x40, 0x80].getD i 0
            &&& [0x04, 0x08, 0x10, 0x20, 0x40, 0x80].getD j 0 = 0)
      ∧ 0x04 ||| 0x08 ||| 0x10 ||| 0x20 ||| 0x40 ||| 0x80 = ADP_DEF_AUDIO_SAMPLE_RATES_MASK
      ∧ field_of (decode_adp tvb).state.nodes hf_adp_def_aud_sample_rates
        = some ⟨hf_adp_def_aud_sample_rates, 48, 1,
            .uinteger ((be_uint (slice tvb 48 1) &&& 0xFC) >>> 2)⟩
      ∧ (∀ i, i < 6 → ∃ g fi,
          [hf_adp_samp_rate_44k1, hf_adp_samp_rate_48k, hf_adp_samp_rate_88k2,
            hf_adp_samp_rate_96k, hf_adp_samp_rate_176k4, hf_adp_samp_rate_192k][i]? = some g
          ∧ field_of (decode_adp tvb).state.nodes g = some fi
          ∧ fi.hfinfo = g ∧ fi.start = 48 ∧ fi.length = 1
          ∧ (resolved_label fi = some "True" ↔
              (((be_uint (slice tvb 48 1) &&& 0xFC) >>> 2).testBit i = true))
          ∧ (resolved_label fi = some "False" ↔
              (((be_uint (slice tvb 48 1) &&& 0xFC) >>> 2).testBit i = false))) := by
  refine ⟨by decide, by decide, by decide, by decide, decode_adp_sample_rates tvb h,
    fun i hi => ?_⟩
  obtain ⟨c, hc, hg, hfind, hb, hmask, hst, hlen, hbit⟩ := samp_rate_call_facts i hi
  have hfit : c.start + c.length ≤ tvb.length := by rw [hst, hlen]; omega
  have hlab := flag_call_label tvb c (List.mem_append_left _ hc) hb hfit
  rw [hst, hlen, hmask] at hlab
  have hr : ((be_uint (slice tvb 48 1) &&& 0xFC) >>> 2).testBit i
      = (be_uint (slice tvb 48 1)).testBit (2 + i) := by
    rw [Nat.testBit_shiftRight, Nat.testBit_and, hbit, Bool.and_true]
  refine ⟨c.hf, ⟨c.hf, c.start, c.length, call_value tvb c⟩, hg, ?_, rfl, hst, hlen, ?_, ?_⟩
  · rw [decode_adp_nodes tvb h, field_of_map_node_of, hfind, Option.map_some']
  · rw [hst, hlen, hlab, hr]
    by_cases h0 : be_uint (slice tvb 48 1) &&& 2 ^ (2 + i) = 0
    · rw [if_pos h0, (and_two_pow_eq_zero_iff _ _).1 h0]
      simp
    · rw [if_neg h0]
      have : (be_uint (slice tvb 48 1)).testBit (2 + i) = true := by
        cases hb1 : (be_uint (slice tvb 48 1)).testBit (2 + i) with
        | false => exact absurd ((and_two_pow_eq_zero_iff _ _).2 hb1) h0
        | true => rfl
      simp [this]
  · rw [hst, hlen, hlab, hr]
    by_cases h0 : be_uint (slice tvb 48 1) &&& 2 ^ (2 + i) = 0
    · rw [if_pos h0, (and_two_pow_eq_zero_iff _ _).1 h0]
      simp
    · rw [if_neg h0]
      have : (be_uint (slice tvb 48 1)).testBit (2 + i) = true := by
        cases hb1 : (be_uint (slice tvb 48 1)).testBit (2 + i) with
        | false => exact absurd ((and_two_pow_eq_zero_iff _ _).2 hb1) h0
        | true => rfl
      simp [this]

/-- Witness for C30: with octet 48 equal to `0x08` only the 48kHz flag, for bit 1
of the Sample Rates value 2, is True. -/
theorem sample_rate_flags_agree_witness :
    field_of (decode_adp (adp_audio_format_example 0x08 0x00)).state.nodes
        hf_adp_def_aud_sample_rates
      = some ⟨hf_adp_def_aud_sample_rates, 48, 1,
          .uinteger ((be_uint (slice (adp_audio_format_example 0x08 0x00) 48 1) &&& 0xFC)
            >>> 2)⟩ :=
  (sample_rate_flags_agree (adp_audio_format_example 0x08 0x00) (by decide)).2.2.2.2.1

/-! ## C31: flag masks -/

set_option maxRecDepth 100000 in
theorem flag_mask_facts :
    (∀ h ∈ hf, h.strings = some avb_bool_vals →
        (set_bits h.bitmask).length = 1 ∧ ∃ k, k < 16 ∧ h.bitmask = 2 ^ k)
      ∧ (∀ g ∈ [hf_adp_entity_cap, hf_adp_talker_cap, hf_adp_listener_cap,
            hf_adp_controller_cap, hf_adp_def_aud_sample_rates, hf_adp_def_aud_chan_formats],
          (∀ h ∈ children_of (adp_calls.map (call_shape .root 0)) g,
              h.strings = some avb_bool_vals)
            ∧ ((children_of (adp_calls.map (call_shape .root 0)) g).map
                (fun h => h.bitmask)).Nodup
            ∧ ∀ i, i < 32 →
                ((children_of (adp_calls.map (call_shape .root 0)) g).filter
                  (fun h => h.bitmask.testBit i)).length ≤ 1)
      ∧ (∀ h ∈ children_of (acmp_calls.map (call_shape .root 0)) hf_acmp_flags,
          h.strings = some avb_bool_vals)
      ∧ ((children_of (acmp_calls.map (call_shape .root 0)) hf_acmp_flags).map
          (fun h => h.bitmask)).Nodup
      ∧ (∀ i, i < 32 →
          ((children_of (acmp_calls.map (call_shape .root 0)) hf_acmp_flags).filter
            (fun h => h.bitmask.testBit i)).length ≤ 1)
      ∧ [hf_adp_entity_cap, hf_adp_talker_cap, hf_adp_listener_cap,
            hf_adp_controller_cap, hf_adp_def_aud_sample_rates,
            hf_adp_def_aud_chan_formats].map
          (fun g => (children_of (adp_calls.map (call_shape .root 0)) g).length)
        = [7, 8, 8, 2, 6, 16]
      ∧ (children_of (acmp_calls.map (call_shape .root 0)) hf_acmp_flags).length = 4 := by
  decide

/-- A flag call stores 0 or 1. -/
theorem flag_call_value (tvb : tvbuff_t) (c : item_call) (hc : c ∈ adp_calls ++ acmp_calls)
    (hb : c.hf.strings = some avb_bool_vals) (hfit : c.start + c.length ≤ tvb.length) :
    call_value tvb c = .uinteger 0 ∨ call_value tvb c = .uinteger 1 := by
  obtain ⟨-, -, k, hk, hmask⟩ := flag_call_facts c hc hb
  rw [(enum_call_label tvb c hc avb_bool_vals hb hfit).1, hmask,
    wrs_count_bitshift_two_pow k hk, and_two_pow_shiftRight]
  cases (be_uint (slice tvb c.start c.length)).testBit k
  · exact Or.inl rfl
  · exact Or.inr rfl

/-- C31. Flag masks are single-bit and distinct within a group.  Every
registered field that uses the boolean table has a mask with exactly one set
bit, so every flag node of either tree, on any buffer, holds 0 or 1.  In each
group of flags (entity, talker, listener and controller capabilities, sample
rates, channel formats, and the ACMP flags, with 7, 8, 8, 2, 6, 16 and 4 flags)
all children use the boolean table and no two have the same mask, so for every
bit position at most one flag of the group has that bit in its mask. -/
theorem flag_masks_single_bit_and_distinct (tvb : tvbuff_t) :
    (∀ h ∈ hf, h.strings = some avb_bool_vals →
        (set_bits h.bitmask).length = 1 ∧ ∃ k, k < 16 ∧ h.bitmask = 2 ^ k)
      ∧ (∀ n ∈ (decode_adp tvb).state.nodes ++ (decode_acmp tvb).state.nodes,
          n.finfo.hfinfo.strings = some avb_bool_vals →
            n.finfo.value = .uinteger 0 ∨ n.finfo.value = .uinteger 1)
      ∧ (68 ≤ tvb.length →
          ∀ g ∈ [hf_adp_entity_cap, hf_adp_talker_cap, hf_adp_listener_cap,
              hf_adp_controller_cap, hf_adp_def_aud_sample_rates,
              hf_adp_def_aud_chan_formats],
            (∀ h ∈ children_of (tree_shape (decode_adp tvb).state.nodes) g,
                h.strings = some avb_bool_vals)
              ∧ ((children_of (tree_shape (decode_adp tvb).state.nodes) g).map
                  (fun h => h.bitmask)).Nodup
              ∧ ∀ i, i < 32 →
                  ((children_of (tree_shape (decode_adp tvb).state.nodes) g).filter
                    (fun h => h.bitmask.testBit i)).length ≤ 1)
      ∧ (56 ≤ tvb.length →
          (∀ h ∈ children_of (tree_shape (decode_acmp tvb).state.nodes) hf_acmp_flags,
              h.strings = some avb_bool_vals)
            ∧ ((children_of (tree_shape (decode_acmp tvb).state.nodes) hf_acmp_flags).map
                (fun h => h.bitmask)).Nodup
            ∧ ∀ i, i < 32 →
                ((children_of (tree_shape (decode_acmp tvb).state.nodes) hf_acmp_flags).filter
                  (fun h => h.bitmask.testBit i)).length ≤ 1)
      ∧ [hf_adp_entity_cap, hf_adp_talker_cap, hf_adp_listener_cap,
            hf_adp_controller_cap, hf_adp_def_aud_sample_rates,
            hf_adp_def_aud_chan_formats].map
          (fun g => (children_of (adp_calls.map (call_shape .root 0)) g).length)
        = [7, 8, 8, 2, 6, 16]
      ∧ (children_of (acmp_calls.map (call_shape .root 0)) hf_acmp_flags).length = 4 := by
  obtain ⟨f1, f2, f3, f4, f5, f6, f7⟩ := flag_mask_facts
  refine ⟨f1, fun n hn hb => ?_, fun h => ?_, fun h => ?_, f6, f7⟩
  · rcases List.mem_append.1 hn with hn | hn
    · obtain ⟨c, hc, hfit, rfl⟩ := mem_decode_adp tvb n hn
      exact flag_call_value tvb c (List.mem_append_left _ hc) hb hfit
    · obtain ⟨c, hc, hfit, rfl⟩ := mem_decode_acmp tvb n hn
      exact flag_call_value tvb c (List.mem_append_right _ hc) hb hfit
  · rw [decode_adp_shape tvb h]
    exact f2
  · rw [decode_acmp_shape tvb h]
    exact ⟨f3, f4, f5⟩

/-- Witness for C31 on the two example buffers. -/
theorem flag_masks_single_bit_and_distinct_witness :
    ((children_of (tree_shape (decode_adp adp_example).state.nodes)
        hf_adp_def_aud_chan_formats).map (fun h => h.bitmask)).Nodup
      ∧ ((children_of (tree_shape (decode_acmp acmp_example).state.nodes)
        hf_acmp_flags).map (fun h => h.bitmask)).Nodup :=
  ⟨((flag_masks_single_bit_and_distinct adp_example).2.2.1 (by decide)
      hf_adp_def_aud_chan_formats (by decide)).2.1,
    ((flag_masks_single_bit_and_distinct acmp_example).2.2.2.1 (by decide)).2.1⟩

/-! ## C32: octets after the last field -/

theorem adp_calls_fit_68 : ∀ c ∈ adp_calls, c.start + c.length ≤ 68 := by decide

theorem acmp_calls_fit_56 : ∀ c ∈ acmp_calls, c.start + c.length ≤ 56 := by decide

/-- A complete ADP decode is the decode of the first 68 octets. -/
theorem decode_adp_take (tvb : tvbuff_t) (h : 68 ≤ tvb.length) :
    decode_adp tvb = decode_adp (tvb.take 68) := by
  have hl : (tvb.take 68).length = 68 := by rw [List.length_take]; omega
  have hsplit : tvb = tvb.take 68 ++ tvb.drop 68 := (List.take_append_drop 68 tvb).symm
  unfold decode_adp
  rw [adp_ok tvb h, adp_ok (tvb.take 68) (by omega)]
  congr 2
  apply List.map_congr_left
  intro c hc
  conv_lhs => rw [hsplit]
  exact node_of_append _ _ _ _ c (adp_calls_wf c hc) (by rw [hl]; exact adp_calls_fit_68 c hc)

/-- A complete ACMP decode is the decode of the first 56 octets. -/
theorem decode_acmp_take (tvb : tvbuff_t) (h : 56 ≤ tvb.length) :
    decode_acmp tvb = decode_acmp (tvb.take 56) := by
  have hl : (tvb.take 56).length = 56 := by rw [List.length_take]; omega
  have hsplit : tvb = tvb.take 56 ++ tvb.drop 56 := (List.take_append_drop 56 tvb).symm
  unfold decode_acmp
  rw [acmp_ok tvb h, acmp_ok (tvb.take 56) (by omega)]
  congr 2
  apply List.map_congr_left
  intro c hc
  conv_lhs => rw [hsplit]
  exact node_of_append _ _ _ _ c (acmp_calls_wf c hc) (by rw [hl]; exact acmp_calls_fit_56 c hc)

/-- Two buffers that agree on the offsets 1 to `n` have the same first `n + 1`
octets, the first one apart. -/
theorem take_succ_of_agree (t1 t2 : tvbuff_t) (n : Nat) (h1 : n + 1 ≤ t1.length)
    (h2 : n + 1 ≤ t2.length) (hag : ∀ i, 1 ≤ i → i ≤ n → t1[i]? = t2[i]?) :
    ∃ a b rest, t1.take (n + 1) = a :: rest ∧ t2.take (n + 1) = b :: rest := by
  cases t1 with
  | nil => simp at h1
  | cons a r1 =>
    cases t2 with
    | nil => simp at h2
    | cons b r2 =>
      refine ⟨a, b, r1.take n, rfl, ?_⟩
      rw [List.take_succ_cons]
      congr 1
      apply List.ext_getElem?
      intro i
      by_cases hi : i < n
      · have := hag (i + 1) (by omega) (by omega)
        simp only [List.getElem?_cons_succ] at this
        rw [List.getElem?_take_of_lt hi, List.getElem?_take_of_lt hi, this]
      · rw [List.getElem?_eq_none (by rw [List.length_take]; omega),
          List.getElem?_eq_none (by rw [List.length_take]; omega)]

/-- C32. Trailing bytes are ignored.  Two buffers of at least 68 octets that
agree on the octets 1 to 67 have the same ADP decode (tree, fault and columns),
and two buffers of at least 56 octets that agree on the octets 1 to 55 have the
same ACMP decode.  In particular octets appended after offset 67, or 55, change
nothing, and a complete decode is the decode of the first 68, or 56, octets. -/
theorem trailing_bytes_ignored (t1 t2 : tvbuff_t) :
    (68 ≤ t1.length → 68 ≤ t2.length → (∀ i, 1 ≤ i → i ≤ 67 → t1[i]? = t2[i]?) →
        decode_adp t1 = decode_adp t2)
      ∧ (56 ≤ t1.length → 56 ≤ t2.length → (∀ i, 1 ≤ i → i ≤ 55 → t1[i]? = t2[i]?) →
        decode_acmp t1 = decode_acmp t2)
      ∧ (68 ≤ t1.length → decode_adp (t1 ++ t2) = decode_adp t1
          ∧ decode_adp t1 = decode_adp (t1.take 68))
      ∧ (56 ≤ t1.length → decode_acmp (t1 ++ t2) = decode_acmp t1
          ∧ decode_acmp t1 = decode_acmp (t1.take 56)) := by
  refine ⟨fun h1 h2 hag => ?_, fun h1 h2 hag => ?_, fun h1 => ⟨?_, decode_adp_take t1 h1⟩,
    fun h1 => ⟨?_, decode_acmp_take t1 h1⟩⟩
  · obtain ⟨a, b, rest, e1, e2⟩ := take_succ_of_agree t1 t2 67 h1 h2 hag
    rw [decode_adp_take t1 h1, decode_adp_take t2 h2, e1, e2]
    exact dissect_17221_adp_cons a b rest _ _
  · obtain ⟨a, b, rest, e1, e2⟩ := take_succ_of_agree t1 t2 55 h1 h2 hag
    rw [decode_acmp_take t1 h1, decode_acmp_take t2 h2, e1, e2]
    exact dissect_17221_acmp_cons a b rest _ _
  · rw [decode_adp_take (t1 ++ t2) (by rw [List.length_append]; omega), decode_adp_take t1 h1,
      List.take_append_of_le_length h1]
  · rw [decode_acmp_take (t1 ++ t2) (by rw [List.length_append]; omega),
      decode_acmp_take t1 h1, List.take_append_of_le_length h1]

/-- Witness for C32: the example advertisement followed by the example
connection message decodes as the advertisement alone, and so does the
advertisement with another first octet. -/
theorem trailing_bytes_ignored_witness :
    decode_adp (adp_example ++ acmp_example) = decode_adp adp_example
      ∧ decode_adp (adp_example.set 0 0x00) = decode_adp adp_example :=
  ⟨((trailing_bytes_ignored adp_example acmp_example).2.2.1 (by decide)).1,
    (trailing_bytes_ignored (adp_example.set 0 0x00) adp_example).1 (by decide) (by decide)
      (by decide)⟩

/-! ## C33: the empty buffer -/

/-- C33. Empty buffer.  On the zero-length buffer the read of octet 0 raises the
out-of-bounds exception, and the dispatcher raises it with the state it was
handed, whatever the tree and the state: on new columns and a new tree the
result has no node and neither the protocol column nor the info column is
written.  The column writes come after the read: on every one-octet buffer both
columns are written. -/
theorem empty_buffer_faults (tree : Option proto_node_ref) (s : dissect_state) :
    tvb_get_guint8 [] 0 = .error .BoundsError
      ∧ dissect_17221 [] tree s = .thrown .BoundsError s
      ∧ dispatch [] = .thrown .BoundsError empty_state
      ∧ (dispatch []).fault = some .BoundsError
      ∧ (dispatch []).state.nodes = []
      ∧ (dispatch []).state.cinfo.col_protocol = none
      ∧ (dispatch []).state.cinfo.col_info = none
      ∧ (∀ a : guint8, (dispatch [a]).state.cinfo.col_protocol = some "IEEE1722-1"
          ∧ (dispatch [a]).state.cinfo.col_info ≠ none) := by
  refine ⟨rfl, rfl, rfl, rfl, rfl, rfl, rfl, fun a => ?_⟩
  obtain ⟨added, h⟩ := dissect_17221_state [a] (by simp) (some .root) empty_state
  unfold dispatch
  rw [h]
  exact ⟨rfl, by simp⟩

/-- Witness for C33: the dispatcher on the empty buffer, without a tree and on
the state left by the example advertisement. -/
theorem empty_buffer_faults_witness :
    dissect_17221 [] none (dispatch adp_example).state
      = .thrown .BoundsError (dispatch adp_example).state :=
  (empty_buffer_faults none (dispatch adp_example).state).2.1

/-! ## C34: no node reads past the buffer -/

/-- A list with an element that fails a test splits at the first such element. -/
theorem takeWhile_split {α : Type} (p : α → Bool) (l : List α) (h : ¬ l.all p = true) :
    ∃ c post, l = l.takeWhile p ++ c :: post ∧ p c = false := by
  induction l with
  | nil => simp at h
  | cons a l ih =>
    by_cases hp : p a = true
    · have hl : ¬ l.all p = true := by
        intro hall
        exact h (by simp [List.all_cons, hp, hall])
      obtain ⟨c, post, hsplit, hc⟩ := ih hl
      refine ⟨c, post, ?_, hc⟩
      rw [List.takeWhile_cons, if_pos hp, List.cons_append, ← hsplit]
    · refine ⟨a, l, ?_, by simpa using hp⟩
      rw [List.takeWhile_cons, if_neg hp, List.nil_append]

/-- A call whose range exceeds the buffer raises and appends nothing. -/
theorem add_item_raises (c : item_call) (hwf : c.wf = true) (tvb : tvbuff_t)
    (h : tvb.length < c.start + c.length) (p : proto_node_ref) (s : dissect_state) :
    proto_tree_add_item (some p) c.hf tvb c.start c.length s = .thrown .BoundsError s := by
  unfold proto_tree_add_item
  simp only [new_item_value_wf c hwf, if_neg (Nat.not_le.2 h)]

/-- A call whose range lies in the buffer returns and appends its node. -/
theorem add_item_returns (c : item_call) (hwf : c.wf = true) (tvb : tvbuff_t)
    (h : c.start + c.length ≤ tvb.length) (p : proto_node_ref) (s : dissect_state) :
    proto_tree_add_item (some p) c.hf tvb c.start c.length s
      = .ok (some (.item s.nodes.length))
          ⟨s.cinfo, s.nodes ++ [⟨p, ⟨c.hf, c.start, c.length, call_value tvb c⟩⟩]⟩ := by
  unfold proto_tree_add_item
  simp only [new_item_value_wf c hwf, if_pos h]

/-- Where a run of calls stops on a buffer that does not hold all of them. -/
theorem calls_stop_at_first_misfit (cs : List item_call) (hwf : ∀ c ∈ cs, c.wf = true)
    (tvb : tvbuff_t) (h : ¬ cs.all (item_call.fits tvb.length) = true) :
    ∃ pre c post, cs = pre ++ c :: post
      ∧ (∀ d ∈ pre, d.start + d.length ≤ tvb.length)
      ∧ tvb.length < c.start + c.length
      ∧ cs.takeWhile (item_call.fits tvb.length) = pre
      ∧ ∀ (p : proto_node_ref) (s : dissect_state),
          proto_tree_add_item (some p) c.hf tvb c.start c.length s = .thrown .BoundsError s := by
  obtain ⟨c, post, hsplit, hc⟩ := takeWhile_split _ cs h
  have hlt : tvb.length < c.start + c.length := by
    simpa [item_call.fits] using hc
  have hmem : c ∈ cs := by
    rw [hsplit]
    exact List.mem_append_right _ (List.mem_cons_self _ _)
  refine ⟨_, c, post, hsplit, fun d hd => ?_, hlt, rfl,
    fun p s => add_item_raises c (hwf c hmem) tvb hlt p s⟩
  simpa [item_call.fits] using List.mem_takeWhile_imp hd

/-- C34. No returned field reads past the buffer.  For each decoder and every
buffer, every node of the returned tree, complete or not, has a byte range
within the buffer.  The run either returns, with a node for every call, or
raises the out-of-bounds exception; when it raises, the calls split, in program
order, which is the order of the registration array, into the calls made, whose
ranges all lie in the buffer and whose nodes are the tree, and a first call
whose range exceeds the buffer: that call is the one that raises. -/
theorem no_field_past_buffer (tvb : tvbuff_t) :
    (∀ n ∈ (decode_adp tvb).state.nodes, n.finfo.start + n.finfo.length ≤ tvb.length)
      ∧ (∀ n ∈ (decode_acmp tvb).state.nodes, n.finfo.start + n.finfo.length ≤ tvb.length)
      ∧ ((decode_adp tvb).fault = none
          ∧ (decode_adp tvb).state.nodes = adp_calls.map (node_of tvb .root 0)
        ∨ (decode_adp tvb).fault = some .BoundsError
          ∧ ∃ pre c post, adp_calls = pre ++ c :: post
            ∧ (∀ d ∈ pre, d.start + d.length ≤ tvb.length)
            ∧ tvb.length < c.start + c.length
            ∧ (decode_adp tvb).state.nodes = pre.map (node_of tvb .root 0)
            ∧ ∀ (p : proto_node_ref) (s : dissect_state),
                proto_tree_add_item (some p) c.hf tvb c.start c.length s
                  = .thrown .BoundsError s)
      ∧ ((decode_acmp tvb).fault = none
          ∧ (decode_acmp tvb).state.nodes = acmp_calls.map (node_of tvb .root 0)
        ∨ (decode_acmp tvb).fault = some .BoundsError
          ∧ ∃ pre c post, acmp_calls = pre ++ c :: post
            ∧ (∀ d ∈ pre, d.start + d.length ≤ tvb.length)
            ∧ tvb.length < c.start + c.length
            ∧ (decode_acmp tvb).state.nodes = pre.map (node_of tvb .root 0)
            ∧ ∀ (p : proto_node_ref) (s : dissect_state),
                proto_tree_add_item (some p) c.hf tvb c.start c.length s
                  = .thrown .BoundsError s)
      ∧ adp_calls.map (fun c => c.hf) = hf.take 70
      ∧ acmp_calls.map (fun c => c.hf) = hf.drop 70 := by
  refine ⟨fun n hn => ?_, fun n hn => ?_, ?_, ?_, ?_, ?_⟩
  · obtain ⟨c, _, hfit, rfl⟩ := mem_decode_adp tvb n hn
    exact hfit
  · obtain ⟨c, _, hfit, rfl⟩ := mem_decode_acmp tvb n hn
    exact hfit
  · unfold decode_adp
    rw [dissect_17221_adp_run]
    by_cases h : adp_calls.all (item_call.fits tvb.length) = true
    · rw [if_pos h]
      exact Or.inl ⟨rfl, rfl⟩
    · rw [if_neg h]
      obtain ⟨pre, c, post, hsplit, hpre, hc, htw, hraise⟩ :=
        calls_stop_at_first_misfit adp_calls adp_calls_wf tvb h
      refine Or.inr ⟨rfl, pre, c, post, hsplit, hpre, hc, ?_, hraise⟩
      simp only [Result.state, empty_state, List.nil_append, List.length_nil, htw]
  · unfold decode_acmp
    rw [dissect_17221_acmp_run]
    by_cases h : acmp_calls.all (item_call.fits tvb.length) = true
    · rw [if_pos h]
      exact Or.inl ⟨rfl, rfl⟩
    · rw [if_neg h]
      obtain ⟨pre, c, post, hsplit, hpre, hc, htw, hraise⟩ :=
        calls_stop_at_first_misfit acmp_calls acmp_calls_wf tvb h
      refine Or.inr ⟨rfl, pre, c, post, hsplit, hpre, hc, ?_, hraise⟩
      simp only [Result.state, empty_state, List.nil_append, List.length_nil, htw]
  · simpa [List.map_map, Function.comp_def, call_shape] using preorder_facts.2.1
  · simpa [List.map_map, Function.comp_def, call_shape] using preorder_facts.2.2.2.1

/-- Witness for C34: the three nodes decoded from the first ten octets of the
example advertisement lie within those ten octets. -/
theorem no_field_past_buffer_witness :
    ∀ n ∈ (decode_adp (adp_example.take 10)).state.nodes,
      n.finfo.start + n.finfo.length ≤ (adp_example.take 10).length :=
  (no_field_past_buffer (adp_example.take 10)).1

/-! ## C35: a group item that does not fit -/

set_option maxRecDepth 100000 in
theorem adp_calls_cut_49 : ∀ L, L < 52 → 49 ≤ L →
    adp_calls.takeWhile (item_call.fits L) = adp_calls.take 39 := by
  decide

set_option maxRecDepth 100000 in
theorem adp_calls_take_39_facts :
    ((adp_calls.take 39).map (call_shape .root 0)).getLast? = some (.root, hf_adp_as_gm_id)
      ∧ ((adp_calls.take 39).map (call_shape .root 0)).map (fun p => p.2) = hf.take 39
      ∧ adp_calls[39]? = some ⟨none, hf_adp_def_aud_format, 48, 4⟩
      ∧ adp_calls[40]? = some ⟨some 39, hf_adp_def_aud_sample_rates, 48, 1⟩
      ∧ (∀ h ∈ (hf.take 70).drop 39,
          (adp_calls.take 39).find? (fun c => decide (c.hf = h)) = none)
      ∧ (∀ h ∈ [hf_adp_def_aud_format, hf_adp_def_aud_sample_rates, hf_adp_samp_rate_44k1,
            hf_adp_samp_rate_48k, hf_adp_samp_rate_88k2, hf_adp_samp_rate_96k,
            hf_adp_samp_rate_176k4, hf_adp_samp_rate_192k],
          h ∈ (hf.take 70).drop 39
            ∧ ∃ c ∈ adp_calls, c.hf = h ∧ c.start = 48 ∧ (c.length = 1 ∨ c.length = 4))
      ∧ (adp_calls.filter (fun c => decide (c.start + c.length ≤ 49))).length = 46 := by
  decide

/-- C35. A truncated parent hides children that would fit.  On every buffer of
49 to 51 octets the ADP decoder raises the out-of-bounds exception at the 4-byte
Default Audio Format call: the tree is the nodes of the 39 calls before it, the
first 39 entries of the registration array, and ends with AS Grandmaster ID.
It has no node for Default Audio Format, Sample Rates, any rate flag or any
later ADP field, although the one-octet range of Sample Rates and of the six rate
flags, octet 48, lies in the buffer and a Sample Rates call on its own would
return.  So the fields of the tree are not all the fields whose ranges fit. -/
theorem truncated_parent_hides_children (tvb : tvbuff_t) (h49 : 49 ≤ tvb.length)
    (h51 : tvb.length ≤ 51) :
    (decode_adp tvb).fault = some .BoundsError
      ∧ (decode_adp tvb).state.nodes = (adp_calls.take 39).map (node_of tvb .root 0)
      ∧ (decode_adp tvb).state.nodes.length = 39
      ∧ (tree_shape (decode_adp tvb).state.nodes).getLast? = some (.root, hf_adp_as_gm_id)
      ∧ (tree_shape (decode_adp tvb).state.nodes).map (fun p => p.2) = hf.take 39
      ∧ (∀ (p : proto_node_ref) (s : dissect_state),
          proto_tree_add_item (some p) hf_adp_def_aud_format tvb 48 4 s
            = .thrown .BoundsError s)
      ∧ (∀ h ∈ (hf.take 70).drop 39, field_of (decode_adp tvb).state.nodes h = none)
      ∧ (∀ h ∈ [hf_adp_def_aud_format, hf_adp_def_aud_sample_rates, hf_adp_samp_rate_44k1,
            hf_adp_samp_rate_48k, hf_adp_samp_rate_88k2, hf_adp_samp_rate_96k,
            hf_adp_samp_rate_176k4, hf_adp_samp_rate_192k],
          field_of (decode_adp tvb).state.nodes h = none)
      ∧ (⟨some 39, hf_adp_def_aud_sample_rates, 48, 1⟩ : item_call) ∈ adp_calls
      ∧ 48 + 1 ≤ tvb.length
      ∧ (∀ (p : proto_node_ref) (s : dissect_state),
          proto_tree_add_item (some p) hf_adp_def_aud_sample_rates tvb 48 1 s
            = .ok (some (.item s.nodes.length))
                ⟨s.cinfo, s.nodes ++ [⟨p, ⟨hf_adp_def_aud_sample_rates, 48, 1,
                  call_value tvb ⟨some 39, hf_adp_def_aud_sample_rates, 48, 1⟩⟩⟩]⟩)
      ∧ (∃ c ∈ adp_calls, c.start + c.length ≤ tvb.length
          ∧ field_of (decode_adp tvb).state.nodes c.hf = none) := by
  obtain ⟨k1, k2, k3, k4, k5, k6, -⟩ := adp_calls_take_39_facts
  have hnodes : (decode_adp tvb).state.nodes = (adp_calls.take 39).map (node_of tvb .root 0) := by
    unfold decode_adp
    rw [adp_nodes, adp_calls_cut_49 tvb.length (by omega) h49]
    rfl
  have hnone : ∀ h ∈ (hf.take 70).drop 39, field_of (decode_adp tvb).state.nodes h = none := by
    intro h hh
    rw [hnodes, field_of_map_node_of, k5 h hh]
    rfl
  have hsr : field_of (decode_adp tvb).state.nodes hf_adp_def_aud_sample_rates = none :=
    hnone _ (k6 _ (by decide)).1
  refine ⟨?_, hnodes, ?_, ?_, ?_, fun p s => ?_, hnone, fun h hh => hnone h (k6 h hh).1,
    by decide, by omega, fun p s => ?_, ⟨⟨some 39, hf_adp_def_aud_sample_rates, 48, 1⟩,
      by decide, by show 48 + 1 ≤ _; omega, hsr⟩⟩
  · unfold decode_adp
    rw [adp_fault, if_neg (by omega)]
  · rw [hnodes, List.length_map]
    rfl
  · rw [hnodes, tree_shape_map_node_of]
    exact k1
  · rw [hnodes, tree_shape_map_node_of]
    exact k2
  · exact add_item_raises ⟨none, hf_adp_def_aud_format, 48, 4⟩ (by decide) tvb
      (by show _ < 48 + 4; omega) p s
  · exact add_item_returns ⟨some 39, hf_adp_def_aud_sample_rates, 48, 1⟩ (by decide) tvb
      (by show 48 + 1 ≤ _; omega) p s

/-- Witness for C35: the first 50 octets of the example advertisement. -/
theorem truncated_parent_hides_children_witness :
    (decode_adp (adp_example.take 50)).fault = some .BoundsError
      ∧ (tree_shape (decode_adp (adp_example.take 50)).state.nodes).getLast?
        = some (.root, hf_adp_as_gm_id)
      ∧ field_of (decode_adp (adp_example.take 50)).state.nodes hf_adp_def_aud_sample_rates
        = none :=
  ⟨(truncated_parent_hides_children (adp_example.take 50) (by decide) (by decide)).1,
    (truncated_parent_hides_children (adp_example.take 50) (by decide) (by decide)).2.2.2.1,
    (truncated_parent_hides_children (adp_example.take 50) (by decide)
      (by decide)).2.2.2.2.2.2.2.1 hf_adp_def_aud_sample_rates (by decide)⟩

end Ieee17221
